import Mathlib

/-!
# The data-channel control plane of `programs/rtcweb.c`

A shallow embedding of the channel table, the stream allocator, the open / close / reset
state machine and the message dispatcher of `rtcweb.c`, followed by theorems about them.

Conventions of the embedding

* C arrays of fixed size are functions on `Fin n`; a `struct channel *` that is either `NULL`
  or points into `pc->channels` is an `Option (Fin NUMBER_OF_CHANNELS)`.
* Machine integers are natural numbers; a reduction modulo `2^w` is written where the C code
  converts or may wrap.
* A function whose C text can dereference `NULL`, index an array out of bounds or read an
  uninitialised local returns an `Option`; `none` is that undefined behaviour.
* The SCTP socket is an oracle `Socket`: the answer to the `n`-th call into the transport
  (or into `malloc`).  A `World` is the peer connection together with the number of calls made
  so far and the list of everything handed to the transport or printed for the consumer.
-/

namespace Rtcweb

/-! ## Constants of `rtcweb.c` -/

abbrev NUMBER_OF_CHANNELS : Nat := 100
abbrev NUMBER_OF_STREAMS : Nat := 100

abbrev DATA_CHANNEL_PPID_CONTROL : Nat := 50
abbrev DATA_CHANNEL_PPID_DOMSTRING : Nat := 51
abbrev DATA_CHANNEL_PPID_BINARY : Nat := 52

abbrev DATA_CHANNEL_CLOSED : Nat := 0
abbrev DATA_CHANNEL_CONNECTING : Nat := 1
abbrev DATA_CHANNEL_OPEN : Nat := 2
abbrev DATA_CHANNEL_CLOSING : Nat := 3

abbrev DATA_CHANNEL_OPEN_REQUEST : Nat := 0
abbrev DATA_CHANNEL_OPEN_RESPONSE : Nat := 1
abbrev DATA_CHANNEL_ACK : Nat := 2

abbrev DATA_CHANNEL_RELIABLE : Nat := 0
abbrev DATA_CHANNEL_RELIABLE_STREAM : Nat := 1
abbrev DATA_CHANNEL_UNRELIABLE : Nat := 2
abbrev DATA_CHANNEL_PARTIAL_RELIABLE_REXMIT : Nat := 3
abbrev DATA_CHANNEL_PARTIAL_RELIABLE_TIMED : Nat := 4

abbrev DATA_CHANNEL_FLAG_OUT_OF_ORDER_ALLOWED : Nat := 1

/-- Modelled from the spec: `SCTP_PR_SCTP_NONE` is declared in `usrsctp.h`, which is not among
the sources; it is the policy the spec calls RELIABLE.  The number is the one of the header. -/
abbrev SCTP_PR_SCTP_NONE : Nat := 0

/-- Modelled from the spec: `SCTP_PR_SCTP_TTL` is declared in `usrsctp.h`, which is not among
the sources; it is the policy the spec calls PARTIAL_TIMED. -/
abbrev SCTP_PR_SCTP_TTL : Nat := 1

/-- Modelled from the spec: `SCTP_PR_SCTP_RTX` is declared in `usrsctp.h`, which is not among
the sources; it is the policy the spec calls PARTIAL_REXMIT. -/
abbrev SCTP_PR_SCTP_RTX : Nat := 3

/-- The size of `struct rtcweb_datachannel_open_request` (packed, empty flexible label). -/
abbrev SIZEOF_OPEN_REQUEST : Nat := 8
/-- The size of `struct rtcweb_datachannel_open_response` (packed). -/
abbrev SIZEOF_OPEN_RESPONSE : Nat := 6
/-- The size of `struct rtcweb_datachannel_ack` (packed). -/
abbrev SIZEOF_ACK : Nat := 1

/-! ## Data model -/

/-- The record `struct channel`. -/
structure channel where
  id : Nat
  pr_value : Nat
  pr_policy : Nat
  i_stream : Nat
  o_stream : Nat
  unordered : Nat
  state : Nat
deriving DecidableEq, Repr

/-- The record `struct peer_connection`, without its mutex and without the socket, which is
the oracle passed to every function that talks to the transport. -/
structure peer_connection where
  channels : Fin NUMBER_OF_CHANNELS → channel
  i_stream_channel : Fin NUMBER_OF_STREAMS → Option (Fin NUMBER_OF_CHANNELS)
  o_stream_channel : Fin NUMBER_OF_STREAMS → Option (Fin NUMBER_OF_CHANNELS)
  o_stream_buffer : Fin NUMBER_OF_STREAMS → Nat
  o_stream_buffer_counter : Nat

/-- The assignment `a[i] = v` on an array of fixed size. -/
def setAt {n : Nat} {α : Type} (a : Fin n → α) (i : Fin n) (v : α) : Fin n → α :=
  fun j => if j = i then v else a j

/-- What the transport (or the allocator) answers to one call: the field read is the one of
the call that is being made. -/
structure Reply where
  /-- `getsockopt(SCTP_STATUS)`: `none` is the error return, `some n` gives `sstat_outstrms`. -/
  status : Option Nat
  /-- `usrsctp_sendv` did not return an error. -/
  sendv : Bool
  /-- `usrsctp_setsockopt` did not return an error. -/
  setsockopt : Bool
  /-- `malloc` did not return `NULL`. -/
  malloc : Bool

/-- The socket as an oracle: the answer to the `n`-th call. -/
abbrev Socket := Nat → Reply

/-- What the program hands to the outside. -/
inductive Event where
  /-- A `usrsctp_sendv` call: stream id, payload bytes, PPID in host order, whether
  `SCTP_UNORDERED` is set next to `SCTP_EOR`, and the partial-reliability information. -/
  | sendv (sid : Nat) (payload : List Nat) (ppid : Nat) (unordered : Bool)
      (prinfo : Option (Nat × Nat))
  /-- A `setsockopt(SCTP_ADD_STREAMS)` call. -/
  | add_streams (sas_instrms sas_outstrms : Nat)
  /-- A `setsockopt(SCTP_RESET_STREAMS)` call for outgoing streams. -/
  | reset_streams (srs_stream_list : List Nat)
  /-- The `printf` of `handle_data_message` that hands a user message to the consumer. -/
  | message_received (length id : Nat) (buffer : List Nat)
deriving DecidableEq, Repr

/-- The peer connection, the number of oracle calls made, and the events so far (oldest
first). -/
structure World where
  pc : peer_connection
  calls : Nat
  trace : List Event

/-! ## The transport interface -/

/-- Modelled from the spec: `usrsctp_getsockopt(SCTP_STATUS)` is library code outside the
sources; the spec describes it as `query_outbound_stream_count() → u16`.  The result is the
error return or the 16-bit `sstat_outstrms`. -/
def usrsctp_getsockopt_status (sock : Socket) (w : World) : Option Nat × World :=
  (((sock w.calls).status).map (fun n => n % 65536), { w with calls := w.calls + 1 })

/-- Modelled from the spec: `usrsctp_sendv` is library code outside the sources; the spec
describes it as `send(stream_id, payload, ppid, flags)` returning success or failure. -/
def usrsctp_sendv (sock : Socket) (w : World) (sid : Nat) (payload : List Nat) (ppid : Nat)
    (unordered : Bool) (prinfo : Option (Nat × Nat)) : Bool × World :=
  ((sock w.calls).sendv,
    { w with calls := w.calls + 1,
             trace := w.trace ++ [Event.sendv sid payload ppid unordered prinfo] })

/-- Modelled from the spec: `usrsctp_setsockopt(SCTP_ADD_STREAMS)` is library code outside the
sources; the spec describes it as `request_add_streams(inbound, outbound)`. -/
def usrsctp_setsockopt_add_streams (sock : Socket) (w : World) (sas_instrms sas_outstrms : Nat) :
    Bool × World :=
  ((sock w.calls).setsockopt,
    { w with calls := w.calls + 1,
             trace := w.trace ++ [Event.add_streams sas_instrms sas_outstrms] })

/-- Modelled from the spec: `usrsctp_setsockopt(SCTP_RESET_STREAMS)` is library code outside
the sources; the spec describes it as `request_stream_reset(outgoing_ids)`. -/
def usrsctp_setsockopt_reset_streams (sock : Socket) (w : World) (srs_stream_list : List Nat) :
    Bool × World :=
  ((sock w.calls).setsockopt,
    { w with calls := w.calls + 1,
             trace := w.trace ++ [Event.reset_streams srs_stream_list] })

/-- The allocator call of `send_outgoing_stream_reset`: whether `malloc` returned a block. -/
def malloc (sock : Socket) (w : World) : Bool × World :=
  ((sock w.calls).malloc, { w with calls := w.calls + 1 })

/-! ## Channel table -/

/-- The function `init_peer_connection`. -/
def init_peer_connection : peer_connection where
  channels := fun i =>
    { id := i.val, state := DATA_CHANNEL_CLOSED, pr_policy := SCTP_PR_SCTP_NONE, pr_value := 0,
      i_stream := 0, o_stream := 0, unordered := 0 }
  i_stream_channel := fun _ => none
  o_stream_channel := fun _ => none
  o_stream_buffer := fun _ => 0
  o_stream_buffer_counter := 0

/-- The function `find_channel_by_i_stream`. -/
def find_channel_by_i_stream (pc : peer_connection) (i_stream : Nat) :
    Option (Fin NUMBER_OF_CHANNELS) :=
  if h : i_stream < NUMBER_OF_STREAMS then pc.i_stream_channel ⟨i_stream, h⟩ else none

/-- The function `find_channel_by_o_stream`. -/
def find_channel_by_o_stream (pc : peer_connection) (o_stream : Nat) :
    Option (Fin NUMBER_OF_CHANNELS) :=
  if h : o_stream < NUMBER_OF_STREAMS then pc.o_stream_channel ⟨o_stream, h⟩ else none

/-- The loop `for (i = i0; ...; i++) { if (p i) break; }` run for at most `k` rounds: the value
of `i` when it stops. -/
def scan (p : Nat → Bool) : Nat → Nat → Nat
  | i, 0 => i
  | i, k + 1 => if p i then i else scan p (i + 1) k

/-- The test of the loop of `find_free_channel`. -/
def channel_is_closed (pc : peer_connection) (i : Nat) : Bool :=
  if h : i < NUMBER_OF_CHANNELS then (pc.channels ⟨i, h⟩).state == DATA_CHANNEL_CLOSED else false

/-- The function `find_free_channel`. -/
def find_free_channel (pc : peer_connection) : Option (Fin NUMBER_OF_CHANNELS) :=
  let i := scan (channel_is_closed pc) 0 NUMBER_OF_CHANNELS
  if h : i < NUMBER_OF_CHANNELS then some ⟨i, h⟩ else none

/-- The test of the loop of `find_free_o_stream`. -/
def o_stream_is_free (pc : peer_connection) (i : Nat) : Bool :=
  if h : i < NUMBER_OF_STREAMS then (pc.o_stream_channel ⟨i, h⟩).isNone else false

/-- The function `find_free_o_stream`: the loop starts at 1 and runs while `i < limit`. -/
def find_free_o_stream (sock : Socket) (w : World) : Nat × World :=
  match usrsctp_getsockopt_status sock w with
  | (none, w1) => (0, w1)
  | (some sstat_outstrms, w1) =>
    let limit := if sstat_outstrms < NUMBER_OF_STREAMS then sstat_outstrms else NUMBER_OF_STREAMS
    let i := scan (o_stream_is_free w1.pc) 1 (limit - 1)
    if i = limit then (0, w1) else (i % 65536, w1)

/-- The number of `i < n` that pass the test: a counting `for` loop. -/
def count_upto (p : Nat → Bool) : Nat → Nat
  | 0 => 0
  | n + 1 => count_upto p n + (if p n then 1 else 0)

/-- The test of the loop of `request_more_o_streams`. -/
def channel_needs_o_stream (pc : peer_connection) (i : Nat) : Bool :=
  if h : i < NUMBER_OF_CHANNELS then
    (pc.channels ⟨i, h⟩).state == DATA_CHANNEL_CONNECTING && (pc.channels ⟨i, h⟩).o_stream == 0
  else false

/-- The function `request_more_o_streams`.  The sum is taken in 32 bits, the difference
`NUMBER_OF_STREAMS - sstat_outstrms` in `int` and stored in 32 bits unsigned, and the request
carries its low 16 bits. -/
def request_more_o_streams (sock : Socket) (w : World) : World :=
  let o_streams_needed := count_upto (channel_needs_o_stream w.pc) NUMBER_OF_CHANNELS
  match usrsctp_getsockopt_status sock w with
  | (none, w1) => w1
  | (some sstat_outstrms, w1) =>
    let o_streams_needed :=
      if (sstat_outstrms + o_streams_needed) % 4294967296 > NUMBER_OF_STREAMS then
        (((NUMBER_OF_STREAMS : Int) - (sstat_outstrms : Int)) % 4294967296).toNat
      else o_streams_needed
    if o_streams_needed = 0 then w1
    else (usrsctp_setsockopt_add_streams sock w1 0 (o_streams_needed % 65536)).2

/-! ## Wire codec -/

/-- The function `send_open_request_message`; the result is whether it returned 1.  The
eight bytes are the packed request in network byte order. -/
def send_open_request_message (sock : Socket) (w : World) (o_stream unordered pr_policy
    pr_value : Nat) : Bool × World :=
  let channel_type : Option Nat :=
    if pr_policy = SCTP_PR_SCTP_NONE then some DATA_CHANNEL_RELIABLE
    else if pr_policy = SCTP_PR_SCTP_TTL then some DATA_CHANNEL_PARTIAL_RELIABLE_TIMED
    else if pr_policy = SCTP_PR_SCTP_RTX then some DATA_CHANNEL_PARTIAL_RELIABLE_REXMIT
    else none
  match channel_type with
  | none => (false, w)
  | some t =>
    let flags := if unordered ≠ 0 then DATA_CHANNEL_FLAG_OUT_OF_ORDER_ALLOWED else 0
    let reliability_params := pr_value % 65536
    usrsctp_sendv sock w o_stream
      [DATA_CHANNEL_OPEN_REQUEST, t, flags / 256, flags % 256,
        reliability_params / 256, reliability_params % 256, 0, 0]
      DATA_CHANNEL_PPID_CONTROL false none

/-- The function `send_open_response_message`; the result is whether it returned 1. -/
def send_open_response_message (sock : Socket) (w : World) (o_stream i_stream : Nat) :
    Bool × World :=
  usrsctp_sendv sock w o_stream
    [DATA_CHANNEL_OPEN_RESPONSE, 0, 0, 0, (i_stream % 65536) / 256, i_stream % 256]
    DATA_CHANNEL_PPID_CONTROL false none

/-- The function `send_open_ack_message`; the result is whether it returned 1. -/
def send_open_ack_message (sock : Socket) (w : World) (o_stream : Nat) : Bool × World :=
  usrsctp_sendv sock w o_stream [DATA_CHANNEL_ACK] DATA_CHANNEL_PPID_CONTROL false none

/-- The byte `buffer[k]` of a received message. -/
def byte_at (buffer : List Nat) (k : Nat) : Nat := buffer.getD k 0

/-- The conversion `ntohs` of the two bytes at offset `k`. -/
def ntohs_at (buffer : List Nat) (k : Nat) : Nat := byte_at buffer k * 256 + byte_at buffer (k + 1)

/-! ## Local operations -/

/-- The function `open_channel`: the channel returned (or `NULL`) and the new world. -/
def open_channel (sock : Socket) (w : World) (unordered pr_policy pr_value : Nat) :
    Option (Option (Fin NUMBER_OF_CHANNELS) × World) :=
  if pr_policy ≠ SCTP_PR_SCTP_NONE ∧ pr_policy ≠ SCTP_PR_SCTP_TTL ∧
      pr_policy ≠ SCTP_PR_SCTP_RTX then some (none, w)
  else if unordered ≠ 0 ∧ unordered ≠ 1 then some (none, w)
  else if pr_policy = SCTP_PR_SCTP_NONE ∧ pr_value ≠ 0 then some (none, w)
  else
    match find_free_channel w.pc with
    | none => some (none, w)
    | some c =>
      let (o_stream, w1) := find_free_o_stream sock w
      let (go, w2) :=
        if o_stream = 0 then (true, w1)
        else send_open_request_message sock w1 o_stream unordered pr_policy pr_value
      if go then
        let pc1 : peer_connection :=
          { w2.pc with
            channels := setAt w2.pc.channels c
              { w2.pc.channels c with
                state := DATA_CHANNEL_CONNECTING, unordered := unordered,
                pr_policy := pr_policy, pr_value := pr_value, o_stream := o_stream } }
        if o_stream ≠ 0 then
          if h : o_stream < NUMBER_OF_STREAMS then
            some (some c,
              { w2 with
                pc := { pc1 with
                        o_stream_channel := setAt pc1.o_stream_channel ⟨o_stream, h⟩ (some c) } })
          else none
        else some (some c, request_more_o_streams sock { w2 with pc := pc1 })
      else some (none, w2)

/-- The function `send_user_message`; the result is whether it returned 1. -/
def send_user_message (sock : Socket) (w : World) (channel : Option (Fin NUMBER_OF_CHANNELS))
    (message : List Nat) : Bool × World :=
  match channel with
  | none => (false, w)
  | some c =>
    let ch := w.pc.channels c
    if ch.state ≠ DATA_CHANNEL_OPEN ∧ ch.state ≠ DATA_CHANNEL_CONNECTING then (false, w)
    else
      usrsctp_sendv sock w ch.o_stream message DATA_CHANNEL_PPID_DOMSTRING
        (decide (ch.state = DATA_CHANNEL_OPEN ∧ ch.unordered ≠ 0))
        (if ch.pr_policy = SCTP_PR_SCTP_TTL ∨ ch.pr_policy = SCTP_PR_SCTP_RTX then
          some (ch.pr_policy, ch.pr_value) else none)

/-- The search loop of `reset_outgoing_stream`, from index `i` for `k` more rounds: whether
the stream id is already in the buffer; `none` when the loop reads beyond the buffer. -/
def o_stream_buffer_has (pc : peer_connection) (o_stream : Nat) : Nat → Nat → Option Bool
  | _, 0 => some false
  | i, k + 1 =>
    if h : i < NUMBER_OF_STREAMS then
      if pc.o_stream_buffer ⟨i, h⟩ = o_stream then some true
      else o_stream_buffer_has pc o_stream (i + 1) k
    else none

/-- The function `reset_outgoing_stream`. -/
def reset_outgoing_stream (pc : peer_connection) (o_stream : Nat) : Option peer_connection :=
  match o_stream_buffer_has pc o_stream 0 pc.o_stream_buffer_counter with
  | none => none
  | some true => some pc
  | some false =>
    if h : pc.o_stream_buffer_counter < NUMBER_OF_STREAMS then
      some { pc with
             o_stream_buffer := setAt pc.o_stream_buffer ⟨pc.o_stream_buffer_counter, h⟩ o_stream,
             o_stream_buffer_counter := pc.o_stream_buffer_counter + 1 }
    else none

/-- The first `n` entries of the pending-reset buffer, as copied into `srs_stream_list`. -/
def srs_stream_list (pc : peer_connection) : Nat → List Nat
  | 0 => []
  | n + 1 =>
    srs_stream_list pc n ++ [if h : n < NUMBER_OF_STREAMS then pc.o_stream_buffer ⟨n, h⟩ else 0]

/-- The function `send_outgoing_stream_reset`. -/
def send_outgoing_stream_reset (sock : Socket) (w : World) : Option World :=
  if w.pc.o_stream_buffer_counter = 0 then some w
  else
    match malloc sock w with
    | (false, w1) => some w1
    | (true, w1) =>
      if w1.pc.o_stream_buffer_counter ≤ NUMBER_OF_STREAMS then
        match usrsctp_setsockopt_reset_streams sock w1
            (srs_stream_list w1.pc w1.pc.o_stream_buffer_counter) with
        | (false, w2) => some w2
        | (true, w2) => some { w2 with pc := { w2.pc with o_stream_buffer_counter := 0 } }
      else none

/-- The function `close_channel`. -/
def close_channel (sock : Socket) (w : World) (channel : Option (Fin NUMBER_OF_CHANNELS)) :
    Option World :=
  match channel with
  | none => some w
  | some c =>
    if (w.pc.channels c).state ≠ DATA_CHANNEL_OPEN then some w
    else
      match reset_outgoing_stream w.pc (w.pc.channels c).o_stream with
      | none => none
      | some pc1 =>
        match send_outgoing_stream_reset sock { w with pc := pc1 } with
        | none => none
        | some w2 =>
          some { w2 with
                 pc := { w2.pc with
                         channels := setAt w2.pc.channels c
                           { w2.pc.channels c with state := DATA_CHANNEL_CLOSING } } }

/-! ## Handlers of received messages -/

/-- The `switch` of `handle_open_request_message` on `req->channel_type`; `none` is the
`default` case, which leaves the local `pr_policy` uninitialised. -/
def pr_policy_of_channel_type (channel_type : Nat) : Option Nat :=
  if channel_type = DATA_CHANNEL_RELIABLE then some SCTP_PR_SCTP_NONE
  else if channel_type = DATA_CHANNEL_RELIABLE_STREAM then some SCTP_PR_SCTP_NONE
  else if channel_type = DATA_CHANNEL_UNRELIABLE then some SCTP_PR_SCTP_TTL
  else if channel_type = DATA_CHANNEL_PARTIAL_RELIABLE_REXMIT then some SCTP_PR_SCTP_RTX
  else if channel_type = DATA_CHANNEL_PARTIAL_RELIABLE_TIMED then some SCTP_PR_SCTP_TTL
  else none

/-- The function `handle_open_request_message`.  Undefined behaviour: the read of the
uninitialised `pr_policy` and the write `pc->i_stream_channel[i_stream]` beyond the table. -/
def handle_open_request_message (sock : Socket) (w : World) (req : List Nat) (i_stream : Nat) :
    Option World :=
  match find_channel_by_i_stream w.pc i_stream with
  | some _ => some w
  | none =>
    match find_free_channel w.pc with
    | none => some w
    | some c =>
      let pr_policy := pr_policy_of_channel_type (byte_at req 1)
      let pr_value := ntohs_at req 4
      let unordered :=
        if ntohs_at req 2 &&& DATA_CHANNEL_FLAG_OUT_OF_ORDER_ALLOWED ≠ 0 then 1 else 0
      let (o_stream, w1) := find_free_o_stream sock w
      let (go, w2) :=
        if o_stream = 0 then (true, w1)
        else send_open_response_message sock w1 o_stream i_stream
      if go then
        match pr_policy with
        | none => none
        | some pr_policy =>
          if hi : i_stream < NUMBER_OF_STREAMS then
            let ch : channel :=
              { w2.pc.channels c with
                state := DATA_CHANNEL_CONNECTING, unordered := unordered,
                pr_policy := pr_policy, pr_value := pr_value, i_stream := i_stream }
            let pc1 : peer_connection :=
              { w2.pc with
                channels := setAt w2.pc.channels c ch,
                i_stream_channel := setAt w2.pc.i_stream_channel ⟨i_stream, hi⟩ (some c) }
            if o_stream ≠ 0 then
              if ho : o_stream < NUMBER_OF_STREAMS then
                some { w2 with
                       pc := { pc1 with
                               channels := setAt pc1.channels c { ch with o_stream := o_stream },
                               o_stream_channel :=
                                 setAt pc1.o_stream_channel ⟨o_stream, ho⟩ (some c) } }
              else none
            else some (request_more_o_streams sock { w2 with pc := pc1 })
          else none
      else some w2

/-- The function `handle_open_response_message`.  The three tests of the C text have empty
bodies, so none of them returns.  Undefined behaviour: `channel->state` with `channel == NULL`
and the write `pc->i_stream_channel[i_stream]` beyond the table. -/
def handle_open_response_message (sock : Socket) (w : World) (rsp : List Nat) (i_stream : Nat) :
    Option World :=
  let o_stream := ntohs_at rsp 4
  match find_channel_by_o_stream w.pc o_stream with
  | none => none
  | some c =>
    if hi : i_stream < NUMBER_OF_STREAMS then
      let pc1 : peer_connection :=
        { w.pc with
          channels := setAt w.pc.channels c
            { w.pc.channels c with i_stream := i_stream, state := DATA_CHANNEL_OPEN },
          i_stream_channel := setAt w.pc.i_stream_channel ⟨i_stream, hi⟩ (some c) }
      some (send_open_ack_message sock { w with pc := pc1 } o_stream).2
    else none

/-- The function `handle_open_ack_message`.  Undefined behaviour: `channel->state` with
`channel == NULL`, the test for `NULL` having an empty body. -/
def handle_open_ack_message (w : World) (i_stream : Nat) : Option World :=
  match find_channel_by_i_stream w.pc i_stream with
  | none => none
  | some c =>
    if (w.pc.channels c).state = DATA_CHANNEL_OPEN then some w
    else if (w.pc.channels c).state ≠ DATA_CHANNEL_CONNECTING then some w
    else
      some { w with
             pc := { w.pc with
                     channels := setAt w.pc.channels c
                       { w.pc.channels c with state := DATA_CHANNEL_OPEN } } }

/-- The function `handle_unknown_message`. -/
def handle_unknown_message (w : World) : World := w

/-- The function `handle_data_message`. -/
def handle_data_message (w : World) (buffer : List Nat) (i_stream : Nat) : World :=
  match find_channel_by_i_stream w.pc i_stream with
  | none => w
  | some c =>
    let w1 : World :=
      if (w.pc.channels c).state = DATA_CHANNEL_CONNECTING then
        { w with
          pc := { w.pc with
                  channels := setAt w.pc.channels c
                    { w.pc.channels c with state := DATA_CHANNEL_OPEN } } }
      else w
    if (w1.pc.channels c).state ≠ DATA_CHANNEL_OPEN then w1
    else
      { w1 with
        trace := w1.trace ++
          [Event.message_received buffer.length (w1.pc.channels c).id buffer] }

/-- The function `handle_message`; `length` is the length of `buffer`. -/
def handle_message (sock : Socket) (w : World) (buffer : List Nat) (ppid i_stream : Nat) :
    Option World :=
  if ppid = DATA_CHANNEL_PPID_CONTROL then
    if buffer.length < SIZEOF_ACK then some w
    else if byte_at buffer 0 = DATA_CHANNEL_OPEN_REQUEST then
      if buffer.length < SIZEOF_OPEN_REQUEST then some w
      else handle_open_request_message sock w buffer i_stream
    else if byte_at buffer 0 = DATA_CHANNEL_OPEN_RESPONSE then
      if buffer.length < SIZEOF_OPEN_RESPONSE then some w
      else handle_open_response_message sock w buffer i_stream
    else if byte_at buffer 0 = DATA_CHANNEL_ACK then
      if buffer.length < SIZEOF_ACK then some w
      else handle_open_ack_message w i_stream
    else some (handle_unknown_message w)
  else if ppid = DATA_CHANNEL_PPID_DOMSTRING ∨ ppid = DATA_CHANNEL_PPID_BINARY then
    some (handle_data_message w buffer i_stream)
  else some w

/-! ## Handlers of notifications -/

/-- The four tests `handle_stream_reset_event` makes on `strreset_flags`; the bit masks
themselves are declared in `usrsctp.h`. -/
structure strreset_flags where
  incoming_ssn : Bool
  outgoing_ssn : Bool
  denied : Bool
  failed : Bool
deriving DecidableEq, Repr

/-- The two tests `handle_stream_change_event` makes on `strchange_flags`. -/
structure strchange_flags where
  denied : Bool
  failed : Bool
deriving DecidableEq, Repr

/-- The cases of `union sctp_notification` that `handle_notification` tells apart by
`sn_type`; a stream-reset event carries its flags and its list of stream ids, and a peer
address change carries the result of the one test that matters for the behaviour of its
handler: whether `spc_aaddr.ss_family` is `AF_INET` or `AF_INET6`. -/
inductive sctp_notification where
  | assoc_change
  | peer_addr_change (inet_family : Bool)
  | remote_error
  | shutdown_event
  | adaptation_indication
  | pdapi_event
  | authentication_event
  | sender_dry_event
  | notifications_stopped_event
  | send_failed_event
  | stream_reset_event (strreset_flags : strreset_flags) (strreset_stream_list : List Nat)
  | assoc_reset_event
  | stream_change_event (strchange_flags : strchange_flags)
  | unknown
deriving DecidableEq, Repr

/-- The record written by both `CLOSED` branches of the event handlers:
`pr_policy`, `pr_value` and `unordered` cleared and the state set to `CLOSED`. -/
def channel.cleared (ch : channel) : channel :=
  { ch with
    pr_policy := SCTP_PR_SCTP_NONE, pr_value := 0, unordered := 0, state := DATA_CHANNEL_CLOSED }

/-- The `INCOMING_SSN` half of one round of the loop of `handle_stream_reset_event`. -/
def strreset_incoming (pc : peer_connection) (s : Nat) : Option peer_connection :=
  match find_channel_by_i_stream pc s with
  | none => some pc
  | some c =>
    if h : (pc.channels c).i_stream < NUMBER_OF_STREAMS then
      let ch : channel := { pc.channels c with i_stream := 0 }
      let pc1 : peer_connection :=
        { pc with
          i_stream_channel := setAt pc.i_stream_channel ⟨(pc.channels c).i_stream, h⟩ none,
          channels := setAt pc.channels c ch }
      if ch.o_stream = 0 then
        some { pc1 with channels := setAt pc1.channels c ch.cleared }
      else
        match reset_outgoing_stream pc1 ch.o_stream with
        | none => none
        | some pc2 =>
          some { pc2 with
                 channels := setAt pc2.channels c
                   { pc2.channels c with state := DATA_CHANNEL_CLOSING } }
    else none

/-- The `OUTGOING_SSN` half of one round of the loop of `handle_stream_reset_event`. -/
def strreset_outgoing (pc : peer_connection) (s : Nat) : Option peer_connection :=
  match find_channel_by_o_stream pc s with
  | none => some pc
  | some c =>
    if h : (pc.channels c).o_stream < NUMBER_OF_STREAMS then
      let ch : channel := { pc.channels c with o_stream := 0 }
      let pc1 : peer_connection :=
        { pc with
          o_stream_channel := setAt pc.o_stream_channel ⟨(pc.channels c).o_stream, h⟩ none,
          channels := setAt pc.channels c ch }
      if ch.i_stream = 0 then
        some { pc1 with channels := setAt pc1.channels c ch.cleared }
      else some pc1
    else none

/-- One round of the loop of `handle_stream_reset_event`, for the stream id `s`. -/
def strreset_round (flags : strreset_flags) (pc : peer_connection) (s : Nat) :
    Option peer_connection :=
  match (if flags.incoming_ssn then strreset_incoming pc s else some pc) with
  | none => none
  | some pc1 => if flags.outgoing_ssn then strreset_outgoing pc1 s else some pc1

/-- The loop of `handle_stream_reset_event` over the listed stream ids. -/
def strreset_loop (flags : strreset_flags) : peer_connection → List Nat → Option peer_connection
  | pc, [] => some pc
  | pc, s :: rest =>
    match strreset_round flags pc s with
    | none => none
    | some pc1 => strreset_loop flags pc1 rest

/-- The function `handle_stream_reset_event`. -/
def handle_stream_reset_event (pc : peer_connection) (flags : strreset_flags)
    (list : List Nat) : Option peer_connection :=
  if !flags.denied && !flags.failed then strreset_loop flags pc list else some pc

/-- The loop of `handle_stream_change_event` from channel `i` for `k` more rounds. -/
def strchange_loop (sock : Socket) (flags : strchange_flags) : World → Nat → Nat → Option World
  | w, _, 0 => some w
  | w, i, k + 1 =>
    if hi : i < NUMBER_OF_CHANNELS then
      let c : Fin NUMBER_OF_CHANNELS := ⟨i, hi⟩
      let ch := w.pc.channels c
      if ch.state = DATA_CHANNEL_CONNECTING ∧ ch.o_stream = 0 then
        if flags.denied || flags.failed then
          strchange_loop sock flags
            { w with
              pc := { w.pc with
                      channels := setAt w.pc.channels c { ch.cleared with o_stream := 0 } } }
            (i + 1) k
        else
          let (o_stream, w1) := find_free_o_stream sock w
          if o_stream ≠ 0 then
            let (sent, w2) :=
              if ch.i_stream ≠ 0 then send_open_response_message sock w1 o_stream ch.i_stream
              else send_open_request_message sock w1 o_stream ch.unordered ch.pr_policy
                ch.pr_value
            if sent then
              if ho : o_stream < NUMBER_OF_STREAMS then
                strchange_loop sock flags
                  { w2 with
                    pc := { w2.pc with
                            channels := setAt w2.pc.channels c { ch with o_stream := o_stream },
                            o_stream_channel :=
                              setAt w2.pc.o_stream_channel ⟨o_stream, ho⟩ (some c) } }
                  (i + 1) k
              else none
            else if ch.i_stream ≠ 0 then strchange_loop sock flags w2 (i + 1) k
            else
              strchange_loop sock flags
                { w2 with
                  pc := { w2.pc with
                          channels := setAt w2.pc.channels c { ch.cleared with o_stream := 0 } } }
                (i + 1) k
          else some w1
      else strchange_loop sock flags w (i + 1) k
    else some w

/-- The function `handle_stream_change_event`. -/
def handle_stream_change_event (sock : Socket) (w : World) (flags : strchange_flags) :
    Option World :=
  strchange_loop sock flags w 0 NUMBER_OF_CHANNELS

/-- The function `handle_notification`; `sn_length` is the length field of the header and `n`
the number of bytes received.  The handlers that only print are the identity, except
`handle_peer_address_change_event`: for an address family other than `AF_INET` and `AF_INET6`
its `switch` leaves the local `addr` uninitialised and the `printf` that follows reads it,
which is undefined behaviour. -/
def handle_notification (sock : Socket) (w : World) (sn_length : Nat)
    (notif : sctp_notification) (n : Nat) : Option World :=
  if sn_length ≠ n % 4294967296 then some w
  else
    match notif with
    | sctp_notification.peer_addr_change inet_family =>
      if inet_family then some w else none
    | sctp_notification.stream_reset_event flags list =>
      match handle_stream_reset_event w.pc flags list with
      | none => none
      | some pc1 =>
        match send_outgoing_stream_reset sock { w with pc := pc1 } with
        | none => none
        | some w2 => some (request_more_o_streams sock w2)
    | sctp_notification.stream_change_event flags =>
      match handle_stream_change_event sock w flags with
      | none => none
      | some w1 =>
        match send_outgoing_stream_reset sock w1 with
        | none => none
        | some w2 => some (request_more_o_streams sock w2)
    | _ => some w

/-! ## Invariants of the spec, as predicates on the peer connection -/

/-- Invariant I2 of the spec: an entry of `i_stream_channel` refers to a channel whose
`i_stream` is that index and whose state is CONNECTING, OPEN or CLOSING. -/
def I2 (pc : peer_connection) : Prop :=
  ∀ (s : Fin NUMBER_OF_STREAMS) (c : Fin NUMBER_OF_CHANNELS), pc.i_stream_channel s = some c →
    (pc.channels c).i_stream = s.val ∧
      ((pc.channels c).state = DATA_CHANNEL_CONNECTING ∨
        (pc.channels c).state = DATA_CHANNEL_OPEN ∨ (pc.channels c).state = DATA_CHANNEL_CLOSING)

/-- Invariant I3 of the spec: the same for `o_stream_channel` and `o_stream`. -/
def I3 (pc : peer_connection) : Prop :=
  ∀ (s : Fin NUMBER_OF_STREAMS) (c : Fin NUMBER_OF_CHANNELS), pc.o_stream_channel s = some c →
    (pc.channels c).o_stream = s.val ∧
      ((pc.channels c).state = DATA_CHANNEL_CONNECTING ∨
        (pc.channels c).state = DATA_CHANNEL_OPEN ∨ (pc.channels c).state = DATA_CHANNEL_CLOSING)

/-- The pending-reset buffer is well formed: the counter is within the buffer and the entries
below the counter are pairwise distinct stream ids below `NUMBER_OF_STREAMS`. -/
def pending_resets_ok (pc : peer_connection) : Prop :=
  pc.o_stream_buffer_counter ≤ NUMBER_OF_STREAMS ∧
  (∀ m n : Fin NUMBER_OF_STREAMS, m.val < pc.o_stream_buffer_counter →
    n.val < pc.o_stream_buffer_counter → pc.o_stream_buffer m = pc.o_stream_buffer n → m = n) ∧
  (∀ m : Fin NUMBER_OF_STREAMS, m.val < pc.o_stream_buffer_counter →
    pc.o_stream_buffer m < NUMBER_OF_STREAMS)

/-- Every channel's outbound stream id is below `NUMBER_OF_STREAMS`. -/
def o_streams_in_range (pc : peer_connection) : Prop :=
  ∀ c : Fin NUMBER_OF_CHANNELS, (pc.channels c).o_stream < NUMBER_OF_STREAMS

/-- Where channel `c` stands between `close_channel` and the end of its teardown: `ib` / `ob`
say whether inbound stream `a` / outbound stream `b` is still bound to it.  The first six
fields do not depend on the phase. -/
structure closing_phase (c : Fin NUMBER_OF_CHANNELS) (a b : Nat) (ib ob : Bool)
    (pc : peer_connection) : Prop where
  agree_i : ∀ (s : Fin NUMBER_OF_STREAMS) (j : Fin NUMBER_OF_CHANNELS),
    pc.i_stream_channel s = some j → (pc.channels j).i_stream = s.val
  agree_o : ∀ (s : Fin NUMBER_OF_STREAMS) (j : Fin NUMBER_OF_CHANNELS),
    pc.o_stream_channel s = some j → (pc.channels j).o_stream = s.val
  pending : pending_resets_ok pc
  range : o_streams_in_range pc
  only_a : ∀ s : Fin NUMBER_OF_STREAMS, s.val ≠ a → pc.i_stream_channel s ≠ some c
  only_b : ∀ s : Fin NUMBER_OF_STREAMS, s.val ≠ b → pc.o_stream_channel s ≠ some c
  in_bound : ib = true →
    find_channel_by_i_stream pc a = some c ∧ (pc.channels c).i_stream = a
  in_clear : ib = false →
    find_channel_by_i_stream pc a = none ∧ (pc.channels c).i_stream = 0
  out_bound : ob = true →
    find_channel_by_o_stream pc b = some c ∧ (pc.channels c).o_stream = b
  out_clear : ob = false →
    find_channel_by_o_stream pc b = none ∧ (pc.channels c).o_stream = 0
  closing : ib = true ∨ ob = true → (pc.channels c).state = DATA_CHANNEL_CLOSING
  closed : ib = false → ob = false →
    (pc.channels c).state = DATA_CHANNEL_CLOSED ∧
      (pc.channels c).pr_policy = SCTP_PR_SCTP_NONE ∧ (pc.channels c).pr_value = 0 ∧
      (pc.channels c).unordered = 0

/-! ## Concrete worlds and transports -/

/-- The world straight after `init_peer_connection`. -/
def fresh_world : World := { pc := init_peer_connection, calls := 0, trace := [] }

/-- A transport that reports `n` outbound streams and accepts every call. -/
def sock_accepting (n : Nat) : Socket :=
  fun _ => { status := some n, sendv := true, setsockopt := true, malloc := true }

/-- A transport that reports `n` outbound streams and refuses every send. -/
def sock_refusing (n : Nat) : Socket :=
  fun _ => { status := some n, sendv := false, setsockopt := true, malloc := true }

/-- A peer connection whose channel 0 is `OPEN` on inbound stream 5 and outbound stream 1,
with both index tables pointing at it. -/
def established_world : World :=
  { pc :=
      { init_peer_connection with
        channels := setAt init_peer_connection.channels 0
          { id := 0, pr_value := 0, pr_policy := SCTP_PR_SCTP_NONE, i_stream := 5, o_stream := 1,
            unordered := 0, state := DATA_CHANNEL_OPEN },
        i_stream_channel := setAt init_peer_connection.i_stream_channel 5 (some 0),
        o_stream_channel := setAt init_peer_connection.o_stream_channel 1 (some 0) },
    calls := 0, trace := [] }

/-- A peer connection whose channel 0 is `OPEN` with inbound stream 5 and outbound stream 1
while neither index table refers to it. -/
def unbound_open_world : World :=
  { pc :=
      { init_peer_connection with
        channels := setAt init_peer_connection.channels 0
          { id := 0, pr_value := 0, pr_policy := SCTP_PR_SCTP_NONE, i_stream := 5, o_stream := 1,
            unordered := 0, state := DATA_CHANNEL_OPEN } },
    calls := 0, trace := [] }

/-- A stream-reset notification flagged only `OUTGOING_SSN`. -/
def outgoing_reset : strreset_flags :=
  { incoming_ssn := false, outgoing_ssn := true, denied := false, failed := false }

/-- A stream-reset notification flagged only `INCOMING_SSN`. -/
def incoming_reset : strreset_flags :=
  { incoming_ssn := true, outgoing_ssn := false, denied := false, failed := false }

/-- A transport that reports `n` outbound streams, accepts every send and refuses every
`setsockopt` request. -/
def sock_denying (n : Nat) : Socket :=
  fun _ => { status := some n, sendv := true, setsockopt := false, malloc := true }

/-- The peer connection of `established_world` with a second channel, channel 1, that is
`CONNECTING` on outbound stream 2 and waits for its response. -/
def colliding_world : World :=
  { established_world with
    pc :=
      { established_world.pc with
        channels := setAt established_world.pc.channels 1
          { id := 1, pr_value := 0, pr_policy := SCTP_PR_SCTP_NONE, i_stream := 0, o_stream := 2,
            unordered := 0, state := DATA_CHANNEL_CONNECTING },
        o_stream_channel := setAt established_world.pc.o_stream_channel 2 (some 1) } }


/-! ## Predicates and concrete inputs for the wire codec and the dispatcher -/

/-- The pre-conditions of `open_channel` as the spec lists them: a known policy, `unordered`
0 or 1, and value 0 for the reliable policy. -/
def open_channel_pre (unordered pr_policy pr_value : Nat) : Prop :=
  (pr_policy = SCTP_PR_SCTP_NONE ∨ pr_policy = SCTP_PR_SCTP_TTL ∨
    pr_policy = SCTP_PR_SCTP_RTX) ∧
  (unordered = 0 ∨ unordered = 1) ∧
  (pr_policy = SCTP_PR_SCTP_NONE → pr_value = 0)

/-! ## Reachable worlds -/

/-- The inputs of a notification fit their C types: the listed stream ids are 16-bit. -/
def sctp_notification.fits : sctp_notification → Prop
  | sctp_notification.stream_reset_event _ list => ∀ s ∈ list, s < 65536
  | _ => True

/-- The worlds the program reaches with the transport `sock` through calls that stay within
the defined behaviour of C: `main` initialises the peer connection and then calls
`open_channel`, `close_channel` and `send_user_message` on channels of the table, while
`receive_cb` calls `handle_message` and `handle_notification`; every call runs under the lock,
and the arguments range over their C types.  A call whose result in the model is `none` (a
write beyond an array, a read through `NULL` or of an uninitialised variable) has no
successor here, although the program may go on after it.  So every world that is `reachable`
is a world the program can be in, and a statement about all `reachable` worlds is a statement
about the runs in which no call is undefined; `handle_message_none` lists the calls of the
dispatcher that are left out. -/
inductive reachable (sock : Socket) : World → Prop where
  | init : reachable sock { pc := init_peer_connection, calls := 0, trace := [] }
  | open_channel {w : World} (unordered pr_policy pr_value : Nat)
      (r : Option (Fin NUMBER_OF_CHANNELS)) (w2 : World) :
      reachable sock w → unordered < 256 → pr_policy < 65536 → pr_value < 4294967296 →
      open_channel sock w unordered pr_policy pr_value = some (r, w2) → reachable sock w2
  | send_user_message {w : World} (c : Fin NUMBER_OF_CHANNELS) (message : List Nat) :
      reachable sock w → reachable sock (send_user_message sock w (some c) message).2
  | close_channel {w : World} (c : Fin NUMBER_OF_CHANNELS) (w2 : World) :
      reachable sock w → close_channel sock w (some c) = some w2 → reachable sock w2
  | handle_message {w : World} (buffer : List Nat) (ppid i_stream : Nat) (w2 : World) :
      reachable sock w → ppid < 4294967296 → i_stream < 65536 →
      handle_message sock w buffer ppid i_stream = some w2 → reachable sock w2
  | handle_notification {w : World} (sn_length : Nat) (notif : sctp_notification) (n : Nat)
      (w2 : World) :
      reachable sock w → notif.fits →
      handle_notification sock w sn_length notif n = some w2 → reachable sock w2

/-! ## The stream-reset rule of the spec -/

/-- The channel table of the spec: the channel records, the two index tables and the list
`pending_resets`. -/
structure channel_table where
  channels : Fin NUMBER_OF_CHANNELS → channel
  i_stream_channel : Fin NUMBER_OF_STREAMS → Option (Fin NUMBER_OF_CHANNELS)
  o_stream_channel : Fin NUMBER_OF_STREAMS → Option (Fin NUMBER_OF_CHANNELS)
  pending_resets : List Nat

/-- The channel table a peer connection stands for: `pending_resets` is the part of
`o_stream_buffer` below `o_stream_buffer_counter`, oldest entry first. -/
def peer_connection.table (pc : peer_connection) : channel_table :=
  { channels := pc.channels,
    i_stream_channel := pc.i_stream_channel,
    o_stream_channel := pc.o_stream_channel,
    pending_resets := srs_stream_list pc pc.o_stream_buffer_counter }

/-- The spec's rule for a reset id `s` flagged incoming (section 4.6): when
`i_stream_channel[s]` refers to `c`, that entry is cleared and `c.i_stream` is set to 0; then
`c` becomes CLOSED with its reliability fields cleared when `c.o_stream` is 0, and otherwise
`c.o_stream` is added to `pending_resets` unless it is there already and `c` becomes
CLOSING. -/
def spec_reset_incoming (t : channel_table) (s : Nat) : channel_table :=
  if h : s < NUMBER_OF_STREAMS then
    match t.i_stream_channel ⟨s, h⟩ with
    | none => t
    | some c =>
      let ch : channel := { t.channels c with i_stream := 0 }
      if ch.o_stream = 0 then
        { t with
          i_stream_channel := setAt t.i_stream_channel ⟨s, h⟩ none,
          channels := setAt t.channels c
            { ch with
              state := DATA_CHANNEL_CLOSED, pr_policy := SCTP_PR_SCTP_NONE, pr_value := 0,
              unordered := 0 } }
      else
        { t with
          i_stream_channel := setAt t.i_stream_channel ⟨s, h⟩ none,
          channels := setAt t.channels c { ch with state := DATA_CHANNEL_CLOSING },
          pending_resets :=
            if ch.o_stream ∈ t.pending_resets then t.pending_resets
            else t.pending_resets ++ [ch.o_stream] }
  else t

/-- The spec's rule for a reset id `s` flagged outgoing (section 4.6): when
`o_stream_channel[s]` refers to `c`, that entry is cleared and `c.o_stream` is set to 0; then
`c` becomes CLOSED with its reliability fields cleared when `c.i_stream` is 0, and otherwise
its state is left as it is. -/
def spec_reset_outgoing (t : channel_table) (s : Nat) : channel_table :=
  if h : s < NUMBER_OF_STREAMS then
    match t.o_stream_channel ⟨s, h⟩ with
    | none => t
    | some c =>
      let ch : channel := { t.channels c with o_stream := 0 }
      if ch.i_stream = 0 then
        { t with
          o_stream_channel := setAt t.o_stream_channel ⟨s, h⟩ none,
          channels := setAt t.channels c
            { ch with
              state := DATA_CHANNEL_CLOSED, pr_policy := SCTP_PR_SCTP_NONE, pr_value := 0,
              unordered := 0 } }
      else
        { t with
          o_stream_channel := setAt t.o_stream_channel ⟨s, h⟩ none,
          channels := setAt t.channels c ch }
  else t

/-- The spec's rule for one reset id: the incoming part first when INCOMING is flagged, then
the outgoing part when OUTGOING is flagged. -/
def spec_reset_id (flags : strreset_flags) (t : channel_table) (s : Nat) : channel_table :=
  let t1 := if flags.incoming_ssn then spec_reset_incoming t s else t
  if flags.outgoing_ssn then spec_reset_outgoing t1 s else t1

/-- The spec's handling of a stream-reset notification that is neither DENIED nor FAILED:
the listed ids are processed in order. -/
def spec_stream_reset (flags : strreset_flags) (t : channel_table) (list : List Nat) :
    channel_table :=
  list.foldl (spec_reset_id flags) t

/-- What the stream-reset handler relies on: an entry of `i_stream_channel` /
`o_stream_channel` refers to a channel whose `i_stream` / `o_stream` is that index, the
pending-reset buffer is well formed, and every `o_stream` is below `NUMBER_OF_STREAMS`. -/
structure tables_agree (pc : peer_connection) : Prop where
  agree_i : ∀ (s : Fin NUMBER_OF_STREAMS) (j : Fin NUMBER_OF_CHANNELS),
    pc.i_stream_channel s = some j → (pc.channels j).i_stream = s.val
  agree_o : ∀ (s : Fin NUMBER_OF_STREAMS) (j : Fin NUMBER_OF_CHANNELS),
    pc.o_stream_channel s = some j → (pc.channels j).o_stream = s.val
  pending : pending_resets_ok pc
  range : o_streams_in_range pc

/-! ## Concrete inputs for the notification handlers -/

/-- A stream-reset notification flagged `INCOMING_SSN` and `OUTGOING_SSN`. -/
def both_reset : strreset_flags :=
  { incoming_ssn := true, outgoing_ssn := true, denied := false, failed := false }

/-- A stream-reset notification flagged `INCOMING_SSN`, `OUTGOING_SSN` and `DENIED`. -/
def denied_reset : strreset_flags :=
  { incoming_ssn := true, outgoing_ssn := true, denied := true, failed := false }

/-- The peer connection of `established_world` with a pending-reset counter that says the
buffer is full, while no entry of the buffer is the outbound stream 1 of channel 0. -/
def full_buffer_pc : peer_connection :=
  { established_world.pc with o_stream_buffer_counter := NUMBER_OF_STREAMS }

/-- A stream-change notification with neither DENIED nor FAILED. -/
def granted : strchange_flags := { denied := false, failed := false }

/-- A peer connection in which channel 0 is `CONNECTING` on outbound stream 1, with
`o_stream_channel[1]` referring to it, and channel 1 is `CONNECTING` with `o_stream = 0`,
waiting for an outbound stream. -/
def pending_world : World :=
  { pc :=
      { init_peer_connection with
        channels :=
          setAt
            (setAt init_peer_connection.channels 0
              { id := 0, pr_value := 0, pr_policy := SCTP_PR_SCTP_NONE, i_stream := 0,
                o_stream := 1, unordered := 0, state := DATA_CHANNEL_CONNECTING })
            1
            { id := 1, pr_value := 0, pr_policy := SCTP_PR_SCTP_NONE, i_stream := 0,
              o_stream := 0, unordered := 0, state := DATA_CHANNEL_CONNECTING },
        o_stream_channel := setAt init_peer_connection.o_stream_channel 1 (some 0) },
    calls := 0, trace := [] }

/-! ## What holds in every reachable world -/

/-- Every channel's inbound stream id is below `NUMBER_OF_STREAMS`. -/
def i_streams_in_range (pc : peer_connection) : Prop :=
  ∀ c : Fin NUMBER_OF_CHANNELS, (pc.channels c).i_stream < NUMBER_OF_STREAMS

/-- The facts that keep every array access of the reset path inside its array: the
pending-reset buffer is well formed, every `o_stream` and every `i_stream` is below
`NUMBER_OF_STREAMS`, and `o_stream_channel[0]` is absent. -/
structure buffer_safe (pc : peer_connection) : Prop where
  pending : pending_resets_ok pc
  o_range : o_streams_in_range pc
  i_range : i_streams_in_range pc
  o_zero : pc.o_stream_channel 0 = none




/-! ## Layout of `struct peer_connection` -/

/-- The size of `struct channel` in bytes: two `uint32_t`, three `uint16_t` and two `uint8_t`,
which leave no padding. -/
abbrev SIZEOF_CHANNEL : Nat := 4 + 4 + 2 + 2 + 2 + 1 + 1

/-- The size in bytes of a `struct channel *` on a platform with 64-bit pointers. -/
abbrev SIZEOF_POINTER : Nat := 8

/-- The size of a `uint16_t` in bytes. -/
abbrev SIZEOF_UINT16 : Nat := 2

/-- The offset of the member `i_stream_channel` of `struct peer_connection`: it follows the
array `channels`, and every member up to `o_stream_buffer_counter` is aligned where the
member before it ends. -/
def offsetof_i_stream_channel : Nat := NUMBER_OF_CHANNELS * SIZEOF_CHANNEL

/-- The offset of the member `o_stream_channel`, which follows `i_stream_channel`. -/
def offsetof_o_stream_channel : Nat :=
  offsetof_i_stream_channel + NUMBER_OF_STREAMS * SIZEOF_POINTER

/-- The offset of the member `o_stream_buffer`, which follows `o_stream_channel`. -/
def offsetof_o_stream_buffer : Nat :=
  offsetof_o_stream_channel + NUMBER_OF_STREAMS * SIZEOF_POINTER

/-- The offset of the member `o_stream_buffer_counter`, which follows `o_stream_buffer`. -/
def offsetof_o_stream_buffer_counter : Nat :=
  offsetof_o_stream_buffer + NUMBER_OF_STREAMS * SIZEOF_UINT16

/-- The offset in `struct peer_connection` of the object that the expression
`pc->i_stream_channel[i_stream]` designates; the writes of `handle_open_request_message` and
`handle_open_response_message` use it for every `i_stream`. -/
def offsetof_i_stream_channel_at (i_stream : Nat) : Nat :=
  offsetof_i_stream_channel + i_stream * SIZEOF_POINTER

/-! ## Basic facts -/

/-- Reading the index just written gives the value written. -/
@[simp]
theorem setAt_same {n : Nat} {α : Type} (a : Fin n → α) (i : Fin n) (v : α) :
    setAt a i v i = v := by
  simp [setAt]

/-- Reading another index is not affected by a write. -/
theorem setAt_ne {n : Nat} {α : Type} (a : Fin n → α) (i j : Fin n) (v : α) (h : j ≠ i) :
    setAt a i v j = a j := by
  simp [setAt, h]

/-- The scanning loop stops no later than after its `k` rounds. -/
theorem scan_le (p : Nat → Bool) (k i : Nat) : scan p i k ≤ i + k := by
  induction k generalizing i with
  | zero => simp [scan]
  | succ k ih =>
    unfold scan
    split
    · omega
    · have := ih (i + 1); omega

/-- The scanning loop never moves backwards. -/
theorem scan_ge (p : Nat → Bool) (k i : Nat) : i ≤ scan p i k := by
  induction k generalizing i with
  | zero => simp [scan]
  | succ k ih =>
    unfold scan
    split
    · exact le_refl i
    · have := ih (i + 1); omega

/-- When the scanning loop stops early, the test holds where it stopped. -/
theorem scan_hit (p : Nat → Bool) (k i : Nat) (h : scan p i k < i + k) :
    p (scan p i k) = true := by
  induction k generalizing i with
  | zero => simp [scan] at h
  | succ k ih =>
    unfold scan at h ⊢
    split
    · assumption
    · rename_i hp
      rw [if_neg hp] at h
      exact ih (i + 1) (by omega)

/-- The test fails at every index the scanning loop has passed. -/
theorem scan_before (p : Nat → Bool) (k i j : Nat) (hij : i ≤ j) (hj : j < scan p i k) :
    p j = false := by
  induction k generalizing i with
  | zero => simp [scan] at hj; omega
  | succ k ih =>
    unfold scan at hj
    split at hj
    · omega
    · rename_i hp
      rcases Nat.eq_or_lt_of_le hij with h | h
      · subst h; simpa using hp
      · exact ih (i + 1) h hj

/-- What `find_free_channel` returns is CLOSED and no channel with a lower index is. -/
theorem find_free_channel_some (pc : peer_connection) (c : Fin NUMBER_OF_CHANNELS)
    (h : find_free_channel pc = some c) :
    (pc.channels c).state = DATA_CHANNEL_CLOSED ∧
      ∀ j : Fin NUMBER_OF_CHANNELS, j < c → (pc.channels j).state ≠ DATA_CHANNEL_CLOSED := by
  unfold find_free_channel at h
  simp only at h
  split at h
  · rename_i hlt
    have hc : c = ⟨scan (channel_is_closed pc) 0 NUMBER_OF_CHANNELS, hlt⟩ := by
      simpa using h.symm
    have hit := scan_hit (channel_is_closed pc) NUMBER_OF_CHANNELS 0 (by omega)
    constructor
    · subst hc
      simpa [channel_is_closed, hlt] using hit
    · intro j hj
      have hj2 : j.val < scan (channel_is_closed pc) 0 NUMBER_OF_CHANNELS := by
        subst hc; exact hj
      have := scan_before (channel_is_closed pc) NUMBER_OF_CHANNELS 0 j.val (Nat.zero_le _) hj2
      simpa [channel_is_closed, j.isLt] using this
  · simp at h

/-- When `find_free_channel` returns `NULL`, no channel is CLOSED. -/
theorem find_free_channel_none (pc : peer_connection) (h : find_free_channel pc = none) :
    ∀ j : Fin NUMBER_OF_CHANNELS, (pc.channels j).state ≠ DATA_CHANNEL_CLOSED := by
  unfold find_free_channel at h
  simp only at h
  split at h
  · simp at h
  · rename_i hge
    intro j
    have hle := scan_le (channel_is_closed pc) NUMBER_OF_CHANNELS 0
    have := scan_before (channel_is_closed pc) NUMBER_OF_CHANNELS 0 j.val (Nat.zero_le _)
      (by have := j.isLt; omega)
    simpa [channel_is_closed, j.isLt] using this

/-- When some channel is CLOSED, `find_free_channel` returns a channel. -/
theorem find_free_channel_exists (pc : peer_connection)
    (h : ∃ j : Fin NUMBER_OF_CHANNELS, (pc.channels j).state = DATA_CHANNEL_CLOSED) :
    ∃ c, find_free_channel pc = some c := by
  cases hf : find_free_channel pc with
  | some c => exact ⟨c, rfl⟩
  | none =>
    obtain ⟨j, hj⟩ := h
    exact absurd hj (find_free_channel_none pc hf j)

/-- When no channel is CLOSED, `find_free_channel` returns `NULL`. -/
theorem find_free_channel_eq_none (pc : peer_connection)
    (h : ∀ j : Fin NUMBER_OF_CHANNELS, (pc.channels j).state ≠ DATA_CHANNEL_CLOSED) :
    find_free_channel pc = none := by
  cases hf : find_free_channel pc with
  | none => rfl
  | some c => exact absurd (find_free_channel_some pc c hf).1 (h c)

/-- The only effect of `find_free_o_stream` on the world is one call to the transport. -/
theorem find_free_o_stream_world (sock : Socket) (w : World) :
    (find_free_o_stream sock w).2 = { w with calls := w.calls + 1 } := by
  unfold find_free_o_stream usrsctp_getsockopt_status
  cases (sock w.calls).status with
  | none => rfl
  | some n =>
    simp only [Option.map_some']
    split_ifs <;> rfl

/-- The stream id returned by `find_free_o_stream` is below `NUMBER_OF_STREAMS`. -/
theorem find_free_o_stream_lt (sock : Socket) (w : World) :
    (find_free_o_stream sock w).1 < NUMBER_OF_STREAMS := by
  unfold find_free_o_stream usrsctp_getsockopt_status
  cases (sock w.calls).status with
  | none => simp
  | some n =>
    simp only [Option.map_some']
    split_ifs with h1 h2 h3
    · simp
    · have hle := scan_le (o_stream_is_free w.pc) (n % 65536 - 1) 1
      simp only [NUMBER_OF_STREAMS] at *
      omega
    · simp
    · have hle := scan_le (o_stream_is_free w.pc) (NUMBER_OF_STREAMS - 1) 1
      simp only [NUMBER_OF_STREAMS] at *
      omega

/-- The function `request_more_o_streams` does not touch the peer connection. -/
theorem request_more_o_streams_pc (sock : Socket) (w : World) :
    (request_more_o_streams sock w).pc = w.pc := by
  unfold request_more_o_streams usrsctp_getsockopt_status usrsctp_setsockopt_add_streams
  cases (sock w.calls).status with
  | none => rfl
  | some n =>
    simp only [Option.map_some']
    split_ifs <;> rfl

/-- A channel found by `find_channel_by_i_stream` comes from an index inside the table. -/
theorem find_channel_by_i_stream_some (pc : peer_connection) (s : Nat)
    (c : Fin NUMBER_OF_CHANNELS) (h : find_channel_by_i_stream pc s = some c) :
    ∃ hs : s < NUMBER_OF_STREAMS, pc.i_stream_channel ⟨s, hs⟩ = some c := by
  unfold find_channel_by_i_stream at h
  split at h
  · rename_i hs; exact ⟨hs, h⟩
  · simp at h

/-- A channel found by `find_channel_by_o_stream` comes from an index inside the table. -/
theorem find_channel_by_o_stream_some (pc : peer_connection) (s : Nat)
    (c : Fin NUMBER_OF_CHANNELS) (h : find_channel_by_o_stream pc s = some c) :
    ∃ hs : s < NUMBER_OF_STREAMS, pc.o_stream_channel ⟨s, hs⟩ = some c := by
  unfold find_channel_by_o_stream at h
  split at h
  · rename_i hs; exact ⟨hs, h⟩
  · simp at h

/-! ## Unfolding the handlers -/

/-- For a valid policy `send_open_request_message` hands exactly one eight-byte request to the
transport and returns the answer of the transport. -/
theorem send_open_request_message_eq (sock : Socket) (w : World)
    (o_stream unordered pr_policy pr_value : Nat)
    (hpol : pr_policy = SCTP_PR_SCTP_NONE ∨ pr_policy = SCTP_PR_SCTP_TTL ∨
      pr_policy = SCTP_PR_SCTP_RTX) :
    send_open_request_message sock w o_stream unordered pr_policy pr_value =
      ((sock w.calls).sendv,
        { w with calls := w.calls + 1,
                 trace := w.trace ++
                   [Event.sendv o_stream
                     [DATA_CHANNEL_OPEN_REQUEST,
                      if pr_policy = SCTP_PR_SCTP_NONE then DATA_CHANNEL_RELIABLE
                      else if pr_policy = SCTP_PR_SCTP_TTL then DATA_CHANNEL_PARTIAL_RELIABLE_TIMED
                      else DATA_CHANNEL_PARTIAL_RELIABLE_REXMIT,
                      0, if unordered = 0 then 0 else 1,
                      pr_value % 65536 / 256, pr_value % 256, 0, 0]
                     DATA_CHANNEL_PPID_CONTROL false none] }) := by
  have h256 : pr_value % 65536 % 256 = pr_value % 256 :=
    Nat.mod_mod_of_dvd pr_value (by norm_num)
  rcases hpol with h | h | h <;> subst h <;>
    by_cases hu : unordered = 0 <;>
    simp [send_open_request_message, usrsctp_sendv, hu, h256,
      DATA_CHANNEL_FLAG_OUT_OF_ORDER_ALLOWED]

/-- The body of `open_channel` once the arguments are valid and a free channel and the result of
`find_free_o_stream` are known. -/
theorem open_channel_valid (sock : Socket) (w : World) (unordered pr_policy pr_value : Nat)
    (hpol : pr_policy = SCTP_PR_SCTP_NONE ∨ pr_policy = SCTP_PR_SCTP_TTL ∨
      pr_policy = SCTP_PR_SCTP_RTX)
    (hun : unordered = 0 ∨ unordered = 1)
    (hval : pr_policy = SCTP_PR_SCTP_NONE → pr_value = 0)
    (c : Fin NUMBER_OF_CHANNELS) (hc : find_free_channel w.pc = some c)
    (s : Nat) (w1 : World) (hfs : find_free_o_stream sock w = (s, w1))
    (hlt : s < NUMBER_OF_STREAMS) :
    open_channel sock w unordered pr_policy pr_value =
      (let ch : channel :=
         { w.pc.channels c with
           state := DATA_CHANNEL_CONNECTING, unordered := unordered,
           pr_policy := pr_policy, pr_value := pr_value, o_stream := s }
       if s = 0 then
         some (some c, request_more_o_streams sock
           { w1 with pc := { w.pc with channels := setAt w.pc.channels c ch } })
       else
         let r := send_open_request_message sock w1 s unordered pr_policy pr_value
         if r.1 = true then
           some (some c,
             { r.2 with
               pc := { w.pc with
                       channels := setAt w.pc.channels c ch,
                       o_stream_channel := setAt w.pc.o_stream_channel ⟨s, hlt⟩ (some c) } })
         else some (none, r.2)) := by
  have hw1 : w1 = { w with calls := w.calls + 1 } := by
    have := find_free_o_stream_world sock w
    rw [hfs] at this
    exact this
  have hr := send_open_request_message_eq sock w1 s unordered pr_policy pr_value hpol
  unfold open_channel
  rw [if_neg (by tauto), if_neg (by omega), if_neg (by tauto), hc]
  simp only [hfs]
  by_cases hs : s = 0
  · simp [hs, hw1]
  · simp only [hs, if_false, hr, ne_eq, not_false_eq_true, if_true, dif_pos hlt]
    cases (sock w1.calls).sendv <;> simp [hw1]

/-- The dispatcher passes a CONTROL payload of at least eight bytes with first byte 0 to
`handle_open_request_message`. -/
theorem handle_message_open_request (sock : Socket) (w : World) (buffer : List Nat)
    (i_stream : Nat) (h0 : byte_at buffer 0 = DATA_CHANNEL_OPEN_REQUEST)
    (hlen : SIZEOF_OPEN_REQUEST ≤ buffer.length) :
    handle_message sock w buffer DATA_CHANNEL_PPID_CONTROL i_stream =
      handle_open_request_message sock w buffer i_stream := by
  have h1 : ¬ buffer.length < SIZEOF_ACK := by
    simp only [SIZEOF_OPEN_REQUEST, SIZEOF_ACK] at *; omega
  have h8 : ¬ buffer.length < SIZEOF_OPEN_REQUEST := by omega
  simp only [handle_message, if_true, if_neg h1, if_pos h0, if_neg h8]

/-- The dispatcher passes a CONTROL payload of at least six bytes with first byte 1 to
`handle_open_response_message`. -/
theorem handle_message_open_response (sock : Socket) (w : World) (buffer : List Nat)
    (i_stream : Nat) (h0 : byte_at buffer 0 = DATA_CHANNEL_OPEN_RESPONSE)
    (hlen : SIZEOF_OPEN_RESPONSE ≤ buffer.length) :
    handle_message sock w buffer DATA_CHANNEL_PPID_CONTROL i_stream =
      handle_open_response_message sock w buffer i_stream := by
  have h1 : ¬ buffer.length < SIZEOF_ACK := by
    simp only [SIZEOF_OPEN_RESPONSE, SIZEOF_ACK] at *; omega
  have h6 : ¬ buffer.length < SIZEOF_OPEN_RESPONSE := by omega
  have hne : ¬ byte_at buffer 0 = DATA_CHANNEL_OPEN_REQUEST := by rw [h0]; decide
  simp only [handle_message, if_true, if_neg h1, if_neg hne, if_pos h0, if_neg h6]

/-- The dispatcher passes a CONTROL payload with first byte 2 to `handle_open_ack_message`. -/
theorem handle_message_ack (sock : Socket) (w : World) (buffer : List Nat)
    (i_stream : Nat) (h0 : byte_at buffer 0 = DATA_CHANNEL_ACK)
    (hlen : SIZEOF_ACK ≤ buffer.length) :
    handle_message sock w buffer DATA_CHANNEL_PPID_CONTROL i_stream =
      handle_open_ack_message w i_stream := by
  have h1 : ¬ buffer.length < SIZEOF_ACK := by omega
  have hne : ¬ byte_at buffer 0 = DATA_CHANNEL_OPEN_REQUEST := by rw [h0]; decide
  have hne2 : ¬ byte_at buffer 0 = DATA_CHANNEL_OPEN_RESPONSE := by rw [h0]; decide
  simp only [handle_message, if_true, if_neg h1, if_neg hne, if_neg hne2, if_pos h0]

/-- Every channel type from 0 to 4 is mapped to a policy. -/
theorem pr_policy_of_channel_type_some (t : Nat) (ht : t ≤ DATA_CHANNEL_PARTIAL_RELIABLE_TIMED) :
    ∃ p, pr_policy_of_channel_type t = some p := by
  simp only [DATA_CHANNEL_PARTIAL_RELIABLE_TIMED] at ht
  interval_cases t <;> exact ⟨_, rfl⟩

/-- The body of `handle_open_request_message` once the inbound stream is in range and unbound, a
free channel exists, the channel type is known and the result of `find_free_o_stream` is
known. -/
theorem handle_open_request_message_eq (sock : Socket) (w : World) (req : List Nat)
    (i_stream : Nat) (hi : i_stream < NUMBER_OF_STREAMS)
    (hnone : find_channel_by_i_stream w.pc i_stream = none)
    (c : Fin NUMBER_OF_CHANNELS) (hc : find_free_channel w.pc = some c)
    (pr_policy : Nat) (hpol : pr_policy_of_channel_type (byte_at req 1) = some pr_policy)
    (o : Nat) (w1 : World) (hfs : find_free_o_stream sock w = (o, w1))
    (ho : o < NUMBER_OF_STREAMS) :
    handle_open_request_message sock w req i_stream =
      (let ch : channel :=
         { w.pc.channels c with
           state := DATA_CHANNEL_CONNECTING,
           unordered :=
             if ntohs_at req 2 &&& DATA_CHANNEL_FLAG_OUT_OF_ORDER_ALLOWED ≠ 0 then 1 else 0,
           pr_policy := pr_policy, pr_value := ntohs_at req 4, i_stream := i_stream }
       if o = 0 then
         some (request_more_o_streams sock
           { w1 with
             pc := { w.pc with
                     channels := setAt w.pc.channels c ch,
                     i_stream_channel := setAt w.pc.i_stream_channel ⟨i_stream, hi⟩ (some c) } })
       else
         let r := send_open_response_message sock w1 o i_stream
         if r.1 = true then
           some { r.2 with
                  pc := { w.pc with
                          channels := setAt w.pc.channels c { ch with o_stream := o },
                          i_stream_channel :=
                            setAt w.pc.i_stream_channel ⟨i_stream, hi⟩ (some c),
                          o_stream_channel := setAt w.pc.o_stream_channel ⟨o, ho⟩ (some c) } }
         else some r.2) := by
  have hw1 : w1 = { w with calls := w.calls + 1 } := by
    have := find_free_o_stream_world sock w
    rw [hfs] at this
    exact this
  unfold handle_open_request_message
  rw [hnone]
  simp only [hc, hfs, hpol]
  by_cases hs : o = 0
  · simp [hs, hw1, hi]
  · simp only [hs, if_false, ne_eq, not_false_eq_true, if_true, dif_pos hi, dif_pos ho]
    cases hsend : (send_open_response_message sock w1 o i_stream).1
    · simp
    · simp only [if_true, Option.some.injEq]
      simp [send_open_response_message, usrsctp_sendv, hw1]
      funext j
      by_cases hj : j = c <;> simp [setAt, hj]

/-- The body of `handle_open_response_message` once the announced outbound stream is bound and
the inbound stream is in range. -/
theorem handle_open_response_message_eq (sock : Socket) (w : World) (rsp : List Nat)
    (i_stream : Nat) (hi : i_stream < NUMBER_OF_STREAMS) (c : Fin NUMBER_OF_CHANNELS)
    (hc : find_channel_by_o_stream w.pc (ntohs_at rsp 4) = some c) :
    handle_open_response_message sock w rsp i_stream =
      some
        { pc :=
            { w.pc with
              channels := setAt w.pc.channels c
                { w.pc.channels c with i_stream := i_stream, state := DATA_CHANNEL_OPEN },
              i_stream_channel := setAt w.pc.i_stream_channel ⟨i_stream, hi⟩ (some c) },
          calls := w.calls + 1,
          trace := w.trace ++
            [Event.sendv (ntohs_at rsp 4) [DATA_CHANNEL_ACK] DATA_CHANNEL_PPID_CONTROL false
              none] } := by
  unfold handle_open_response_message
  simp only [hc, dif_pos hi]
  rfl

/-- An Ack for a CONNECTING channel makes it OPEN and changes nothing else. -/
theorem handle_open_ack_message_connecting (w : World) (i_stream : Nat)
    (c : Fin NUMBER_OF_CHANNELS) (hc : find_channel_by_i_stream w.pc i_stream = some c)
    (hs : (w.pc.channels c).state = DATA_CHANNEL_CONNECTING) :
    handle_open_ack_message w i_stream =
      some
        { w with
          pc := { w.pc with
                  channels := setAt w.pc.channels c
                    { w.pc.channels c with state := DATA_CHANNEL_OPEN } } } := by
  unfold handle_open_ack_message
  simp only [hc]
  rw [if_neg (by rw [hs]; decide), if_neg (by rw [hs]; decide)]

/-- An Ack on a bound inbound stream never faults, sends nothing, and changes only the state of
a CONNECTING channel, which becomes OPEN. -/
theorem handle_open_ack_message_bound (w : World) (i_stream : Nat)
    (c : Fin NUMBER_OF_CHANNELS) (hc : find_channel_by_i_stream w.pc i_stream = some c) :
    ((w.pc.channels c).state ≠ DATA_CHANNEL_CONNECTING →
      handle_open_ack_message w i_stream = some w) ∧
    ((w.pc.channels c).state = DATA_CHANNEL_CONNECTING →
      handle_open_ack_message w i_stream =
        some
          { w with
            pc := { w.pc with
                    channels := setAt w.pc.channels c
                      { w.pc.channels c with state := DATA_CHANNEL_OPEN } } }) := by
  refine ⟨?_, handle_open_ack_message_connecting w i_stream c hc⟩
  intro hs
  unfold handle_open_ack_message
  simp only [hc]
  split_ifs <;> rfl

/-- The `reverse_stream` field of a response written for stream `a` reads back as `a`. -/
theorem ntohs_at_response (a : Nat) :
    ntohs_at [DATA_CHANNEL_OPEN_RESPONSE, 0, 0, 0, a / 256, a % 256] 4 = a := by
  simp only [ntohs_at, byte_at, List.getD]
  simp
  omega

/-! ## The pending-reset buffer -/

/-- The search loop of `reset_outgoing_stream` stays inside the buffer when the counter does. -/
theorem o_stream_buffer_has_total (pc : peer_connection) (o : Nat) (k i : Nat)
    (h : i + k ≤ NUMBER_OF_STREAMS) : ∃ r, o_stream_buffer_has pc o i k = some r := by
  induction k generalizing i with
  | zero => exact ⟨false, rfl⟩
  | succ k ih =>
    unfold o_stream_buffer_has
    have hi : i < NUMBER_OF_STREAMS := by omega
    rw [dif_pos hi]
    split
    · exact ⟨true, rfl⟩
    · exact ih (i + 1) (by omega)

/-- When the search loop finds nothing, no entry it visited is the stream id. -/
theorem o_stream_buffer_has_false (pc : peer_connection) (o : Nat) (k i : Nat)
    (h : o_stream_buffer_has pc o i k = some false) (m : Fin NUMBER_OF_STREAMS)
    (h1 : i ≤ m.val) (h2 : m.val < i + k) : pc.o_stream_buffer m ≠ o := by
  induction k generalizing i with
  | zero => omega
  | succ k ih =>
    unfold o_stream_buffer_has at h
    split at h
    · rename_i hi
      split at h
      · simp at h
      · rename_i hne
        rcases Nat.eq_or_lt_of_le h1 with heq | hlt
        · have : m = ⟨i, hi⟩ := Fin.ext heq.symm
          rw [this]; exact hne
        · exact ih (i + 1) h hlt (by omega)
    · simp at h

/-- When the search loop finds the stream id, some entry it visited holds it. -/
theorem o_stream_buffer_has_true (pc : peer_connection) (o : Nat) (k i : Nat)
    (h : o_stream_buffer_has pc o i k = some true) :
    ∃ m : Fin NUMBER_OF_STREAMS, i ≤ m.val ∧ m.val < i + k ∧ pc.o_stream_buffer m = o := by
  induction k generalizing i with
  | zero => simp [o_stream_buffer_has] at h
  | succ k ih =>
    unfold o_stream_buffer_has at h
    split at h
    · rename_i hi
      split at h
      · rename_i heq
        exact ⟨⟨i, hi⟩, le_refl i, by simp, heq⟩
      · obtain ⟨m, h1, h2, h3⟩ := ih (i + 1) h
        exact ⟨m, by omega, by omega, h3⟩
    · simp at h

/-- A well-formed buffer that does not hold a stream id below `NUMBER_OF_STREAMS` is not full. -/
theorem pending_resets_room (pc : peer_connection) (o : Nat) (hok : pending_resets_ok pc)
    (ho : o < NUMBER_OF_STREAMS)
    (hne : ∀ m : Fin NUMBER_OF_STREAMS, m.val < pc.o_stream_buffer_counter →
      pc.o_stream_buffer m ≠ o) :
    pc.o_stream_buffer_counter < NUMBER_OF_STREAMS := by
  obtain ⟨hle, hinj, hlt⟩ := hok
  by_contra hfull
  have hcnt : pc.o_stream_buffer_counter = NUMBER_OF_STREAMS := by omega
  have hall : ∀ m : Fin NUMBER_OF_STREAMS, m.val < pc.o_stream_buffer_counter := by
    intro m; rw [hcnt]; exact m.isLt
  let g : Fin NUMBER_OF_STREAMS → Fin NUMBER_OF_STREAMS :=
    fun m => ⟨pc.o_stream_buffer m, hlt m (hall m)⟩
  have ginj : Function.Injective g := by
    intro m n hmn
    exact hinj m n (hall m) (hall n) (by simpa [g] using congrArg Fin.val hmn)
  obtain ⟨m, hm⟩ := (Finite.injective_iff_surjective.mp ginj) ⟨o, ho⟩
  exact hne m (hall m) (by simpa [g] using congrArg Fin.val hm)

/-- On a well-formed buffer `reset_outgoing_stream` returns, keeps the buffer well formed,
touches nothing but the buffer and adds at most one entry. -/
theorem reset_outgoing_stream_ok (pc : peer_connection) (o : Nat) (hok : pending_resets_ok pc)
    (ho : o < NUMBER_OF_STREAMS) :
    ∃ pc1, reset_outgoing_stream pc o = some pc1 ∧ pending_resets_ok pc1 ∧
      pc1.channels = pc.channels ∧ pc1.i_stream_channel = pc.i_stream_channel ∧
      pc1.o_stream_channel = pc.o_stream_channel ∧
      pc1.o_stream_buffer_counter ≤ pc.o_stream_buffer_counter + 1 := by
  obtain ⟨r, hr⟩ := o_stream_buffer_has_total pc o pc.o_stream_buffer_counter 0
    (by have := hok.1; omega)
  unfold reset_outgoing_stream
  rw [hr]
  cases r with
  | true => exact ⟨pc, rfl, hok, rfl, rfl, rfl, by omega⟩
  | false =>
    have hne : ∀ m : Fin NUMBER_OF_STREAMS, m.val < pc.o_stream_buffer_counter →
        pc.o_stream_buffer m ≠ o := fun m hm =>
      o_stream_buffer_has_false pc o _ 0 hr m (Nat.zero_le _) (by omega)
    have hroom := pending_resets_room pc o hok ho hne
    simp only [dif_pos hroom]
    refine ⟨_, rfl, ⟨?_, ?_, ?_⟩, rfl, rfl, rfl, le_refl _⟩
    · show pc.o_stream_buffer_counter + 1 ≤ NUMBER_OF_STREAMS
      omega
    · intro m n hm hn hmn
      simp only [setAt] at hmn
      have hm' : m.val < pc.o_stream_buffer_counter + 1 := hm
      have hn' : n.val < pc.o_stream_buffer_counter + 1 := hn
      by_cases h1 : m = ⟨pc.o_stream_buffer_counter, hroom⟩ <;>
        by_cases h2 : n = ⟨pc.o_stream_buffer_counter, hroom⟩
      · rw [h1, h2]
      · rw [if_pos h1, if_neg h2] at hmn
        have : n.val ≠ pc.o_stream_buffer_counter := fun h => h2 (Fin.ext h)
        exact absurd hmn.symm (hne n (by omega))
      · rw [if_neg h1, if_pos h2] at hmn
        have : m.val ≠ pc.o_stream_buffer_counter := fun h => h1 (Fin.ext h)
        exact absurd hmn (hne m (by omega))
      · rw [if_neg h1, if_neg h2] at hmn
        have : n.val ≠ pc.o_stream_buffer_counter := fun h => h2 (Fin.ext h)
        have : m.val ≠ pc.o_stream_buffer_counter := fun h => h1 (Fin.ext h)
        exact hok.2.1 m n (by omega) (by omega) hmn
    · intro m hm
      have hm' : m.val < pc.o_stream_buffer_counter + 1 := hm
      simp only [setAt]
      split
      · exact ho
      · rename_i h1
        have : m.val ≠ pc.o_stream_buffer_counter := fun h => h1 (Fin.ext h)
        exact hok.2.2 m (by omega)

/-- With the counter inside the buffer `send_outgoing_stream_reset` returns and changes at most
the counter, which it leaves or sets to 0. -/
theorem send_outgoing_stream_reset_ok (sock : Socket) (w : World)
    (hle : w.pc.o_stream_buffer_counter ≤ NUMBER_OF_STREAMS) :
    ∃ w1, send_outgoing_stream_reset sock w = some w1 ∧
      w1.pc.channels = w.pc.channels ∧ w1.pc.i_stream_channel = w.pc.i_stream_channel ∧
      w1.pc.o_stream_channel = w.pc.o_stream_channel ∧
      w1.pc.o_stream_buffer = w.pc.o_stream_buffer ∧
      (w1.pc.o_stream_buffer_counter = w.pc.o_stream_buffer_counter ∨
        w1.pc.o_stream_buffer_counter = 0) := by
  unfold send_outgoing_stream_reset
  split
  · exact ⟨w, rfl, rfl, rfl, rfl, rfl, Or.inl rfl⟩
  · unfold malloc usrsctp_setsockopt_reset_streams
    cases (sock w.calls).malloc
    · exact ⟨_, rfl, rfl, rfl, rfl, rfl, Or.inl rfl⟩
    · simp only [if_pos hle]
      cases (sock (w.calls + 1)).setsockopt
      · exact ⟨_, rfl, rfl, rfl, rfl, rfl, Or.inl rfl⟩
      · exact ⟨_, rfl, rfl, rfl, rfl, rfl, Or.inr rfl⟩

/-- Whenever `reset_outgoing_stream` returns, the channels are unchanged and the counter grew by
at most one. -/
theorem reset_outgoing_stream_counter (pc pc1 : peer_connection) (o : Nat)
    (h : reset_outgoing_stream pc o = some pc1) :
    pc1.channels = pc.channels ∧
      pc1.o_stream_buffer_counter ≤ pc.o_stream_buffer_counter + 1 := by
  unfold reset_outgoing_stream at h
  split at h
  · simp at h
  · simp only [Option.some.injEq] at h
    subst h
    exact ⟨rfl, by omega⟩
  · split at h
    · simp only [Option.some.injEq] at h
      subst h
      exact ⟨rfl, le_refl _⟩
    · simp at h

/-- Whenever `send_outgoing_stream_reset` returns, the channels are unchanged and the counter
did not grow. -/
theorem send_outgoing_stream_reset_counter (sock : Socket) (w w1 : World)
    (h : send_outgoing_stream_reset sock w = some w1) :
    w1.pc.channels = w.pc.channels ∧
      w1.pc.o_stream_buffer_counter ≤ w.pc.o_stream_buffer_counter := by
  unfold send_outgoing_stream_reset malloc usrsctp_setsockopt_reset_streams at h
  split at h
  · simp only [Option.some.injEq] at h
    subst h
    exact ⟨rfl, le_refl _⟩
  · cases hm : (sock w.calls).malloc <;> simp only [hm] at h
    · simp only [Option.some.injEq] at h
      subst h
      exact ⟨rfl, le_refl _⟩
    · split at h
      · cases hs : (sock (w.calls + 1)).setsockopt <;> simp only [hs] at h
        · simp only [Option.some.injEq] at h
          subst h
          exact ⟨rfl, le_refl _⟩
        · simp only [Option.some.injEq] at h
          subst h
          exact ⟨rfl, Nat.zero_le _⟩
      · simp at h

/-! ## The teardown of one channel through the stream-reset loop -/

/-- The effect of the incoming half of a round on a bound stream whose channel agrees with the
index. -/
theorem strreset_incoming_effect (pc : peer_connection) (s : Nat) (hs : s < NUMBER_OF_STREAMS)
    (c : Fin NUMBER_OF_CHANNELS) (hfind : pc.i_stream_channel ⟨s, hs⟩ = some c)
    (hagree : (pc.channels c).i_stream = s) (hok : pending_resets_ok pc)
    (hrange : (pc.channels c).o_stream < NUMBER_OF_STREAMS) :
    ∃ pc1, strreset_incoming pc s = some pc1 ∧
      pc1.i_stream_channel = setAt pc.i_stream_channel ⟨s, hs⟩ none ∧
      pc1.o_stream_channel = pc.o_stream_channel ∧
      pending_resets_ok pc1 ∧
      (∀ j, j ≠ c → pc1.channels j = pc.channels j) ∧
      pc1.channels c =
        (if (pc.channels c).o_stream = 0 then
          ({ pc.channels c with i_stream := 0 } : channel).cleared
        else { pc.channels c with i_stream := 0, state := DATA_CHANNEL_CLOSING }) := by
  have hf : find_channel_by_i_stream pc s = some c := by
    simp [find_channel_by_i_stream, hs, hfind]
  have hlt : (pc.channels c).i_stream < NUMBER_OF_STREAMS := by rw [hagree]; exact hs
  unfold strreset_incoming
  simp only [hf, dif_pos hlt]
  by_cases ho : (pc.channels c).o_stream = 0
  · simp only [ho, if_true]
    refine ⟨_, rfl, ?_, rfl, hok, ?_, ?_⟩
    · simp [hagree]
    · intro j hj; simp [setAt, hj]
    · simp
  · simp only [ho, if_false]
    obtain ⟨pc2, hpc2, hok2, hch, hi2, ho2, -⟩ :=
      reset_outgoing_stream_ok
        { pc with
          i_stream_channel := setAt pc.i_stream_channel ⟨(pc.channels c).i_stream, hlt⟩ none,
          channels := setAt pc.channels c { pc.channels c with i_stream := 0 } }
        (pc.channels c).o_stream hok hrange
    rw [hpc2]
    refine ⟨_, rfl, ?_, ho2, hok2, ?_, ?_⟩
    · simp [hi2, hagree]
    · intro j hj; simp [setAt, hj, hch]
    · simp [hch]

/-- The effect of the outgoing half of a round on a bound stream whose channel agrees with the
index. -/
theorem strreset_outgoing_effect (pc : peer_connection) (s : Nat) (hs : s < NUMBER_OF_STREAMS)
    (c : Fin NUMBER_OF_CHANNELS) (hfind : pc.o_stream_channel ⟨s, hs⟩ = some c)
    (hagree : (pc.channels c).o_stream = s) :
    ∃ pc1, strreset_outgoing pc s = some pc1 ∧
      pc1.o_stream_channel = setAt pc.o_stream_channel ⟨s, hs⟩ none ∧
      pc1.i_stream_channel = pc.i_stream_channel ∧
      pc1.o_stream_buffer = pc.o_stream_buffer ∧
      pc1.o_stream_buffer_counter = pc.o_stream_buffer_counter ∧
      (∀ j, j ≠ c → pc1.channels j = pc.channels j) ∧
      pc1.channels c =
        (if (pc.channels c).i_stream = 0 then
          ({ pc.channels c with o_stream := 0 } : channel).cleared
        else { pc.channels c with o_stream := 0 }) := by
  have hf : find_channel_by_o_stream pc s = some c := by
    simp [find_channel_by_o_stream, hs, hfind]
  have hlt : (pc.channels c).o_stream < NUMBER_OF_STREAMS := by rw [hagree]; exact hs
  unfold strreset_outgoing
  simp only [hf, dif_pos hlt]
  by_cases hi : (pc.channels c).i_stream = 0
  · simp only [hi, if_true]
    refine ⟨_, rfl, ?_, rfl, rfl, rfl, ?_, ?_⟩
    · simp [hagree]
    · intro j hj; simp [setAt, hj]
    · simp
  · simp only [hi, if_false]
    refine ⟨_, rfl, ?_, rfl, rfl, rfl, ?_, ?_⟩
    · simp [hagree]
    · intro j hj; simp [setAt, hj]
    · simp

/-- The incoming half of a round keeps the teardown phase and unbinds the inbound side exactly
when the stream id is `a`. -/
theorem closing_phase_incoming (c : Fin NUMBER_OF_CHANNELS) (a b : Nat) (ib ob : Bool)
    (pc : peer_connection) (h : closing_phase c a b ib ob pc) (hb : b ≠ 0) (s : Nat) :
    ∃ pc1, strreset_incoming pc s = some pc1 ∧
      closing_phase c a b (ib && decide (s ≠ a)) ob pc1 := by
  cases hf : find_channel_by_i_stream pc s with
  | none =>
    refine ⟨pc, by simp [strreset_incoming, hf], ?_⟩
    have : (ib && decide (s ≠ a)) = ib := by
      by_cases hsa : s = a
      · subst hsa
        cases ib with
        | false => rfl
        | true => have := (h.in_bound rfl).1; rw [hf] at this; simp at this
      · simp [hsa]
    rw [this]; exact h
  | some j =>
    obtain ⟨hs, hfind⟩ := find_channel_by_i_stream_some pc s j hf
    obtain ⟨pc1, hpc1, hi1, ho1, hok1, hother, hself⟩ :=
      strreset_incoming_effect pc s hs j hfind (h.agree_i _ _ hfind) h.pending (h.range j)
    have hkeep : ∀ k, (pc1.channels k).o_stream = (pc.channels k).o_stream := by
      intro k
      by_cases hk : k = j
      · subst hk; rw [hself]; split <;> rfl
      · rw [hother k hk]
    have hfo : ∀ t, find_channel_by_o_stream pc1 t = find_channel_by_o_stream pc t := by
      intro t; simp [find_channel_by_o_stream, ho1]
    have hrange : o_streams_in_range pc1 := by
      intro k; rw [hkeep]; exact h.range k
    have hago : ∀ (t : Fin NUMBER_OF_STREAMS) (k : Fin NUMBER_OF_CHANNELS),
        pc1.o_stream_channel t = some k → (pc1.channels k).o_stream = t.val := by
      intro t k htk
      rw [ho1] at htk
      rw [hkeep]; exact h.agree_o t k htk
    have honb : ∀ t : Fin NUMBER_OF_STREAMS, t.val ≠ b → pc1.o_stream_channel t ≠ some c := by
      intro t ht; rw [ho1]; exact h.only_b t ht
    have hona : ∀ t : Fin NUMBER_OF_STREAMS, t.val ≠ a → pc1.i_stream_channel t ≠ some c := by
      intro t ht
      rw [hi1]
      simp only [setAt]
      split
      · simp
      · exact h.only_a t ht
    have hagi : ∀ (t : Fin NUMBER_OF_STREAMS) (k : Fin NUMBER_OF_CHANNELS),
        pc1.i_stream_channel t = some k → (pc1.channels k).i_stream = t.val := by
      intro t k htk
      rw [hi1] at htk
      by_cases ht : t = ⟨s, hs⟩
      · simp [setAt, ht] at htk
      · simp only [setAt, if_neg ht] at htk
        have hk : k ≠ j := by
          intro hkj; subst hkj
          have h1 := h.agree_i t k htk
          have h2 := h.agree_i _ k hfind
          exact ht (Fin.ext (by rw [← h1, h2]))
        rw [hother k hk]; exact h.agree_i t k htk
    refine ⟨pc1, hpc1, ?_⟩
    by_cases hjc : j = c
    · subst hjc
      have hsa : s = a := by
        by_contra hne
        exact h.only_a ⟨s, hs⟩ hne hfind
      subst hsa
      have hib : ib = true := by
        cases ib with
        | true => rfl
        | false => have := (h.in_clear rfl).1; rw [hf] at this; simp at this
      subst hib
      have hfa : find_channel_by_i_stream pc1 s = none := by
        simp [find_channel_by_i_stream, hs, hi1]
      have hi0 : (pc1.channels j).i_stream = 0 := by rw [hself]; split <;> rfl
      simp only [ne_eq, not_true_eq_false, decide_False, Bool.and_false]
      refine ⟨hagi, hago, hok1, hrange, hona, honb, ?_, fun _ => ⟨hfa, hi0⟩, ?_, ?_, ?_, ?_⟩
      · intro hx; simp at hx
      · intro hx; rw [hfo, hkeep]; exact h.out_bound hx
      · intro hx; rw [hfo, hkeep]; exact h.out_clear hx
      · intro hx
        have hob : ob = true := by
          rcases hx with hx | hx
          · simp at hx
          · exact hx
        have : (pc.channels j).o_stream ≠ 0 := by rw [(h.out_bound hob).2]; exact hb
        rw [hself, if_neg this]
      · intro _ hob
        have : (pc.channels j).o_stream = 0 := (h.out_clear hob).2
        rw [hself, if_pos this]
        exact ⟨rfl, rfl, rfl, rfl⟩
    · have hsa : s ≠ a := by
        intro hsa; subst hsa
        cases ib with
        | true =>
          have := (h.in_bound rfl).1; rw [hf] at this
          simp only [Option.some.injEq] at this
          exact hjc this
        | false => have := (h.in_clear rfl).1; rw [hf] at this; simp at this
      have hcc : pc1.channels c = pc.channels c := hother c (fun hx => hjc hx.symm)
      have hfa : find_channel_by_i_stream pc1 a = find_channel_by_i_stream pc a := by
        unfold find_channel_by_i_stream
        split
        · rename_i ha'
          rw [hi1]
          have : (⟨a, ha'⟩ : Fin NUMBER_OF_STREAMS) ≠ ⟨s, hs⟩ := by
            intro hv; exact hsa (congrArg Fin.val hv).symm
          simp only [setAt, if_neg this]
        · rfl
      simp only [ne_eq, hsa, not_false_eq_true, decide_True, Bool.and_true]
      refine ⟨hagi, hago, hok1, hrange, hona, honb, ?_, ?_, ?_, ?_, ?_, ?_⟩
      · intro hx; rw [hfa, hcc]; exact h.in_bound hx
      · intro hx; rw [hfa, hcc]; exact h.in_clear hx
      · intro hx; rw [hfo, hcc]; exact h.out_bound hx
      · intro hx; rw [hfo, hcc]; exact h.out_clear hx
      · intro hx; rw [hcc]; exact h.closing hx
      · intro h1 h2; rw [hcc]; exact h.closed h1 h2

/-- The outgoing half of a round keeps the teardown phase and unbinds the outbound side exactly
when the stream id is `b`. -/
theorem closing_phase_outgoing (c : Fin NUMBER_OF_CHANNELS) (a b : Nat) (ib ob : Bool)
    (pc : peer_connection) (h : closing_phase c a b ib ob pc) (ha : a ≠ 0) (s : Nat) :
    ∃ pc1, strreset_outgoing pc s = some pc1 ∧
      closing_phase c a b ib (ob && decide (s ≠ b)) pc1 := by
  cases hf : find_channel_by_o_stream pc s with
  | none =>
    refine ⟨pc, by simp [strreset_outgoing, hf], ?_⟩
    have : (ob && decide (s ≠ b)) = ob := by
      by_cases hsb : s = b
      · subst hsb
        cases ob with
        | false => rfl
        | true => have := (h.out_bound rfl).1; rw [hf] at this; simp at this
      · simp [hsb]
    rw [this]; exact h
  | some j =>
    obtain ⟨hs, hfind⟩ := find_channel_by_o_stream_some pc s j hf
    obtain ⟨pc1, hpc1, ho1, hi1, hbuf, hcnt, hother, hself⟩ :=
      strreset_outgoing_effect pc s hs j hfind (h.agree_o _ _ hfind)
    have hkeep : ∀ k, (pc1.channels k).i_stream = (pc.channels k).i_stream := by
      intro k
      by_cases hk : k = j
      · subst hk; rw [hself]; split <;> rfl
      · rw [hother k hk]
    have hfi : ∀ t, find_channel_by_i_stream pc1 t = find_channel_by_i_stream pc t := by
      intro t; simp [find_channel_by_i_stream, hi1]
    have hok1 : pending_resets_ok pc1 := by
      have := h.pending
      unfold pending_resets_ok at this ⊢
      rw [hbuf, hcnt]; exact this
    have hrange : o_streams_in_range pc1 := by
      intro k
      by_cases hk : k = j
      · subst hk
        have : (pc1.channels k).o_stream = 0 := by rw [hself]; split <;> rfl
        rw [this]; decide
      · rw [hother k hk]; exact h.range k
    have hagi : ∀ (t : Fin NUMBER_OF_STREAMS) (k : Fin NUMBER_OF_CHANNELS),
        pc1.i_stream_channel t = some k → (pc1.channels k).i_stream = t.val := by
      intro t k htk
      rw [hi1] at htk
      rw [hkeep]; exact h.agree_i t k htk
    have hona : ∀ t : Fin NUMBER_OF_STREAMS, t.val ≠ a → pc1.i_stream_channel t ≠ some c := by
      intro t ht; rw [hi1]; exact h.only_a t ht
    have honb : ∀ t : Fin NUMBER_OF_STREAMS, t.val ≠ b → pc1.o_stream_channel t ≠ some c := by
      intro t ht
      rw [ho1]
      simp only [setAt]
      split
      · simp
      · exact h.only_b t ht
    have hago : ∀ (t : Fin NUMBER_OF_STREAMS) (k : Fin NUMBER_OF_CHANNELS),
        pc1.o_stream_channel t = some k → (pc1.channels k).o_stream = t.val := by
      intro t k htk
      rw [ho1] at htk
      by_cases ht : t = ⟨s, hs⟩
      · simp [setAt, ht] at htk
      · simp only [setAt, if_neg ht] at htk
        have hk : k ≠ j := by
          intro hkj; subst hkj
          have h1 := h.agree_o t k htk
          have h2 := h.agree_o _ k hfind
          exact ht (Fin.ext (by rw [← h1, h2]))
        rw [hother k hk]; exact h.agree_o t k htk
    refine ⟨pc1, hpc1, ?_⟩
    by_cases hjc : j = c
    · subst hjc
      have hsb : s = b := by
        by_contra hne
        exact h.only_b ⟨s, hs⟩ hne hfind
      subst hsb
      have hob : ob = true := by
        cases ob with
        | true => rfl
        | false => have := (h.out_clear rfl).1; rw [hf] at this; simp at this
      subst hob
      have hfb : find_channel_by_o_stream pc1 s = none := by
        simp [find_channel_by_o_stream, hs, ho1]
      have ho0 : (pc1.channels j).o_stream = 0 := by rw [hself]; split <;> rfl
      simp only [ne_eq, not_true_eq_false, decide_False, Bool.and_false]
      refine ⟨hagi, hago, hok1, hrange, hona, honb, ?_, ?_, ?_, fun _ => ⟨hfb, ho0⟩, ?_, ?_⟩
      · intro hx; rw [hfi, hkeep]; exact h.in_bound hx
      · intro hx; rw [hfi, hkeep]; exact h.in_clear hx
      · intro hx; simp at hx
      · intro hx
        have hib : ib = true := by
          rcases hx with hx | hx
          · exact hx
          · simp at hx
        have : (pc.channels j).i_stream ≠ 0 := by rw [(h.in_bound hib).2]; exact ha
        rw [hself, if_neg this]
        exact h.closing (Or.inl hib)
      · intro hib _
        have : (pc.channels j).i_stream = 0 := (h.in_clear hib).2
        rw [hself, if_pos this]
        exact ⟨rfl, rfl, rfl, rfl⟩
    · have hsb : s ≠ b := by
        intro hsb; subst hsb
        cases ob with
        | true =>
          have := (h.out_bound rfl).1; rw [hf] at this
          simp only [Option.some.injEq] at this
          exact hjc this
        | false => have := (h.out_clear rfl).1; rw [hf] at this; simp at this
      have hcc : pc1.channels c = pc.channels c := hother c (fun hx => hjc hx.symm)
      have hfb : find_channel_by_o_stream pc1 b = find_channel_by_o_stream pc b := by
        unfold find_channel_by_o_stream
        split
        · rename_i hb'
          rw [ho1]
          have : (⟨b, hb'⟩ : Fin NUMBER_OF_STREAMS) ≠ ⟨s, hs⟩ := by
            intro hv; exact hsb (congrArg Fin.val hv).symm
          simp only [setAt, if_neg this]
        · rfl
      simp only [ne_eq, hsb, not_false_eq_true, decide_True, Bool.and_true]
      refine ⟨hagi, hago, hok1, hrange, hona, honb, ?_, ?_, ?_, ?_, ?_, ?_⟩
      · intro hx; rw [hfi, hcc]; exact h.in_bound hx
      · intro hx; rw [hfi, hcc]; exact h.in_clear hx
      · intro hx; rw [hfb, hcc]; exact h.out_bound hx
      · intro hx; rw [hfb, hcc]; exact h.out_clear hx
      · intro hx; rw [hcc]; exact h.closing hx
      · intro h1 h2; rw [hcc]; exact h.closed h1 h2

/-- One round of the stream-reset loop advances the teardown phase according to the flags. -/
theorem closing_phase_round (c : Fin NUMBER_OF_CHANNELS) (a b : Nat) (ib ob : Bool)
    (pc : peer_connection) (h : closing_phase c a b ib ob pc) (ha : a ≠ 0) (hb : b ≠ 0)
    (flags : strreset_flags) (s : Nat) :
    ∃ pc1, strreset_round flags pc s = some pc1 ∧
      closing_phase c a b (ib && !(flags.incoming_ssn && decide (s = a)))
        (ob && !(flags.outgoing_ssn && decide (s = b))) pc1 := by
  unfold strreset_round
  cases hin : flags.incoming_ssn <;> cases hout : flags.outgoing_ssn
  · exact ⟨pc, rfl, by simpa using h⟩
  · obtain ⟨pc1, h1, h2⟩ := closing_phase_outgoing c a b ib ob pc h ha s
    exact ⟨pc1, by simpa using h1, by simpa using h2⟩
  · obtain ⟨pc1, h1, h2⟩ := closing_phase_incoming c a b ib ob pc h hb s
    exact ⟨pc1, by simp [h1], by simpa using h2⟩
  · obtain ⟨pc1, h1, h2⟩ := closing_phase_incoming c a b ib ob pc h hb s
    obtain ⟨pc2, h3, h4⟩ := closing_phase_outgoing c a b _ ob pc1 h2 ha s
    exact ⟨pc2, by simpa [h1] using h3, by simpa using h4⟩

/-- The stream-reset loop advances the teardown phase according to the flags and to whether `a`
and `b` are listed. -/
theorem closing_phase_loop (c : Fin NUMBER_OF_CHANNELS) (a b : Nat) (ha : a ≠ 0) (hb : b ≠ 0)
    (flags : strreset_flags) (list : List Nat) (ib ob : Bool)
    (pc : peer_connection) (h : closing_phase c a b ib ob pc) :
    ∃ pc1, strreset_loop flags pc list = some pc1 ∧
      closing_phase c a b (ib && !(flags.incoming_ssn && decide (a ∈ list)))
        (ob && !(flags.outgoing_ssn && decide (b ∈ list))) pc1 := by
  induction list generalizing ib ob pc with
  | nil => exact ⟨pc, rfl, by simpa using h⟩
  | cons s rest ih =>
    obtain ⟨pc1, h1, h2⟩ := closing_phase_round c a b ib ob pc h ha hb flags s
    obtain ⟨pc2, h3, h4⟩ := ih _ _ pc1 h2
    refine ⟨pc2, by simp [strreset_loop, h1, h3], ?_⟩
    have e1 : (ib && !(flags.incoming_ssn && decide (s = a)) &&
        !(flags.incoming_ssn && decide (a ∈ rest))) =
        (ib && !(flags.incoming_ssn && decide (a ∈ s :: rest))) := by
      by_cases hsa : s = a
      · subst hsa; cases ib <;> cases flags.incoming_ssn <;> simp
      · have : a ≠ s := fun hx => hsa hx.symm
        cases ib <;> cases flags.incoming_ssn <;> simp [hsa, this]
    have e2 : (ob && !(flags.outgoing_ssn && decide (s = b)) &&
        !(flags.outgoing_ssn && decide (b ∈ rest))) =
        (ob && !(flags.outgoing_ssn && decide (b ∈ s :: rest))) := by
      by_cases hsb : s = b
      · subst hsb; cases ob <;> cases flags.outgoing_ssn <;> simp
      · have : b ≠ s := fun hx => hsb hx.symm
        cases ob <;> cases flags.outgoing_ssn <;> simp [hsb, this]
    rw [e1, e2] at h4
    exact h4

/-- The teardown phase only depends on the channels, the index tables and a well-formed buffer. -/
theorem closing_phase_flush (c : Fin NUMBER_OF_CHANNELS) (a b : Nat) (ib ob : Bool)
    (pc pc1 : peer_connection) (h : closing_phase c a b ib ob pc)
    (hch : pc1.channels = pc.channels) (hi : pc1.i_stream_channel = pc.i_stream_channel)
    (ho : pc1.o_stream_channel = pc.o_stream_channel)
    (hbuf : pc1.o_stream_buffer = pc.o_stream_buffer)
    (hcnt : pc1.o_stream_buffer_counter = pc.o_stream_buffer_counter ∨
      pc1.o_stream_buffer_counter = 0) :
    closing_phase c a b ib ob pc1 := by
  have hfi : ∀ t, find_channel_by_i_stream pc1 t = find_channel_by_i_stream pc t := by
    intro t; simp [find_channel_by_i_stream, hi]
  have hfo : ∀ t, find_channel_by_o_stream pc1 t = find_channel_by_o_stream pc t := by
    intro t; simp [find_channel_by_o_stream, ho]
  refine ⟨?_, ?_, ?_, ?_, ?_, ?_, ?_, ?_, ?_, ?_, ?_, ?_⟩
  · intro t k; rw [hi, hch]; exact h.agree_i t k
  · intro t k; rw [ho, hch]; exact h.agree_o t k
  · have hp := h.pending
    unfold pending_resets_ok at hp ⊢
    rcases hcnt with hc | hc
    · rw [hbuf, hc]; exact hp
    · rw [hc]
      exact ⟨Nat.zero_le _, fun m _ hm => absurd hm (Nat.not_lt_zero _),
        fun m hm => absurd hm (Nat.not_lt_zero _)⟩
  · intro k; rw [hch]; exact h.range k
  · intro t; rw [hi]; exact h.only_a t
  · intro t; rw [ho]; exact h.only_b t
  · rw [hfi, hch]; exact h.in_bound
  · rw [hfi, hch]; exact h.in_clear
  · rw [hfo, hch]; exact h.out_bound
  · rw [hfo, hch]; exact h.out_clear
  · rw [hch]; exact h.closing
  · rw [hch]; exact h.closed

/-- A stream-reset notification that is neither denied nor failed is handled without fault and
advances the teardown phase. -/
theorem closing_phase_notification (c : Fin NUMBER_OF_CHANNELS) (a b : Nat) (ha : a ≠ 0)
    (hb : b ≠ 0) (sock : Socket) (w : World) (ib ob : Bool)
    (h : closing_phase c a b ib ob w.pc) (flags : strreset_flags) (list : List Nat)
    (hden : flags.denied = false) (hfail : flags.failed = false) (sn_length n : Nat)
    (hlen : sn_length = n % 4294967296) :
    ∃ w1, handle_notification sock w sn_length
        (sctp_notification.stream_reset_event flags list) n = some w1 ∧
      closing_phase c a b (ib && !(flags.incoming_ssn && decide (a ∈ list)))
        (ob && !(flags.outgoing_ssn && decide (b ∈ list))) w1.pc := by
  obtain ⟨pc1, h1, h2⟩ := closing_phase_loop c a b ha hb flags list ib ob w.pc h
  obtain ⟨w2, h3, hch, hi, ho, hbuf, hcnt⟩ :=
    send_outgoing_stream_reset_ok sock { w with pc := pc1 } h2.pending.1
  refine ⟨request_more_o_streams sock w2, ?_, ?_⟩
  · simp [handle_notification, hlen, handle_stream_reset_event, hden, hfail, h1, h3]
  · rw [request_more_o_streams_pc]
    exact closing_phase_flush c a b _ _ pc1 w2.pc h2 hch hi ho hbuf hcnt

/-- Closing an OPEN channel that both index tables refer to starts the teardown phase with both
sides bound. -/
theorem closing_phase_close (sock : Socket) (w : World) (c : Fin NUMBER_OF_CHANNELS)
    (a b : Nat) (hI2 : I2 w.pc) (hI3 : I3 w.pc) (hpend : pending_resets_ok w.pc)
    (hrange : o_streams_in_range w.pc)
    (hopen : (w.pc.channels c).state = DATA_CHANNEL_OPEN)
    (hi : (w.pc.channels c).i_stream = a) (ho : (w.pc.channels c).o_stream = b)
    (hbi : find_channel_by_i_stream w.pc a = some c)
    (hbo : find_channel_by_o_stream w.pc b = some c) :
    ∃ w1, close_channel sock w (some c) = some w1 ∧ closing_phase c a b true true w1.pc := by
  obtain ⟨pc1, h1, hok1, hch1, hi1, ho1, -⟩ :=
    reset_outgoing_stream_ok w.pc (w.pc.channels c).o_stream hpend (hrange c)
  obtain ⟨w2, h2, hch2, hi2, ho2, hbuf2, hcnt2⟩ :=
    send_outgoing_stream_reset_ok sock { w with pc := pc1 } hok1.1
  have hch : w2.pc.channels = w.pc.channels := by rw [hch2]; exact hch1
  have hit : w2.pc.i_stream_channel = w.pc.i_stream_channel := by rw [hi2]; exact hi1
  have hot : w2.pc.o_stream_channel = w.pc.o_stream_channel := by rw [ho2]; exact ho1
  have hok2 : pending_resets_ok w2.pc := by
    unfold pending_resets_ok at hok1 ⊢
    rcases hcnt2 with hc | hc
    · rw [hbuf2, hc]; exact hok1
    · rw [hc]
      exact ⟨Nat.zero_le _, fun m _ hm => absurd hm (Nat.not_lt_zero _),
        fun m hm => absurd hm (Nat.not_lt_zero _)⟩
  refine ⟨_, by simp [close_channel, hopen, h1, h2]; rfl, ?_⟩
  have hrec : ∀ k, (setAt w2.pc.channels c
      { w2.pc.channels c with state := DATA_CHANNEL_CLOSING } k).i_stream =
        (w.pc.channels k).i_stream ∧
      (setAt w2.pc.channels c
        { w2.pc.channels c with state := DATA_CHANNEL_CLOSING } k).o_stream =
        (w.pc.channels k).o_stream := by
    intro k
    by_cases hk : k = c
    · subst hk; simp [hch]
    · simp [setAt, hk, hch]
  refine ⟨?_, ?_, hok2, ?_, ?_, ?_, ?_, ?_, ?_, ?_, ?_, ?_⟩
  · intro t k htk
    rw [(hrec k).1]
    exact (hI2 t k (by rw [← hit]; exact htk)).1
  · intro t k htk
    rw [(hrec k).2]
    exact (hI3 t k (by rw [← hot]; exact htk)).1
  · intro k
    show (setAt w2.pc.channels c _ k).o_stream < NUMBER_OF_STREAMS
    rw [(hrec k).2]; exact hrange k
  · intro t ht htc
    have := (hI2 t c (by rw [← hit]; exact htc)).1
    rw [hi] at this
    exact ht this.symm
  · intro t ht htc
    have := (hI3 t c (by rw [← hot]; exact htc)).1
    rw [ho] at this
    exact ht this.symm
  · intro _
    refine ⟨?_, ?_⟩
    · simpa [find_channel_by_i_stream, hit] using hbi
    · show (setAt w2.pc.channels c _ c).i_stream = a
      rw [(hrec c).1]; exact hi
  · intro hx; simp at hx
  · intro _
    refine ⟨?_, ?_⟩
    · simpa [find_channel_by_o_stream, hot] using hbo
    · show (setAt w2.pc.channels c _ c).o_stream = b
      rw [(hrec c).2]; exact ho
  · intro hx; simp at hx
  · intro _
    show (setAt w2.pc.channels c _ c).state = DATA_CHANNEL_CLOSING
    simp
  · intro hx; simp at hx

/-! ## Opening a channel -/

/-- Claim C1. Open handshake: let A and B be peer connections that each have a CLOSED record,
let `find_free_o_stream` yield `a ≠ 0` at A and `b ≠ 0` at B, let inbound stream `a` be
unbound at B and let every send succeed.  Then `open_channel` at A with valid arguments
hands one request to the transport on stream `a`; `handle_message` at B with that request
received on stream `a` hands one response to the transport on stream `b`; `handle_message`
at A with that response received on stream `b` hands one ack to the transport on stream `a`;
and `handle_message` at B with that ack received on stream `a` leaves A's channel OPEN with
`(i_stream, o_stream) = (b, a)` and B's channel OPEN with `(i_stream, o_stream) = (a, b)`,
each bound in both index tables.  The table invariants and the premise that inbound `b` is
unbound at A are not needed. -/
theorem open_handshake (sockA sockB : Socket) (A B : World)
    (unordered pr_policy pr_value : Nat)
    (hpol : pr_policy = SCTP_PR_SCTP_NONE ∨ pr_policy = SCTP_PR_SCTP_TTL ∨
      pr_policy = SCTP_PR_SCTP_RTX)
    (hun : unordered = 0 ∨ unordered = 1)
    (hval : pr_policy = SCTP_PR_SCTP_NONE → pr_value = 0)
    (hfreeA : ∃ j : Fin NUMBER_OF_CHANNELS, (A.pc.channels j).state = DATA_CHANNEL_CLOSED)
    (hfreeB : ∃ j : Fin NUMBER_OF_CHANNELS, (B.pc.channels j).state = DATA_CHANNEL_CLOSED)
    (a b : Nat) (A1 B1 : World)
    (hA : find_free_o_stream sockA A = (a, A1)) (ha : a ≠ 0)
    (hB : find_free_o_stream sockB B = (b, B1)) (hb : b ≠ 0)
    (hunbound_a : find_channel_by_i_stream B.pc a = none)
    (hsendA : ∀ n, (sockA n).sendv = true) (hsendB : ∀ n, (sockB n).sendv = true) :
    ∃ (cA cB : Fin NUMBER_OF_CHANNELS) (A2 A3 B2 B3 : World) (req rsp ack : List Nat),
      open_channel sockA A unordered pr_policy pr_value = some (some cA, A2) ∧
      A2.trace = A.trace ++ [Event.sendv a req DATA_CHANNEL_PPID_CONTROL false none] ∧
      handle_message sockB B req DATA_CHANNEL_PPID_CONTROL a = some B2 ∧
      B2.trace = B.trace ++ [Event.sendv b rsp DATA_CHANNEL_PPID_CONTROL false none] ∧
      handle_message sockA A2 rsp DATA_CHANNEL_PPID_CONTROL b = some A3 ∧
      A3.trace = A2.trace ++ [Event.sendv a ack DATA_CHANNEL_PPID_CONTROL false none] ∧
      handle_message sockB B2 ack DATA_CHANNEL_PPID_CONTROL a = some B3 ∧
      (A3.pc.channels cA).state = DATA_CHANNEL_OPEN ∧
      (A3.pc.channels cA).i_stream = b ∧ (A3.pc.channels cA).o_stream = a ∧
      find_channel_by_i_stream A3.pc b = some cA ∧
      find_channel_by_o_stream A3.pc a = some cA ∧
      (B3.pc.channels cB).state = DATA_CHANNEL_OPEN ∧
      (B3.pc.channels cB).i_stream = a ∧ (B3.pc.channels cB).o_stream = b ∧
      find_channel_by_i_stream B3.pc a = some cB ∧
      find_channel_by_o_stream B3.pc b = some cB := by
  obtain ⟨cA, hcA⟩ := find_free_channel_exists A.pc hfreeA
  obtain ⟨cB, hcB⟩ := find_free_channel_exists B.pc hfreeB
  have hla : a < NUMBER_OF_STREAMS := by
    have := find_free_o_stream_lt sockA A
    rw [hA] at this
    exact this
  have hlb : b < NUMBER_OF_STREAMS := by
    have := find_free_o_stream_lt sockB B
    rw [hB] at this
    exact this
  have hA1 : A1 = { A with calls := A.calls + 1 } := by
    have := find_free_o_stream_world sockA A
    rw [hA] at this
    exact this
  have hB1 : B1 = { B with calls := B.calls + 1 } := by
    have := find_free_o_stream_world sockB B
    rw [hB] at this
    exact this
  -- step 1: the initiator opens
  have h1 := open_channel_valid sockA A unordered pr_policy pr_value hpol hun hval cA hcA a A1
    hA hla
  have hreq := send_open_request_message_eq sockA A1 a unordered pr_policy pr_value hpol
  obtain ⟨req, hreqd⟩ : ∃ req : List Nat, req =
      [DATA_CHANNEL_OPEN_REQUEST,
        if pr_policy = SCTP_PR_SCTP_NONE then DATA_CHANNEL_RELIABLE
        else if pr_policy = SCTP_PR_SCTP_TTL then DATA_CHANNEL_PARTIAL_RELIABLE_TIMED
        else DATA_CHANNEL_PARTIAL_RELIABLE_REXMIT,
        0, if unordered = 0 then 0 else 1, pr_value % 65536 / 256, pr_value % 256, 0, 0] :=
    ⟨_, rfl⟩
  rw [← hreqd] at hreq
  have hreq0 : byte_at req 0 = DATA_CHANNEL_OPEN_REQUEST := by rw [hreqd]; rfl
  have hreqlen : SIZEOF_OPEN_REQUEST ≤ req.length := by rw [hreqd]; simp
  obtain ⟨p, hp⟩ : ∃ p, pr_policy_of_channel_type (byte_at req 1) = some p := by
    rw [hreqd]
    rcases hpol with h | h | h <;> subst h <;> exact ⟨_, rfl⟩
  simp only [if_neg ha, hreq, hsendA, if_true] at h1
  -- step 2: the responder handles the request
  have h2 := handle_open_request_message_eq sockB B req a hla hunbound_a cB hcB p hp b B1 hB hlb
  rw [← handle_message_open_request sockB B req a hreq0 hreqlen] at h2
  have ha65536 : a % 65536 = a :=
    Nat.mod_eq_of_lt (by simp only [NUMBER_OF_STREAMS] at hla; omega)
  have hrsp : send_open_response_message sockB B1 b a =
      ((sockB B1.calls).sendv,
        { B1 with calls := B1.calls + 1,
                  trace := B1.trace ++
                    [Event.sendv b [DATA_CHANNEL_OPEN_RESPONSE, 0, 0, 0, a / 256, a % 256]
                      DATA_CHANNEL_PPID_CONTROL false none] }) := by
    simp [send_open_response_message, usrsctp_sendv, ha65536]
  simp only [if_neg hb, hrsp, hsendB, if_true] at h2
  -- step 3: the initiator handles the response
  have hnt := ntohs_at_response a
  obtain ⟨A2, hA2⟩ : ∃ A2 : World, A2 =
      { pc := { A.pc with
                channels := setAt A.pc.channels cA
                  { A.pc.channels cA with
                    state := DATA_CHANNEL_CONNECTING, unordered := unordered,
                    pr_policy := pr_policy, pr_value := pr_value, o_stream := a },
                o_stream_channel := setAt A.pc.o_stream_channel ⟨a, hla⟩ (some cA) },
        calls := A1.calls + 1,
        trace := A1.trace ++ [Event.sendv a req DATA_CHANNEL_PPID_CONTROL false none] } :=
    ⟨_, rfl⟩
  have h1' : open_channel sockA A unordered pr_policy pr_value = some (some cA, A2) := by
    rw [h1, hA2]
  have hfindA : find_channel_by_o_stream A2.pc
      (ntohs_at [DATA_CHANNEL_OPEN_RESPONSE, 0, 0, 0, a / 256, a % 256] 4) = some cA := by
    rw [hnt, hA2]; simp [find_channel_by_o_stream, hla]
  have h3 := handle_open_response_message_eq sockA A2
    [DATA_CHANNEL_OPEN_RESPONSE, 0, 0, 0, a / 256, a % 256] b hlb cA hfindA
  rw [← handle_message_open_response sockA A2
    [DATA_CHANNEL_OPEN_RESPONSE, 0, 0, 0, a / 256, a % 256] b rfl (by simp), hnt] at h3
  -- step 4: the responder handles the ack
  obtain ⟨B2, hB2⟩ : ∃ B2 : World, B2 =
      { pc := { B.pc with
                channels := setAt B.pc.channels cB
                  { B.pc.channels cB with
                    state := DATA_CHANNEL_CONNECTING,
                    unordered :=
                      if ntohs_at req 2 &&& DATA_CHANNEL_FLAG_OUT_OF_ORDER_ALLOWED ≠ 0 then 1
                      else 0,
                    pr_policy := p, pr_value := ntohs_at req 4, i_stream := a, o_stream := b },
                i_stream_channel := setAt B.pc.i_stream_channel ⟨a, hla⟩ (some cB),
                o_stream_channel := setAt B.pc.o_stream_channel ⟨b, hlb⟩ (some cB) },
        calls := B1.calls + 1,
        trace := B1.trace ++
          [Event.sendv b [DATA_CHANNEL_OPEN_RESPONSE, 0, 0, 0, a / 256, a % 256]
            DATA_CHANNEL_PPID_CONTROL false none] } :=
    ⟨_, rfl⟩
  have h2' : handle_message sockB B req DATA_CHANNEL_PPID_CONTROL a = some B2 := by
    rw [h2, hB2]
  have h4 := handle_open_ack_message_connecting B2 a cB
    (by rw [hB2]; simp [find_channel_by_i_stream, hla]) (by rw [hB2]; simp)
  rw [← handle_message_ack sockB B2 [DATA_CHANNEL_ACK] a rfl (by simp)] at h4
  refine ⟨cA, cB, A2, _, B2, _, req, _, _, h1', ?_, h2', ?_, h3, rfl, h4, ?_⟩
  · rw [hA2, hA1]
  · rw [hB2, hB1]
  · rw [hA2, hB2]
    simp [find_channel_by_i_stream, find_channel_by_o_stream, hla, hlb]

/-- The handshake of claim C1 between two fresh peer connections whose transports report 10
outbound streams: both use stream 1. -/
theorem open_handshake_witness :
    ∃ (cA cB : Fin NUMBER_OF_CHANNELS) (A2 A3 B2 B3 : World) (req rsp ack : List Nat),
      open_channel (sock_accepting 10) fresh_world 0 SCTP_PR_SCTP_NONE 0 = some (some cA, A2) ∧
      handle_message (sock_accepting 10) fresh_world req DATA_CHANNEL_PPID_CONTROL 1 = some B2 ∧
      handle_message (sock_accepting 10) A2 rsp DATA_CHANNEL_PPID_CONTROL 1 = some A3 ∧
      handle_message (sock_accepting 10) B2 ack DATA_CHANNEL_PPID_CONTROL 1 = some B3 ∧
      (A3.pc.channels cA).state = DATA_CHANNEL_OPEN ∧
      (B3.pc.channels cB).state = DATA_CHANNEL_OPEN := by
  obtain ⟨cA, cB, A2, A3, B2, B3, req, rsp, ack, h1, _, h2, _, h3, _, h4, h5, _, _, _, _, h6, _⟩ :=
    open_handshake (sock_accepting 10) (sock_accepting 10) fresh_world fresh_world 0
      SCTP_PR_SCTP_NONE 0 (Or.inl rfl) (Or.inl rfl) (fun _ => rfl) ⟨0, rfl⟩ ⟨0, rfl⟩ 1 1
      { fresh_world with calls := 1 } { fresh_world with calls := 1 } rfl (by decide) rfl
      (by decide) rfl (fun _ => rfl) (fun _ => rfl)
  exact ⟨cA, cB, A2, A3, B2, B3, req, rsp, ack, h1, h2, h3, h4, h5, h6⟩

/-- Claim C2. Success of `open_channel`: with valid arguments, some CLOSED record, a stream id
`s ≠ 0` from `find_free_o_stream` and a successful send of the request, `open_channel`
returns the CLOSED channel `c` of lowest index; afterwards `c` is CONNECTING with `o_stream
= s` and the `unordered`, `pr_policy` and `pr_value` of the call (its `id` and `i_stream`
are kept), `o_stream_channel[s]` refers to `c`, the only event is one OpenRequest handed to
the transport on stream `s` with PPID 50, whose eight bytes are the tag 0, the channel type of
the policy, the flags with `unordered` in the low bit, the low 16 bits of the value and the
priority 0 (so no add-streams request), and every other channel, every other entry of
`o_stream_channel`, all of `i_stream_channel` and the pending resets are unchanged. -/
theorem open_channel_success (sock : Socket) (w : World) (unordered pr_policy pr_value : Nat)
    (hpol : pr_policy = SCTP_PR_SCTP_NONE ∨ pr_policy = SCTP_PR_SCTP_TTL ∨
      pr_policy = SCTP_PR_SCTP_RTX)
    (hun : unordered = 0 ∨ unordered = 1)
    (hval : pr_policy = SCTP_PR_SCTP_NONE → pr_value = 0)
    (hfree : ∃ j : Fin NUMBER_OF_CHANNELS, (w.pc.channels j).state = DATA_CHANNEL_CLOSED)
    (s : Nat) (w1 : World) (hfs : find_free_o_stream sock w = (s, w1)) (hs : s ≠ 0)
    (hsend : (send_open_request_message sock w1 s unordered pr_policy pr_value).1 = true) :
    ∃ (c : Fin NUMBER_OF_CHANNELS) (w2 : World),
      open_channel sock w unordered pr_policy pr_value = some (some c, w2) ∧
      (w.pc.channels c).state = DATA_CHANNEL_CLOSED ∧
      (∀ j : Fin NUMBER_OF_CHANNELS, j < c → (w.pc.channels j).state ≠ DATA_CHANNEL_CLOSED) ∧
      w2.pc.channels c =
        { w.pc.channels c with
          state := DATA_CHANNEL_CONNECTING, o_stream := s, unordered := unordered,
          pr_policy := pr_policy, pr_value := pr_value } ∧
      find_channel_by_o_stream w2.pc s = some c ∧
      w2.trace = w.trace ++
        [Event.sendv s
          [DATA_CHANNEL_OPEN_REQUEST,
            if pr_policy = SCTP_PR_SCTP_NONE then DATA_CHANNEL_RELIABLE
            else if pr_policy = SCTP_PR_SCTP_TTL then DATA_CHANNEL_PARTIAL_RELIABLE_TIMED
            else DATA_CHANNEL_PARTIAL_RELIABLE_REXMIT,
            0, unordered, pr_value % 65536 / 256, pr_value % 256, 0, 0]
          DATA_CHANNEL_PPID_CONTROL false none] ∧
      (∀ j : Fin NUMBER_OF_CHANNELS, j ≠ c → w2.pc.channels j = w.pc.channels j) ∧
      (∀ t : Fin NUMBER_OF_STREAMS, t.val ≠ s →
        w2.pc.o_stream_channel t = w.pc.o_stream_channel t) ∧
      w2.pc.i_stream_channel = w.pc.i_stream_channel ∧
      w2.pc.o_stream_buffer = w.pc.o_stream_buffer ∧
      w2.pc.o_stream_buffer_counter = w.pc.o_stream_buffer_counter := by
  obtain ⟨c, hc⟩ := find_free_channel_exists w.pc hfree
  have hlt : s < NUMBER_OF_STREAMS := by
    have := find_free_o_stream_lt sock w
    rw [hfs] at this
    exact this
  have hw1 : w1 = { w with calls := w.calls + 1 } := by
    have := find_free_o_stream_world sock w
    rw [hfs] at this
    exact this
  have hu : (if unordered = 0 then 0 else 1 : Nat) = unordered := by
    rcases hun with h | h <;> simp [h]
  have hopen := open_channel_valid sock w unordered pr_policy pr_value hpol hun hval c hc s w1
    hfs hlt
  have hr := send_open_request_message_eq sock w1 s unordered pr_policy pr_value hpol
  simp only [if_neg hs, hsend, if_true] at hopen
  obtain ⟨hclosed, hlow⟩ := find_free_channel_some w.pc c hc
  refine ⟨c, _, hopen, hclosed, hlow, ?_, ?_, ?_, ?_, ?_, rfl, rfl, rfl⟩
  · simp
  · simp [find_channel_by_o_stream, hlt]
  · rw [hr, hw1, hu]
  · intro j hj
    simp [setAt, hj]
  · intro t ht
    have : t ≠ ⟨s, hlt⟩ := fun h => ht (by rw [h])
    simp [setAt, this]

/-- Claim C2 at a fresh peer connection whose transport reports 10 outbound streams and accepts
the send, for an unordered channel with a lifetime of 3000 ms. -/
theorem open_channel_success_witness :
    ∃ (c : Fin NUMBER_OF_CHANNELS) (w2 : World),
      open_channel (sock_accepting 10) fresh_world 1 SCTP_PR_SCTP_TTL 3000 = some (some c, w2) ∧
      (w2.pc.channels c).state = DATA_CHANNEL_CONNECTING ∧ (w2.pc.channels c).o_stream = 1 ∧
      w2.trace =
        [Event.sendv 1 [0, 4, 0, 1, 11, 184, 0, 0] DATA_CHANNEL_PPID_CONTROL false none] := by
  obtain ⟨c, w2, h1, _, _, h4, _, h6, _⟩ :=
    open_channel_success (sock_accepting 10) fresh_world 1 SCTP_PR_SCTP_TTL 3000
      (Or.inr (Or.inl rfl)) (Or.inr rfl) (fun h => absurd h (by decide)) ⟨0, rfl⟩ 1
      { fresh_world with calls := 1 } rfl (by decide) rfl
  exact ⟨c, w2, h1, by rw [h4], by rw [h4], h6⟩

/-- Claim C3. `open_channel` rejects bad input atomically: when the policy is none of the three
known ones, or `unordered` is neither 0 nor 1, or the policy is reliable with a non-zero
value, or no channel is CLOSED, it returns `NULL` and the world is the same: no event, no
call into the transport, the same peer connection. -/
theorem open_channel_rejects (sock : Socket) (w : World) (unordered pr_policy pr_value : Nat)
    (h : (pr_policy ≠ SCTP_PR_SCTP_NONE ∧ pr_policy ≠ SCTP_PR_SCTP_TTL ∧
            pr_policy ≠ SCTP_PR_SCTP_RTX) ∨
         (unordered ≠ 0 ∧ unordered ≠ 1) ∨
         (pr_policy = SCTP_PR_SCTP_NONE ∧ pr_value ≠ 0) ∨
         (∀ j : Fin NUMBER_OF_CHANNELS, (w.pc.channels j).state ≠ DATA_CHANNEL_CLOSED)) :
    open_channel sock w unordered pr_policy pr_value = some (none, w) := by
  unfold open_channel
  split_ifs with h1 h2 h3
  · rfl
  · rfl
  · rfl
  · rcases h with h | h | h | h
    · exact absurd h h1
    · exact absurd h h2
    · exact absurd h h3
    · rw [find_free_channel_eq_none w.pc h]

/-- Claim C3 at a fresh peer connection for a reliable channel with value 7. -/
theorem open_channel_rejects_witness :
    open_channel (sock_accepting 10) fresh_world 0 SCTP_PR_SCTP_NONE 7 = some (none, fresh_world) :=
  open_channel_rejects (sock_accepting 10) fresh_world 0 SCTP_PR_SCTP_NONE 7
    (Or.inr (Or.inr (Or.inl ⟨rfl, by decide⟩)))

/-- Claim C4. A failed send is fatal for `open_channel`: with valid arguments and some CLOSED
record, let `s` be the result of `find_free_o_stream`.  If `s ≠ 0`, `o_stream_channel[s]` is
absent and the send of the request fails, then `open_channel` returns `NULL`, the peer
connection is unchanged, the chosen record is still CLOSED and `o_stream_channel[s]` is
still absent.  And whenever `open_channel` makes some channel CONNECTING that was not, then
`s = 0` or the send succeeded. -/
theorem open_channel_send_failure (sock : Socket) (w : World)
    (unordered pr_policy pr_value : Nat)
    (hpol : pr_policy = SCTP_PR_SCTP_NONE ∨ pr_policy = SCTP_PR_SCTP_TTL ∨
      pr_policy = SCTP_PR_SCTP_RTX)
    (hun : unordered = 0 ∨ unordered = 1)
    (hval : pr_policy = SCTP_PR_SCTP_NONE → pr_value = 0)
    (hfree : ∃ j : Fin NUMBER_OF_CHANNELS, (w.pc.channels j).state = DATA_CHANNEL_CLOSED)
    (s : Nat) (w1 : World) (hfs : find_free_o_stream sock w = (s, w1)) :
    (s ≠ 0 → find_channel_by_o_stream w.pc s = none →
      (send_open_request_message sock w1 s unordered pr_policy pr_value).1 = false →
      ∃ (c : Fin NUMBER_OF_CHANNELS) (w2 : World),
        find_free_channel w.pc = some c ∧
        open_channel sock w unordered pr_policy pr_value = some (none, w2) ∧
        w2.pc = w.pc ∧
        (w2.pc.channels c).state = DATA_CHANNEL_CLOSED ∧
        find_channel_by_o_stream w2.pc s = none) ∧
    (∀ (r : Option (Fin NUMBER_OF_CHANNELS)) (w2 : World),
      open_channel sock w unordered pr_policy pr_value = some (r, w2) →
      (∃ j : Fin NUMBER_OF_CHANNELS, (w.pc.channels j).state ≠ DATA_CHANNEL_CONNECTING ∧
        (w2.pc.channels j).state = DATA_CHANNEL_CONNECTING) →
      s = 0 ∨ (send_open_request_message sock w1 s unordered pr_policy pr_value).1 = true) := by
  obtain ⟨c, hc⟩ := find_free_channel_exists w.pc hfree
  have hlt : s < NUMBER_OF_STREAMS := by
    have := find_free_o_stream_lt sock w
    rw [hfs] at this
    exact this
  have hw1 : w1 = { w with calls := w.calls + 1 } := by
    have := find_free_o_stream_world sock w
    rw [hfs] at this
    exact this
  have hopen := open_channel_valid sock w unordered pr_policy pr_value hpol hun hval c hc s w1
    hfs hlt
  have hr := send_open_request_message_eq sock w1 s unordered pr_policy pr_value hpol
  obtain ⟨hclosed, -⟩ := find_free_channel_some w.pc c hc
  constructor
  · intro hs hfree_s hfail
    simp only [if_neg hs, hfail, Bool.false_eq_true, if_false] at hopen
    refine ⟨c, _, hc, hopen, ?_, ?_, ?_⟩
    · rw [hr, hw1]
    · rw [hr, hw1]; exact hclosed
    · rw [hr, hw1]; exact hfree_s
  · intro r w2 hret hprom
    by_cases hs : s = 0
    · exact Or.inl hs
    · right
      by_contra hne
      have hfail : (send_open_request_message sock w1 s unordered pr_policy pr_value).1 = false := by
        simpa using hne
      simp only [if_neg hs, hfail, Bool.false_eq_true, if_false] at hopen
      rw [hopen] at hret
      simp only [Option.some.injEq, Prod.mk.injEq] at hret
      obtain ⟨j, h1, h2⟩ := hprom
      rw [← hret.2, hr, hw1] at h2
      exact h1 h2

/-- Claim C4 at a fresh peer connection whose transport reports 10 outbound streams and refuses
the send: stream 1 is chosen, the send fails and nothing is changed. -/
theorem open_channel_send_failure_witness :
    find_free_o_stream (sock_refusing 10) fresh_world = (1, { fresh_world with calls := 1 }) ∧
    (send_open_request_message (sock_refusing 10) { fresh_world with calls := 1 } 1 0
      SCTP_PR_SCTP_NONE 0).1 = false ∧
    ∃ (c : Fin NUMBER_OF_CHANNELS) (w2 : World),
      find_free_channel fresh_world.pc = some c ∧
      open_channel (sock_refusing 10) fresh_world 0 SCTP_PR_SCTP_NONE 0 = some (none, w2) ∧
      w2.pc = fresh_world.pc ∧
      (w2.pc.channels c).state = DATA_CHANNEL_CLOSED ∧
      find_channel_by_o_stream w2.pc 1 = none :=
  ⟨rfl, rfl,
    (open_channel_send_failure (sock_refusing 10) fresh_world 0 SCTP_PR_SCTP_NONE 0 (Or.inl rfl)
      (Or.inl rfl) (fun _ => rfl) ⟨0, rfl⟩ 1 { fresh_world with calls := 1 } rfl).1
      (by decide) rfl rfl⟩

/-! ## Handling received messages -/

/-- Claim C5 as stated fails.  At a fresh peer connection inbound stream 1 is unbound and
channel 0 is CLOSED; the transport reports 10 outbound streams and refuses every send.
Handling an OpenRequest received on stream 1 hands a response to the transport on stream 1
and binds nothing: `i_stream_channel[1]` is still absent and channel 0 is still CLOSED. -/
theorem open_request_unbound_when_send_fails :
    find_channel_by_i_stream fresh_world.pc 1 = none ∧
    (fresh_world.pc.channels 0).state = DATA_CHANNEL_CLOSED ∧
    ∃ w2 : World,
      handle_message (sock_refusing 10) fresh_world [0, 0, 0, 0, 0, 0, 0, 0]
        DATA_CHANNEL_PPID_CONTROL 1 = some w2 ∧
      find_channel_by_i_stream w2.pc 1 = none ∧
      (w2.pc.channels 0).state = DATA_CHANNEL_CLOSED ∧
      w2.trace = [Event.sendv 1 [1, 0, 0, 0, 0, 1] DATA_CHANNEL_PPID_CONTROL false none] :=
  ⟨rfl, rfl, _, rfl, rfl, rfl, rfl⟩

/-- Claim C5, amended.  Let `i < NUMBER_OF_STREAMS` be unbound in `i_stream_channel`, let some
record be CLOSED, let the message be an OpenRequest of at least eight bytes whose channel
type is at most 4, and let `o` be the result of `find_free_o_stream`.  The handler returns,
`c` being the CLOSED channel of lowest index.  If `o = 0`, then `c` becomes CONNECTING with
`i_stream = i`, `pr_value = reliability_params`, `unordered = (flags & 1 ≠ 0)` and the
mapped policy, `i_stream_channel[i]` refers to `c`, `o_stream_channel` is unchanged and
`request_more_o_streams` is run.  If `o ≠ 0`, a response with `reverse_stream = i` is handed
to the transport on `o`; if that send succeeds `c` is bound as before and also `o_stream =
o` and `o_stream_channel[o]` refers to `c`; if it fails the peer connection is unchanged. -/
theorem handle_open_request_binds (sock : Socket) (w : World) (req : List Nat) (i : Nat)
    (h0 : byte_at req 0 = DATA_CHANNEL_OPEN_REQUEST)
    (hlen : SIZEOF_OPEN_REQUEST ≤ req.length)
    (hi : i < NUMBER_OF_STREAMS)
    (htype : byte_at req 1 ≤ DATA_CHANNEL_PARTIAL_RELIABLE_TIMED)
    (hnone : find_channel_by_i_stream w.pc i = none)
    (hfree : ∃ j : Fin NUMBER_OF_CHANNELS, (w.pc.channels j).state = DATA_CHANNEL_CLOSED)
    (o : Nat) (w1 : World) (hfs : find_free_o_stream sock w = (o, w1)) :
    ∃ (c : Fin NUMBER_OF_CHANNELS) (pr_policy : Nat) (w2 : World),
      handle_message sock w req DATA_CHANNEL_PPID_CONTROL i = some w2 ∧
      (w.pc.channels c).state = DATA_CHANNEL_CLOSED ∧
      (∀ j : Fin NUMBER_OF_CHANNELS, j < c → (w.pc.channels j).state ≠ DATA_CHANNEL_CLOSED) ∧
      pr_policy_of_channel_type (byte_at req 1) = some pr_policy ∧
      (o = 0 →
        w2.pc.channels c =
          { w.pc.channels c with
            state := DATA_CHANNEL_CONNECTING, i_stream := i, pr_value := ntohs_at req 4,
            unordered := if ntohs_at req 2 &&& 1 ≠ 0 then 1 else 0, pr_policy := pr_policy } ∧
        find_channel_by_i_stream w2.pc i = some c ∧
        w2.pc.o_stream_channel = w.pc.o_stream_channel ∧
        w2 = request_more_o_streams sock { w1 with pc := w2.pc }) ∧
      (o ≠ 0 → (send_open_response_message sock w1 o i).1 = true →
        w2.pc.channels c =
          { w.pc.channels c with
            state := DATA_CHANNEL_CONNECTING, i_stream := i, pr_value := ntohs_at req 4,
            unordered := if ntohs_at req 2 &&& 1 ≠ 0 then 1 else 0, pr_policy := pr_policy,
            o_stream := o } ∧
        find_channel_by_i_stream w2.pc i = some c ∧
        find_channel_by_o_stream w2.pc o = some c ∧
        w2.trace = w.trace ++
          [Event.sendv o [DATA_CHANNEL_OPEN_RESPONSE, 0, 0, 0, i / 256, i % 256]
            DATA_CHANNEL_PPID_CONTROL false none]) ∧
      (o ≠ 0 → (send_open_response_message sock w1 o i).1 = false →
        w2.pc = w.pc ∧
        w2.trace = w.trace ++
          [Event.sendv o [DATA_CHANNEL_OPEN_RESPONSE, 0, 0, 0, i / 256, i % 256]
            DATA_CHANNEL_PPID_CONTROL false none]) := by
  obtain ⟨c, hc⟩ := find_free_channel_exists w.pc hfree
  obtain ⟨p, hp⟩ := pr_policy_of_channel_type_some _ htype
  have ho : o < NUMBER_OF_STREAMS := by
    have := find_free_o_stream_lt sock w
    rw [hfs] at this
    exact this
  have hw1 : w1 = { w with calls := w.calls + 1 } := by
    have := find_free_o_stream_world sock w
    rw [hfs] at this
    exact this
  have hi65536 : i % 65536 = i := Nat.mod_eq_of_lt (by simp only [NUMBER_OF_STREAMS] at hi; omega)
  have hsend : send_open_response_message sock w1 o i =
      ((sock w1.calls).sendv,
        { w1 with calls := w1.calls + 1,
                  trace := w1.trace ++
                    [Event.sendv o [DATA_CHANNEL_OPEN_RESPONSE, 0, 0, 0, i / 256, i % 256]
                      DATA_CHANNEL_PPID_CONTROL false none] }) := by
    simp [send_open_response_message, usrsctp_sendv, hi65536]
  have heq := handle_open_request_message_eq sock w req i hi hnone c hc p hp o w1 hfs ho
  rw [← handle_message_open_request sock w req i h0 hlen] at heq
  obtain ⟨hclosed, hlow⟩ := find_free_channel_some w.pc c hc
  by_cases hz : o = 0
  · simp only [hz, if_true] at heq
    refine ⟨c, p, _, heq, hclosed, hlow, hp, ?_, fun h => absurd hz h, fun h => absurd hz h⟩
    intro _
    rw [request_more_o_streams_pc]
    refine ⟨by simp, by simp [find_channel_by_i_stream, hi], rfl, ?_⟩
    subst hz
    rfl
  · simp only [hz, if_false] at heq
    cases hs : (send_open_response_message sock w1 o i).1
    · simp only [hs, Bool.false_eq_true, if_false] at heq
      refine ⟨c, p, _, heq, hclosed, hlow, hp, fun h => absurd h hz, fun _ h => by simp at h, ?_⟩
      intro _ _
      rw [hsend, hw1]
      exact ⟨rfl, rfl⟩
    · simp only [hs, if_true] at heq
      refine ⟨c, p, _, heq, hclosed, hlow, hp, fun h => absurd h hz, ?_, fun _ h => by simp at h⟩
      intro _ _
      refine ⟨by simp, by simp [find_channel_by_i_stream, hi],
        by simp [find_channel_by_o_stream, ho], ?_⟩
      rw [hsend, hw1]

/-- Claim C5, amended, at a fresh peer connection: a request for a channel with a retransmission
limit, received on stream 7, is answered on stream 1. -/
theorem handle_open_request_binds_witness :
    ∃ (c : Fin NUMBER_OF_CHANNELS) (w2 : World),
      handle_message (sock_accepting 10) fresh_world [0, 3, 0, 1, 0, 5, 0, 0]
        DATA_CHANNEL_PPID_CONTROL 7 = some w2 ∧
      find_channel_by_i_stream w2.pc 7 = some c ∧
      find_channel_by_o_stream w2.pc 1 = some c ∧
      (w2.pc.channels c).state = DATA_CHANNEL_CONNECTING := by
  obtain ⟨c, p, w2, h1, _, _, _, _, h6, _⟩ :=
    handle_open_request_binds (sock_accepting 10) fresh_world [0, 3, 0, 1, 0, 5, 0, 0] 7 rfl
      (by decide) (by decide) (by decide) rfl ⟨0, rfl⟩ 1 { fresh_world with calls := 1 } rfl
  obtain ⟨h7, h8, h9, _⟩ := h6 (by decide) rfl
  exact ⟨c, w2, h1, h8, h9, by rw [h7]⟩

/-- Claim C6 fails on the code.  First, at a fresh peer connection no channel is bound to
outbound stream 1, and an OpenResponse with `reverse_stream = 1` makes
`handle_open_response_message` read `channel->state` through `NULL`.  Second, when channel 0
is OPEN on `(i_stream, o_stream) = (5, 1)`, an OpenResponse with `reverse_stream = 1`
received on stream 7 is not ignored: the channel's `i_stream` becomes 7,
`i_stream_channel[7]` refers to it while `i_stream_channel[5]` still does, and an Ack is
handed to the transport.  Third, when inbound stream 5 is occupied by channel 0 and channel
1 is CONNECTING on outbound stream 2, an OpenResponse with `reverse_stream = 2` received on
stream 5 is not ignored either: `i_stream_channel[5]` is overwritten with channel 1, which
becomes OPEN, channel 0 keeps `i_stream = 5`, and an Ack is handed to the transport. -/
theorem open_response_violation_not_ignored :
    (find_channel_by_o_stream fresh_world.pc 1 = none ∧
      handle_message (sock_accepting 10) fresh_world [1, 0, 0, 0, 0, 1]
        DATA_CHANNEL_PPID_CONTROL 1 = none) ∧
    (find_channel_by_o_stream established_world.pc 1 = some 0 ∧
      (established_world.pc.channels 0).state = DATA_CHANNEL_OPEN ∧
      (established_world.pc.channels 0).i_stream = 5 ∧
      ∃ w2 : World,
        handle_message (sock_accepting 10) established_world [1, 0, 0, 0, 0, 1]
          DATA_CHANNEL_PPID_CONTROL 7 = some w2 ∧
        (w2.pc.channels 0).i_stream = 7 ∧
        find_channel_by_i_stream w2.pc 7 = some 0 ∧
        find_channel_by_i_stream w2.pc 5 = some 0 ∧
        w2.trace = [Event.sendv 1 [DATA_CHANNEL_ACK] DATA_CHANNEL_PPID_CONTROL false none]) ∧
    (find_channel_by_o_stream colliding_world.pc 2 = some 1 ∧
      (colliding_world.pc.channels 1).state = DATA_CHANNEL_CONNECTING ∧
      find_channel_by_i_stream colliding_world.pc 5 = some 0 ∧
      ∃ w2 : World,
        handle_message (sock_accepting 10) colliding_world [1, 0, 0, 0, 0, 2]
          DATA_CHANNEL_PPID_CONTROL 5 = some w2 ∧
        find_channel_by_i_stream w2.pc 5 = some 1 ∧
        (w2.pc.channels 1).state = DATA_CHANNEL_OPEN ∧
        (w2.pc.channels 0).i_stream = 5 ∧
        w2.trace = [Event.sendv 2 [DATA_CHANNEL_ACK] DATA_CHANNEL_PPID_CONTROL false none]) :=
  ⟨⟨rfl, rfl⟩, ⟨rfl, rfl, rfl, _, rfl, rfl, rfl, rfl, rfl⟩,
    rfl, rfl, rfl, _, rfl, rfl, rfl, rfl, rfl⟩

/-- Claim C7 fails on the code.  At a fresh peer connection no channel is bound to inbound
stream 1; an Ack received there makes `handle_open_ack_message` read `channel->state`
through `NULL`, whereas a data message received there is dropped and changes nothing. -/
theorem ack_on_unbound_stream_faults :
    find_channel_by_i_stream fresh_world.pc 1 = none ∧
    handle_message (sock_accepting 10) fresh_world [DATA_CHANNEL_ACK]
      DATA_CHANNEL_PPID_CONTROL 1 = none ∧
    handle_message (sock_accepting 10) fresh_world [DATA_CHANNEL_ACK]
      DATA_CHANNEL_PPID_DOMSTRING 1 = some fresh_world :=
  ⟨rfl, rfl, rfl⟩

/-- Claim C8. Data delivery and implicit ack: a message with PPID 51 or 52 on inbound stream `i`
is always handled without fault.  If no channel is bound to `i` the world is unchanged.  If
the bound channel is CONNECTING it becomes OPEN and the payload is delivered; if it is OPEN
the payload is delivered and the peer connection is unchanged; in any other state the world
is unchanged.  Nothing but that channel's state changes and nothing is handed to the
transport. -/
theorem handle_message_data (sock : Socket) (w : World) (buffer : List Nat) (ppid i : Nat)
    (hppid : ppid = DATA_CHANNEL_PPID_DOMSTRING ∨ ppid = DATA_CHANNEL_PPID_BINARY) :
    ∃ w2 : World,
      handle_message sock w buffer ppid i = some w2 ∧
      (find_channel_by_i_stream w.pc i = none → w2 = w) ∧
      (∀ c : Fin NUMBER_OF_CHANNELS, find_channel_by_i_stream w.pc i = some c →
        ((w.pc.channels c).state = DATA_CHANNEL_CONNECTING →
          w2 =
            { w with
              pc := { w.pc with
                      channels := setAt w.pc.channels c
                        { w.pc.channels c with state := DATA_CHANNEL_OPEN } },
              trace := w.trace ++
                [Event.message_received buffer.length (w.pc.channels c).id buffer] }) ∧
        ((w.pc.channels c).state = DATA_CHANNEL_OPEN →
          w2 =
            { w with
              trace := w.trace ++
                [Event.message_received buffer.length (w.pc.channels c).id buffer] }) ∧
        ((w.pc.channels c).state ≠ DATA_CHANNEL_CONNECTING →
          (w.pc.channels c).state ≠ DATA_CHANNEL_OPEN → w2 = w)) := by
  have hne : ppid ≠ DATA_CHANNEL_PPID_CONTROL := by
    rcases hppid with h | h <;> rw [h] <;> decide
  refine ⟨handle_data_message w buffer i, ?_, ?_, ?_⟩
  · simp only [handle_message, if_neg hne, if_pos hppid]
  · intro h
    simp [handle_data_message, h]
  · intro c h
    refine ⟨?_, ?_, ?_⟩
    · intro hs
      simp [handle_data_message, h, hs]
    · intro hs
      have : (w.pc.channels c).state ≠ DATA_CHANNEL_CONNECTING := by rw [hs]; decide
      simp [handle_data_message, h, hs, this]
    · intro h1 h2
      simp [handle_data_message, h, h1, h2]

/-- Claim C8 for a two-byte string received on the inbound stream of an OPEN channel. -/
theorem handle_message_data_witness :
    ∃ w2 : World,
      handle_message (sock_accepting 10) established_world [104, 105]
        DATA_CHANNEL_PPID_DOMSTRING 5 = some w2 ∧
      w2 = { established_world with trace := [Event.message_received 2 0 [104, 105]] } := by
  obtain ⟨w2, h1, _, h3⟩ :=
    handle_message_data (sock_accepting 10) established_world [104, 105]
      DATA_CHANNEL_PPID_DOMSTRING 5 (Or.inl rfl)
  exact ⟨w2, h1, (h3 0 rfl).2.1 rfl⟩

/-! ## Closing a channel -/

set_option maxRecDepth 100000 in
/-- Claim C9 as stated fails.  The peer connection whose channel 0 is OPEN with `(i_stream,
o_stream) = (5, 1)` and whose index tables are empty satisfies I2 and I3.  After
`close_channel`, an OUTGOING reset notification listing 1 and an INCOMING reset notification
listing 5, channel 0 is CLOSING with both stream ids still set. -/
theorem close_does_not_converge_when_unbound :
    I2 unbound_open_world.pc ∧ I3 unbound_open_world.pc ∧
    (unbound_open_world.pc.channels 0).state = DATA_CHANNEL_OPEN ∧
    (unbound_open_world.pc.channels 0).i_stream = 5 ∧
    (unbound_open_world.pc.channels 0).o_stream = 1 ∧
    ∃ w1 w2 w3 : World,
      close_channel (sock_accepting 10) unbound_open_world (some 0) = some w1 ∧
      handle_notification (sock_accepting 10) w1 14
        (sctp_notification.stream_reset_event outgoing_reset [1]) 14 = some w2 ∧
      handle_notification (sock_accepting 10) w2 14
        (sctp_notification.stream_reset_event incoming_reset [5]) 14 = some w3 ∧
      (w3.pc.channels 0).state = DATA_CHANNEL_CLOSING ∧
      (w3.pc.channels 0).i_stream = 5 ∧ (w3.pc.channels 0).o_stream = 1 := by
  refine ⟨?_, ?_, rfl, rfl, rfl, _, _, _, rfl, rfl, rfl, rfl, rfl, rfl⟩
  · intro s c h
    simp [unbound_open_world, init_peer_connection] at h
  · intro s c h
    simp [unbound_open_world, init_peer_connection] at h

/-- Claim C9, amended.  Let the peer connection satisfy I2 and I3, let its pending-reset buffer
be well formed and every `o_stream` be below `NUMBER_OF_STREAMS`, and let channel `c` be
OPEN with `i_stream = a ≠ 0` and `o_stream = b ≠ 0` and be the channel that
`i_stream_channel[a]` and `o_stream_channel[b]` refer to.  After `close_channel` and two
stream-reset notifications that are neither denied nor failed, of which one is flagged
OUTGOING and lists `b` and one is flagged INCOMING and lists `a`, in whichever order and
whatever the transport answers, all three calls return and `c` is CLOSED with `i_stream =
0`, `o_stream = 0`, reliable policy, `pr_value = 0`, `unordered = 0`, and
`i_stream_channel[a]` and `o_stream_channel[b]` are absent. -/
theorem close_convergence (sock : Socket) (w : World) (c : Fin NUMBER_OF_CHANNELS) (a b : Nat)
    (hI2 : I2 w.pc) (hI3 : I3 w.pc)
    (hpend : pending_resets_ok w.pc) (hrange : o_streams_in_range w.pc)
    (hopen : (w.pc.channels c).state = DATA_CHANNEL_OPEN)
    (hi : (w.pc.channels c).i_stream = a) (ha : a ≠ 0)
    (ho : (w.pc.channels c).o_stream = b) (hb : b ≠ 0)
    (hbi : find_channel_by_i_stream w.pc a = some c)
    (hbo : find_channel_by_o_stream w.pc b = some c)
    (flags1 flags2 : strreset_flags) (list1 list2 : List Nat) (len1 n1 len2 n2 : Nat)
    (hlen1 : len1 = n1 % 4294967296) (hlen2 : len2 = n2 % 4294967296)
    (hden1 : flags1.denied = false) (hfail1 : flags1.failed = false)
    (hden2 : flags2.denied = false) (hfail2 : flags2.failed = false)
    (hout : (flags1.outgoing_ssn = true ∧ b ∈ list1) ∨ (flags2.outgoing_ssn = true ∧ b ∈ list2))
    (hin : (flags1.incoming_ssn = true ∧ a ∈ list1) ∨ (flags2.incoming_ssn = true ∧ a ∈ list2)) :
    ∃ w1 w2 w3 : World,
      close_channel sock w (some c) = some w1 ∧
      handle_notification sock w1 len1
        (sctp_notification.stream_reset_event flags1 list1) n1 = some w2 ∧
      handle_notification sock w2 len2
        (sctp_notification.stream_reset_event flags2 list2) n2 = some w3 ∧
      (w3.pc.channels c).state = DATA_CHANNEL_CLOSED ∧
      (w3.pc.channels c).i_stream = 0 ∧ (w3.pc.channels c).o_stream = 0 ∧
      (w3.pc.channels c).pr_policy = SCTP_PR_SCTP_NONE ∧ (w3.pc.channels c).pr_value = 0 ∧
      (w3.pc.channels c).unordered = 0 ∧
      find_channel_by_i_stream w3.pc a = none ∧ find_channel_by_o_stream w3.pc b = none := by
  obtain ⟨w1, h1, p1⟩ := closing_phase_close sock w c a b hI2 hI3 hpend hrange hopen hi ho hbi hbo
  obtain ⟨w2, h2, p2⟩ := closing_phase_notification c a b ha hb sock w1 _ _ p1 flags1 list1
    hden1 hfail1 len1 n1 hlen1
  obtain ⟨w3, h3, p3⟩ := closing_phase_notification c a b ha hb sock w2 _ _ p2 flags2 list2
    hden2 hfail2 len2 n2 hlen2
  have ei : (true && !(flags1.incoming_ssn && decide (a ∈ list1)) &&
      !(flags2.incoming_ssn && decide (a ∈ list2))) = false := by
    rcases hin with ⟨hf, hm⟩ | ⟨hf, hm⟩ <;> simp [hf, hm]
  have eo : (true && !(flags1.outgoing_ssn && decide (b ∈ list1)) &&
      !(flags2.outgoing_ssn && decide (b ∈ list2))) = false := by
    rcases hout with ⟨hf, hm⟩ | ⟨hf, hm⟩ <;> simp [hf, hm]
  rw [ei, eo] at p3
  obtain ⟨hs, hp, hv, hu⟩ := p3.closed rfl rfl
  exact ⟨w1, w2, w3, h1, h2, h3, hs, (p3.in_clear rfl).2, (p3.out_clear rfl).2, hp, hv, hu,
    (p3.in_clear rfl).1, (p3.out_clear rfl).1⟩

/-- Claim C9, amended, for the OPEN channel on streams (5, 1), the INCOMING notification first,
with a transport that refuses every reset request. -/
theorem close_convergence_witness :
    ∃ w1 w2 w3 : World,
      close_channel (sock_denying 10) established_world (some 0) = some w1 ∧
      handle_notification (sock_denying 10) w1 14
        (sctp_notification.stream_reset_event incoming_reset [5]) 14 = some w2 ∧
      handle_notification (sock_denying 10) w2 14
        (sctp_notification.stream_reset_event outgoing_reset [1]) 14 = some w3 ∧
      (w3.pc.channels 0).state = DATA_CHANNEL_CLOSED ∧
      find_channel_by_i_stream w3.pc 5 = none ∧ find_channel_by_o_stream w3.pc 1 = none := by
  have hI2 : I2 established_world.pc := by
    intro s c h
    have hs : s = 5 ∧ c = 0 := by
      simp only [established_world, init_peer_connection, setAt] at h
      split at h
      · rename_i hs5; exact ⟨hs5, by simpa using h.symm⟩
      · simp at h
    obtain ⟨rfl, rfl⟩ := hs
    exact ⟨rfl, Or.inr (Or.inl rfl)⟩
  have hI3 : I3 established_world.pc := by
    intro s c h
    have hs : s = 1 ∧ c = 0 := by
      simp only [established_world, init_peer_connection, setAt] at h
      split at h
      · rename_i hs1; exact ⟨hs1, by simpa using h.symm⟩
      · simp at h
    obtain ⟨rfl, rfl⟩ := hs
    exact ⟨rfl, Or.inr (Or.inl rfl)⟩
  have hpend : pending_resets_ok established_world.pc :=
    ⟨Nat.zero_le _, fun m _ hm => absurd hm (Nat.not_lt_zero _),
      fun m hm => absurd hm (Nat.not_lt_zero _)⟩
  have hrange : o_streams_in_range established_world.pc := by
    intro c
    simp only [established_world, init_peer_connection, setAt]
    split <;> simp
  obtain ⟨w1, w2, w3, h1, h2, h3, h4, _, _, _, _, _, h5, h6⟩ :=
    close_convergence (sock_denying 10) established_world 0 5 1 hI2 hI3 hpend hrange rfl rfl
      (by decide) rfl (by decide) rfl rfl incoming_reset outgoing_reset [5] [1] 14 14 14 14
      rfl rfl rfl rfl rfl rfl (Or.inr ⟨rfl, by simp⟩) (Or.inl ⟨rfl, by simp⟩)
  exact ⟨w1, w2, w3, h1, h2, h3, h4, h5, h6⟩

/-- Claim C10. Closing is idempotent: `close_channel` on `NULL` or on a channel that is not OPEN
returns the same world (no change, no call into the transport); whenever a first
`close_channel` returns, a second one on the same channel returns the same world again and
the pending-reset counter has grown by at most one over the two calls; and the first call
does return when the pending-reset buffer is not full. -/
theorem close_channel_idempotent (sock : Socket) (w : World)
    (channel : Option (Fin NUMBER_OF_CHANNELS)) :
    ((∀ c, channel = some c → (w.pc.channels c).state ≠ DATA_CHANNEL_OPEN) →
      close_channel sock w channel = some w) ∧
    (∀ w1 : World, close_channel sock w channel = some w1 →
      close_channel sock w1 channel = some w1 ∧
      w1.pc.o_stream_buffer_counter ≤ w.pc.o_stream_buffer_counter + 1) ∧
    (w.pc.o_stream_buffer_counter < NUMBER_OF_STREAMS →
      ∃ w1 : World, close_channel sock w channel = some w1) := by
  cases channel with
  | none =>
    refine ⟨fun _ => rfl, ?_, fun _ => ⟨w, rfl⟩⟩
    intro w1 h
    simp only [close_channel, Option.some.injEq] at h
    subst h
    exact ⟨rfl, by omega⟩
  | some c =>
    by_cases hs : (w.pc.channels c).state = DATA_CHANNEL_OPEN
    · refine ⟨fun h => absurd hs (h c rfl), ?_, ?_⟩
      · intro w1 h
        simp only [close_channel, hs, ne_eq, not_true_eq_false, if_false] at h
        cases hr : reset_outgoing_stream w.pc (w.pc.channels c).o_stream with
        | none => simp [hr] at h
        | some pc1 =>
          simp only [hr] at h
          cases hf : send_outgoing_stream_reset sock { w with pc := pc1 } with
          | none => simp [hf] at h
          | some w2 =>
            simp only [hf, Option.some.injEq] at h
            subst h
            have h1 := reset_outgoing_stream_counter _ _ _ hr
            have h2 := send_outgoing_stream_reset_counter _ _ _ hf
            constructor
            · simp [close_channel]
            · have h21 : w2.pc.o_stream_buffer_counter ≤ pc1.o_stream_buffer_counter := h2.2
              have h11 := h1.2
              show w2.pc.o_stream_buffer_counter ≤ w.pc.o_stream_buffer_counter + 1
              omega
      · intro hroom
        simp only [close_channel, hs, ne_eq, not_true_eq_false, if_false]
        obtain ⟨r, hr⟩ := o_stream_buffer_has_total w.pc (w.pc.channels c).o_stream
          w.pc.o_stream_buffer_counter 0 (by omega)
        have hres : ∃ pc1, reset_outgoing_stream w.pc (w.pc.channels c).o_stream = some pc1 ∧
            pc1.o_stream_buffer_counter ≤ NUMBER_OF_STREAMS := by
          unfold reset_outgoing_stream
          rw [hr]
          cases r with
          | true => exact ⟨w.pc, rfl, by omega⟩
          | false =>
            simp only [dif_pos hroom]
            exact ⟨_, rfl, by show w.pc.o_stream_buffer_counter + 1 ≤ NUMBER_OF_STREAMS; omega⟩
        obtain ⟨pc1, hpc1, hle⟩ := hres
        obtain ⟨w2, hw2, -⟩ := send_outgoing_stream_reset_ok sock { w with pc := pc1 } hle
        rw [hpc1]
        simp only [hw2]
        exact ⟨_, rfl⟩
    · have hclose : close_channel sock w (some c) = some w := by
        simp [close_channel, hs]
      refine ⟨fun _ => hclose, ?_, fun _ => ⟨w, hclose⟩⟩
      intro w1 h
      rw [hclose] at h
      simp only [Option.some.injEq] at h
      subst h
      exact ⟨hclose, by omega⟩

/-- Claim C10 for the OPEN channel 0 on streams (5, 1). -/
theorem close_channel_idempotent_witness :
    (established_world.pc.channels 0).state = DATA_CHANNEL_OPEN ∧
    ∃ w1 : World,
      close_channel (sock_accepting 10) established_world (some 0) = some w1 ∧
      close_channel (sock_accepting 10) w1 (some 0) = some w1 ∧
      w1.pc.o_stream_buffer_counter ≤ established_world.pc.o_stream_buffer_counter + 1 := by
  obtain ⟨_, h2, h3⟩ := close_channel_idempotent (sock_accepting 10) established_world (some 0)
  obtain ⟨w1, hw1⟩ := h3 (by decide)
  exact ⟨rfl, w1, hw1, (h2 w1 hw1).1, (h2 w1 hw1).2⟩


/-! ## The wire codec -/

/-- An unknown policy makes `send_open_request_message` return 0 without any call into the
transport. -/
theorem send_open_request_message_unknown_policy (sock : Socket) (w : World)
    (o_stream unordered pr_policy pr_value : Nat)
    (h : pr_policy ≠ SCTP_PR_SCTP_NONE ∧ pr_policy ≠ SCTP_PR_SCTP_TTL ∧
      pr_policy ≠ SCTP_PR_SCTP_RTX) :
    send_open_request_message sock w o_stream unordered pr_policy pr_value = (false, w) := by
  unfold send_open_request_message
  simp [h.1, h.2.1, h.2.2]

/-- Claim C15. Control messages are bit-exact: for a known policy, any `unordered` and a
reliability value `v` of 16 bits, `send_open_request_message` hands to the transport, on the
given stream and with PPID 50, exactly the bytes `[0, t, 0, u, v >> 8, v & 0xFF, 0, 0]`, with
`t` 0 / 4 / 3 for the reliable / timed / retransmission policy and `u` 1 when `unordered` is
set; `send_open_response_message` for a 16-bit inbound stream `i` hands over exactly
`[1, 0, 0, 0, i >> 8, i & 0xFF]`; `send_open_ack_message` hands over exactly `[2]`.  Each of
them makes this one call and returns the answer of the transport. -/
theorem control_messages_bit_exact (sock : Socket) (w : World)
    (o_stream unordered pr_policy v i : Nat)
    (hpol : pr_policy = SCTP_PR_SCTP_NONE ∨ pr_policy = SCTP_PR_SCTP_TTL ∨
      pr_policy = SCTP_PR_SCTP_RTX)
    (hv : v < 65536) (hi : i < 65536) :
    send_open_request_message sock w o_stream unordered pr_policy v =
      ((sock w.calls).sendv,
        { w with
          calls := w.calls + 1,
          trace := w.trace ++
            [Event.sendv o_stream
              [0,
               if pr_policy = SCTP_PR_SCTP_NONE then 0
               else if pr_policy = SCTP_PR_SCTP_TTL then 4 else 3,
               0, if unordered ≠ 0 then 1 else 0, v >>> 8, v &&& 0xFF, 0, 0]
              50 false none] }) ∧
    send_open_response_message sock w o_stream i =
      ((sock w.calls).sendv,
        { w with
          calls := w.calls + 1,
          trace := w.trace ++
            [Event.sendv o_stream [1, 0, 0, 0, i >>> 8, i &&& 0xFF] 50 false none] }) ∧
    send_open_ack_message sock w o_stream =
      ((sock w.calls).sendv,
        { w with
          calls := w.calls + 1,
          trace := w.trace ++ [Event.sendv o_stream [2] 50 false none] }) := by
  have hshift : ∀ x : Nat, x >>> 8 = x / 256 := fun x => by
    rw [Nat.shiftRight_eq_div_pow]
  have hand : ∀ x : Nat, x &&& 0xFF = x % 256 := fun x =>
    Nat.and_pow_two_sub_one_eq_mod x 8
  have hv' : v % 65536 = v := Nat.mod_eq_of_lt hv
  have hi' : i % 65536 = i := Nat.mod_eq_of_lt hi
  refine ⟨?_, ?_, rfl⟩
  · rw [send_open_request_message_eq sock w o_stream unordered pr_policy v hpol, hshift, hand,
      hv']
    by_cases hu : unordered = 0 <;> simp [hu]
  · simp [send_open_response_message, usrsctp_sendv, hshift, hand, hi']

/-- Claim C15 for an unordered channel with a retransmission limit of 513 opened on stream 3
and for a response to inbound stream 258. -/
theorem control_messages_bit_exact_witness :
    (send_open_request_message (sock_accepting 10) fresh_world 3 1 SCTP_PR_SCTP_RTX 513).2.trace =
      [Event.sendv 3 [0, 3, 0, 1, 2, 1, 0, 0] 50 false none] ∧
    (send_open_response_message (sock_accepting 10) fresh_world 3 258).2.trace =
      [Event.sendv 3 [1, 0, 0, 0, 1, 2] 50 false none] := by
  obtain ⟨h1, h2, _⟩ := control_messages_bit_exact (sock_accepting 10) fresh_world 3 1
    SCTP_PR_SCTP_RTX 513 258 (Or.inr (Or.inr rfl)) (by decide) (by decide)
  rw [h1, h2]
  exact ⟨rfl, rfl⟩

/-! ## The dispatcher -/

/-- Claim C17. Malformed or unclassifiable payloads are dropped: `handle_message` returns the
same world (same peer connection, no event, no call into the transport) when the PPID is 50
and the buffer is empty, or its first byte is 0 and it is shorter than 8 bytes, or its first
byte is 1 and it is shorter than 6 bytes, or its first byte is none of 0, 1, 2; and also when
the PPID is none of 50, 51, 52. -/
theorem handle_message_drops (sock : Socket) (w : World) (buffer : List Nat) (ppid i : Nat)
    (h : (ppid = DATA_CHANNEL_PPID_CONTROL ∧
            (buffer.length = 0 ∨
             (byte_at buffer 0 = DATA_CHANNEL_OPEN_REQUEST ∧ buffer.length < 8) ∨
             (byte_at buffer 0 = DATA_CHANNEL_OPEN_RESPONSE ∧ buffer.length < 6) ∨
             (byte_at buffer 0 ≠ DATA_CHANNEL_OPEN_REQUEST ∧
               byte_at buffer 0 ≠ DATA_CHANNEL_OPEN_RESPONSE ∧
               byte_at buffer 0 ≠ DATA_CHANNEL_ACK))) ∨
         (ppid ≠ DATA_CHANNEL_PPID_CONTROL ∧ ppid ≠ DATA_CHANNEL_PPID_DOMSTRING ∧
            ppid ≠ DATA_CHANNEL_PPID_BINARY)) :
    handle_message sock w buffer ppid i = some w := by
  unfold handle_message
  rcases h with ⟨hp, h⟩ | ⟨h1, h2, h3⟩
  · rw [if_pos hp]
    by_cases hlen : buffer.length < SIZEOF_ACK
    · rw [if_pos hlen]
    · rw [if_neg hlen]
      rcases h with h | ⟨h0, h8⟩ | ⟨h0, h6⟩ | ⟨h0, h1, h2⟩
      · exact absurd (by rw [h]; decide) hlen
      · rw [if_pos h0, if_pos h8]
      · rw [if_neg (by rw [h0]; decide), if_pos h0, if_pos h6]
      · rw [if_neg h0, if_neg h1, if_neg h2]
        rfl
  · rw [if_neg h1, if_neg (by tauto)]

/-- Claim C17 for the three-byte OpenResponse of the spec's scenario 5. -/
theorem handle_message_drops_witness :
    handle_message (sock_accepting 10) established_world [1, 0, 0] DATA_CHANNEL_PPID_CONTROL 5 =
      some established_world :=
  handle_message_drops (sock_accepting 10) established_world [1, 0, 0]
    DATA_CHANNEL_PPID_CONTROL 5 (Or.inl ⟨rfl, Or.inr (Or.inr (Or.inl ⟨rfl, by decide⟩))⟩)

/-- Claim C16 fails on the code.  An OpenRequest with channel type 7 is not rejected: at a
fresh peer connection, received on stream 1, it makes `handle_open_request_message` hand an
OpenResponse to the transport; when that send is refused nothing else happens, and when it is
accepted the handler goes on to store the local `pr_policy`, which the `default` case of the
`switch` left uninitialised, in the new channel. -/
theorem unknown_channel_type_not_rejected :
    pr_policy_of_channel_type 7 = none ∧
    (∃ w2 : World,
      handle_message (sock_refusing 10) fresh_world [0, 7, 0, 0, 0, 0, 0, 0]
        DATA_CHANNEL_PPID_CONTROL 1 = some w2 ∧
      w2.trace = [Event.sendv 1 [1, 0, 0, 0, 0, 1] DATA_CHANNEL_PPID_CONTROL false none]) ∧
    handle_message (sock_accepting 10) fresh_world [0, 7, 0, 0, 0, 0, 0, 0]
      DATA_CHANNEL_PPID_CONTROL 1 = none :=
  ⟨rfl, ⟨_, rfl, rfl⟩, rfl⟩

/-- The wire channel types 0 and 1 are mapped to the reliable policy, 2 and 4 to the timed
policy and 3 to the retransmission policy. -/
theorem pr_policy_of_channel_type_known :
    pr_policy_of_channel_type DATA_CHANNEL_RELIABLE = some SCTP_PR_SCTP_NONE ∧
    pr_policy_of_channel_type DATA_CHANNEL_RELIABLE_STREAM = some SCTP_PR_SCTP_NONE ∧
    pr_policy_of_channel_type DATA_CHANNEL_UNRELIABLE = some SCTP_PR_SCTP_TTL ∧
    pr_policy_of_channel_type DATA_CHANNEL_PARTIAL_RELIABLE_REXMIT = some SCTP_PR_SCTP_RTX ∧
    pr_policy_of_channel_type DATA_CHANNEL_PARTIAL_RELIABLE_TIMED = some SCTP_PR_SCTP_TTL :=
  ⟨rfl, rfl, rfl, rfl, rfl⟩

/-! ## Stream exhaustion -/

/-- Claim C13 as stated fails.  With a transport that reports 1 outbound stream and accepts
every send, the first `open_channel` on a fresh peer connection does not get stream 1: the
channel is CONNECTING with `o_stream = 0`, no request is handed to the transport, and the
only event is an add-streams request for 1 outbound stream. -/
theorem first_open_gets_no_stream_with_one_outbound :
    ∃ w1 : World,
      open_channel (sock_accepting 1) fresh_world 0 SCTP_PR_SCTP_NONE 0 = some (some 0, w1) ∧
      (w1.pc.channels 0).state = DATA_CHANNEL_CONNECTING ∧
      (w1.pc.channels 0).o_stream = 0 ∧
      find_channel_by_o_stream w1.pc 1 = none ∧
      w1.trace = [Event.add_streams 0 1] :=
  ⟨_, rfl, rfl, rfl, rfl, rfl⟩

set_option maxRecDepth 100000 in
/-- Claim C13, amended.  On a fresh peer connection whose transport accepts every call, three
successive `open_channel` calls with valid arguments return channels 0, 1 and 2.  If the
transport reports 1 outbound stream, all three channels are CONNECTING with `o_stream = 0`,
no request is sent, and the add-streams requests ask for 1, 2 and 3 outbound streams.  If the
transport reports 2 outbound streams, channel 0 is bound to outbound stream 1 and the
OpenRequest with the parameters of the first call (tag 0, channel type of the policy,
`unordered` flag, low 16 bits of the value, priority 0) is sent on stream 1, channels 1 and
2 are CONNECTING with `o_stream = 0`, and the events after the request are the add-streams
requests for 1 and then 2 outbound streams. -/
theorem stream_exhaustion (u1 p1 v1 u2 p2 v2 u3 p3 v3 : Nat)
    (h1 : open_channel_pre u1 p1 v1) (h2 : open_channel_pre u2 p2 v2)
    (h3 : open_channel_pre u3 p3 v3) :
    (∃ w1 w2 w3 : World,
      open_channel (sock_accepting 1) fresh_world u1 p1 v1 = some (some 0, w1) ∧
      open_channel (sock_accepting 1) w1 u2 p2 v2 = some (some 1, w2) ∧
      open_channel (sock_accepting 1) w2 u3 p3 v3 = some (some 2, w3) ∧
      (w3.pc.channels 0).state = DATA_CHANNEL_CONNECTING ∧ (w3.pc.channels 0).o_stream = 0 ∧
      (w3.pc.channels 1).state = DATA_CHANNEL_CONNECTING ∧ (w3.pc.channels 1).o_stream = 0 ∧
      (w3.pc.channels 2).state = DATA_CHANNEL_CONNECTING ∧ (w3.pc.channels 2).o_stream = 0 ∧
      w3.trace = [Event.add_streams 0 1, Event.add_streams 0 2, Event.add_streams 0 3]) ∧
    (∃ w1 w2 w3 : World,
      open_channel (sock_accepting 2) fresh_world u1 p1 v1 = some (some 0, w1) ∧
      open_channel (sock_accepting 2) w1 u2 p2 v2 = some (some 1, w2) ∧
      open_channel (sock_accepting 2) w2 u3 p3 v3 = some (some 2, w3) ∧
      (w3.pc.channels 0).state = DATA_CHANNEL_CONNECTING ∧ (w3.pc.channels 0).o_stream = 1 ∧
      find_channel_by_o_stream w3.pc 1 = some 0 ∧
      (w3.pc.channels 1).state = DATA_CHANNEL_CONNECTING ∧ (w3.pc.channels 1).o_stream = 0 ∧
      (w3.pc.channels 2).state = DATA_CHANNEL_CONNECTING ∧ (w3.pc.channels 2).o_stream = 0 ∧
      w3.trace =
        [Event.sendv 1
          [DATA_CHANNEL_OPEN_REQUEST,
            if p1 = SCTP_PR_SCTP_NONE then DATA_CHANNEL_RELIABLE
            else if p1 = SCTP_PR_SCTP_TTL then DATA_CHANNEL_PARTIAL_RELIABLE_TIMED
            else DATA_CHANNEL_PARTIAL_RELIABLE_REXMIT,
            0, u1, v1 % 65536 / 256, v1 % 256, 0, 0]
          DATA_CHANNEL_PPID_CONTROL false none,
        Event.add_streams 0 1, Event.add_streams 0 2]) := by
  constructor
  · have e1 : open_channel (sock_accepting 1) fresh_world u1 p1 v1 = some (some 0,
        (⟨⟨(setAt init_peer_connection.channels 0
          ⟨0, v1, p1, 0, 0, u1, DATA_CHANNEL_CONNECTING⟩),
          init_peer_connection.i_stream_channel, init_peer_connection.o_stream_channel,
          init_peer_connection.o_stream_buffer, 0⟩, 3,
          [Event.add_streams 0 1]⟩ : World)) :=
      Eq.trans (open_channel_valid (sock_accepting 1) fresh_world
        u1 p1 v1 h1.1 h1.2.1 h1.2.2 0 rfl 0 _ rfl (by decide)) rfl
    have e2 : open_channel (sock_accepting 1) 
        (⟨⟨(setAt init_peer_connection.channels 0
          ⟨0, v1, p1, 0, 0, u1, DATA_CHANNEL_CONNECTING⟩),
          init_peer_connection.i_stream_channel, init_peer_connection.o_stream_channel,
          init_peer_connection.o_stream_buffer, 0⟩, 3,
          [Event.add_streams 0 1]⟩ : World) u2 p2 v2 = some (some 1,
        (⟨⟨(setAt (setAt init_peer_connection.channels 0
          ⟨0, v1, p1, 0, 0, u1, DATA_CHANNEL_CONNECTING⟩) 1
          ⟨1, v2, p2, 0, 0, u2, DATA_CHANNEL_CONNECTING⟩),
          init_peer_connection.i_stream_channel, init_peer_connection.o_stream_channel,
          init_peer_connection.o_stream_buffer, 0⟩, 6,
          [Event.add_streams 0 1, Event.add_streams 0 2]⟩ : World)) :=
      Eq.trans (open_channel_valid (sock_accepting 1) 
        (⟨⟨(setAt init_peer_connection.channels 0
          ⟨0, v1, p1, 0, 0, u1, DATA_CHANNEL_CONNECTING⟩),
          init_peer_connection.i_stream_channel, init_peer_connection.o_stream_channel,
          init_peer_connection.o_stream_buffer, 0⟩, 3,
          [Event.add_streams 0 1]⟩ : World)
        u2 p2 v2 h2.1 h2.2.1 h2.2.2 1 rfl 0 _ rfl (by decide)) rfl
    have e3 : open_channel (sock_accepting 1) 
        (⟨⟨(setAt (setAt init_peer_connection.channels 0
          ⟨0, v1, p1, 0, 0, u1, DATA_CHANNEL_CONNECTING⟩) 1
          ⟨1, v2, p2, 0, 0, u2, DATA_CHANNEL_CONNECTING⟩),
          init_peer_connection.i_stream_channel, init_peer_connection.o_stream_channel,
          init_peer_connection.o_stream_buffer, 0⟩, 6,
          [Event.add_streams 0 1, Event.add_streams 0 2]⟩ : World) u3 p3 v3 = some (some 2,
        (⟨⟨(setAt (setAt (setAt init_peer_connection.channels 0
          ⟨0, v1, p1, 0, 0, u1, DATA_CHANNEL_CONNECTING⟩) 1
          ⟨1, v2, p2, 0, 0, u2, DATA_CHANNEL_CONNECTING⟩) 2
          ⟨2, v3, p3, 0, 0, u3, DATA_CHANNEL_CONNECTING⟩),
          init_peer_connection.i_stream_channel, init_peer_connection.o_stream_channel,
          init_peer_connection.o_stream_buffer, 0⟩, 9,
          [Event.add_streams 0 1, Event.add_streams 0 2, Event.add_streams 0 3]⟩ : World)) :=
      Eq.trans (open_channel_valid (sock_accepting 1) 
        (⟨⟨(setAt (setAt init_peer_connection.channels 0
          ⟨0, v1, p1, 0, 0, u1, DATA_CHANNEL_CONNECTING⟩) 1
          ⟨1, v2, p2, 0, 0, u2, DATA_CHANNEL_CONNECTING⟩),
          init_peer_connection.i_stream_channel, init_peer_connection.o_stream_channel,
          init_peer_connection.o_stream_buffer, 0⟩, 6,
          [Event.add_streams 0 1, Event.add_streams 0 2]⟩ : World)
        u3 p3 v3 h3.1 h3.2.1 h3.2.2 2 rfl 0 _ rfl (by decide)) rfl
    exact ⟨_, _, _, e1, e2, e3, rfl, rfl, rfl, rfl, rfl, rfl, rfl⟩
  · have hreq := send_open_request_message_eq (sock_accepting 2)
      { fresh_world with calls := 1 } 1 u1 p1 v1 h1.1
    have e1 : open_channel (sock_accepting 2) fresh_world u1 p1 v1 = some (some 0,
        (⟨⟨(setAt init_peer_connection.channels 0
          ⟨0, v1, p1, 0, 1, u1, DATA_CHANNEL_CONNECTING⟩),
          init_peer_connection.i_stream_channel, (setAt init_peer_connection.o_stream_channel 1 (some 0)),
          init_peer_connection.o_stream_buffer, 0⟩, 2,
          [Event.sendv 1
            [DATA_CHANNEL_OPEN_REQUEST,
            if p1 = SCTP_PR_SCTP_NONE then DATA_CHANNEL_RELIABLE
            else if p1 = SCTP_PR_SCTP_TTL then DATA_CHANNEL_PARTIAL_RELIABLE_TIMED
            else DATA_CHANNEL_PARTIAL_RELIABLE_REXMIT,
            0, if u1 = 0 then 0 else 1, v1 % 65536 / 256, v1 % 256, 0, 0]
            DATA_CHANNEL_PPID_CONTROL false none]⟩ : World)) := by
      rw [open_channel_valid (sock_accepting 2) fresh_world u1 p1 v1 h1.1 h1.2.1 h1.2.2
        0 rfl 1 { fresh_world with calls := 1 } rfl (by decide)]
      simp only [hreq]
      rfl
    have e2 : open_channel (sock_accepting 2) 
        (⟨⟨(setAt init_peer_connection.channels 0
          ⟨0, v1, p1, 0, 1, u1, DATA_CHANNEL_CONNECTING⟩),
          init_peer_connection.i_stream_channel, (setAt init_peer_connection.o_stream_channel 1 (some 0)),
          init_peer_connection.o_stream_buffer, 0⟩, 2,
          [Event.sendv 1
            [DATA_CHANNEL_OPEN_REQUEST,
            if p1 = SCTP_PR_SCTP_NONE then DATA_CHANNEL_RELIABLE
            else if p1 = SCTP_PR_SCTP_TTL then DATA_CHANNEL_PARTIAL_RELIABLE_TIMED
            else DATA_CHANNEL_PARTIAL_RELIABLE_REXMIT,
            0, if u1 = 0 then 0 else 1, v1 % 65536 / 256, v1 % 256, 0, 0]
            DATA_CHANNEL_PPID_CONTROL false none]⟩ : World) u2 p2 v2 = some (some 1,
        (⟨⟨(setAt (setAt init_peer_connection.channels 0
          ⟨0, v1, p1, 0, 1, u1, DATA_CHANNEL_CONNECTING⟩) 1
          ⟨1, v2, p2, 0, 0, u2, DATA_CHANNEL_CONNECTING⟩),
          init_peer_connection.i_stream_channel, (setAt init_peer_connection.o_stream_channel 1 (some 0)),
          init_peer_connection.o_stream_buffer, 0⟩, 5,
          [Event.sendv 1
            [DATA_CHANNEL_OPEN_REQUEST,
            if p1 = SCTP_PR_SCTP_NONE then DATA_CHANNEL_RELIABLE
            else if p1 = SCTP_PR_SCTP_TTL then DATA_CHANNEL_PARTIAL_RELIABLE_TIMED
            else DATA_CHANNEL_PARTIAL_RELIABLE_REXMIT,
            0, if u1 = 0 then 0 else 1, v1 % 65536 / 256, v1 % 256, 0, 0]
            DATA_CHANNEL_PPID_CONTROL false none,
            Event.add_streams 0 1]⟩ : World)) :=
      Eq.trans (open_channel_valid (sock_accepting 2) 
        (⟨⟨(setAt init_peer_connection.channels 0
          ⟨0, v1, p1, 0, 1, u1, DATA_CHANNEL_CONNECTING⟩),
          init_peer_connection.i_stream_channel, (setAt init_peer_connection.o_stream_channel 1 (some 0)),
          init_peer_connection.o_stream_buffer, 0⟩, 2,
          [Event.sendv 1
            [DATA_CHANNEL_OPEN_REQUEST,
            if p1 = SCTP_PR_SCTP_NONE then DATA_CHANNEL_RELIABLE
            else if p1 = SCTP_PR_SCTP_TTL then DATA_CHANNEL_PARTIAL_RELIABLE_TIMED
            else DATA_CHANNEL_PARTIAL_RELIABLE_REXMIT,
            0, if u1 = 0 then 0 else 1, v1 % 65536 / 256, v1 % 256, 0, 0]
            DATA_CHANNEL_PPID_CONTROL false none]⟩ : World)
        u2 p2 v2 h2.1 h2.2.1 h2.2.2 1 rfl 0 _ rfl (by decide)) rfl
    have e3 : open_channel (sock_accepting 2) 
        (⟨⟨(setAt (setAt init_peer_connection.channels 0
          ⟨0, v1, p1, 0, 1, u1, DATA_CHANNEL_CONNECTING⟩) 1
          ⟨1, v2, p2, 0, 0, u2, DATA_CHANNEL_CONNECTING⟩),
          init_peer_connection.i_stream_channel, (setAt init_peer_connection.o_stream_channel 1 (some 0)),
          init_peer_connection.o_stream_buffer, 0⟩, 5,
          [Event.sendv 1
            [DATA_CHANNEL_OPEN_REQUEST,
            if p1 = SCTP_PR_SCTP_NONE then DATA_CHANNEL_RELIABLE
            else if p1 = SCTP_PR_SCTP_TTL then DATA_CHANNEL_PARTIAL_RELIABLE_TIMED
            else DATA_CHANNEL_PARTIAL_RELIABLE_REXMIT,
            0, if u1 = 0 then 0 else 1, v1 % 65536 / 256, v1 % 256, 0, 0]
            DATA_CHANNEL_PPID_CONTROL false none,
            Event.add_streams 0 1]⟩ : World) u3 p3 v3 = some (some 2,
        (⟨⟨(setAt (setAt (setAt init_peer_connection.channels 0
          ⟨0, v1, p1, 0, 1, u1, DATA_CHANNEL_CONNECTING⟩) 1
          ⟨1, v2, p2, 0, 0, u2, DATA_CHANNEL_CONNECTING⟩) 2
          ⟨2, v3, p3, 0, 0, u3, DATA_CHANNEL_CONNECTING⟩),
          init_peer_connection.i_stream_channel, (setAt init_peer_connection.o_stream_channel 1 (some 0)),
          init_peer_connection.o_stream_buffer, 0⟩, 8,
          [Event.sendv 1
            [DATA_CHANNEL_OPEN_REQUEST,
            if p1 = SCTP_PR_SCTP_NONE then DATA_CHANNEL_RELIABLE
            else if p1 = SCTP_PR_SCTP_TTL then DATA_CHANNEL_PARTIAL_RELIABLE_TIMED
            else DATA_CHANNEL_PARTIAL_RELIABLE_REXMIT,
            0, if u1 = 0 then 0 else 1, v1 % 65536 / 256, v1 % 256, 0, 0]
            DATA_CHANNEL_PPID_CONTROL false none,
            Event.add_streams 0 1, Event.add_streams 0 2]⟩ : World)) :=
      Eq.trans (open_channel_valid (sock_accepting 2) 
        (⟨⟨(setAt (setAt init_peer_connection.channels 0
          ⟨0, v1, p1, 0, 1, u1, DATA_CHANNEL_CONNECTING⟩) 1
          ⟨1, v2, p2, 0, 0, u2, DATA_CHANNEL_CONNECTING⟩),
          init_peer_connection.i_stream_channel, (setAt init_peer_connection.o_stream_channel 1 (some 0)),
          init_peer_connection.o_stream_buffer, 0⟩, 5,
          [Event.sendv 1
            [DATA_CHANNEL_OPEN_REQUEST,
            if p1 = SCTP_PR_SCTP_NONE then DATA_CHANNEL_RELIABLE
            else if p1 = SCTP_PR_SCTP_TTL then DATA_CHANNEL_PARTIAL_RELIABLE_TIMED
            else DATA_CHANNEL_PARTIAL_RELIABLE_REXMIT,
            0, if u1 = 0 then 0 else 1, v1 % 65536 / 256, v1 % 256, 0, 0]
            DATA_CHANNEL_PPID_CONTROL false none,
            Event.add_streams 0 1]⟩ : World)
        u3 p3 v3 h3.1 h3.2.1 h3.2.2 2 rfl 0 _ rfl (by decide)) rfl
    have hu1 : (if u1 = 0 then 0 else 1 : Nat) = u1 := by
      rcases h1.2.1 with h | h <;> simp [h]
    refine ⟨_, _, _, e1, e2, e3, rfl, rfl, rfl, rfl, rfl, rfl, rfl, ?_⟩
    show [Event.sendv 1
        [DATA_CHANNEL_OPEN_REQUEST,
          if p1 = SCTP_PR_SCTP_NONE then DATA_CHANNEL_RELIABLE
          else if p1 = SCTP_PR_SCTP_TTL then DATA_CHANNEL_PARTIAL_RELIABLE_TIMED
          else DATA_CHANNEL_PARTIAL_RELIABLE_REXMIT,
          0, if u1 = 0 then 0 else 1, v1 % 65536 / 256, v1 % 256, 0, 0]
        DATA_CHANNEL_PPID_CONTROL false none,
      Event.add_streams 0 1, Event.add_streams 0 2] = _
    rw [hu1]

/-- Claim C13, amended, for three reliable ordered channels and a transport that reports 2
outbound streams. -/
theorem stream_exhaustion_witness :
    ∃ w1 w2 w3 : World,
      open_channel (sock_accepting 2) fresh_world 0 SCTP_PR_SCTP_NONE 0 = some (some 0, w1) ∧
      open_channel (sock_accepting 2) w1 0 SCTP_PR_SCTP_NONE 0 = some (some 1, w2) ∧
      open_channel (sock_accepting 2) w2 0 SCTP_PR_SCTP_NONE 0 = some (some 2, w3) ∧
      (w3.pc.channels 0).o_stream = 1 ∧ (w3.pc.channels 1).o_stream = 0 ∧
      (w3.pc.channels 2).o_stream = 0 ∧
      w3.trace =
        [Event.sendv 1 [0, 0, 0, 0, 0, 0, 0, 0] DATA_CHANNEL_PPID_CONTROL false none,
          Event.add_streams 0 1, Event.add_streams 0 2] := by
  have hpre : open_channel_pre 0 SCTP_PR_SCTP_NONE 0 :=
    ⟨Or.inl rfl, Or.inl rfl, fun _ => rfl⟩
  obtain ⟨-, w1, w2, w3, e1, e2, e3, _, h0, _, _, h1, _, h2, ht⟩ :=
    stream_exhaustion 0 SCTP_PR_SCTP_NONE 0 0 SCTP_PR_SCTP_NONE 0 0 SCTP_PR_SCTP_NONE 0
      hpre hpre hpre
  exact ⟨w1, w2, w3, e1, e2, e3, h0, h1, h2, ht⟩

/-! ## Channel parameters on the wire -/

/-- Claim C14 as stated fails.  `open_channel` accepts the retransmission policy with value
65536; the request written for it carries reliability bytes 0, 0, and a fresh responder that
handles it on stream 1 creates a channel with the same policy but `pr_value = 0`. -/
theorem value_does_not_survive_the_wire :
    open_channel_pre 0 SCTP_PR_SCTP_RTX 65536 ∧
    (send_open_request_message (sock_accepting 10) fresh_world 1 0 SCTP_PR_SCTP_RTX
      65536).2.trace =
      [Event.sendv 1 [0, 3, 0, 0, 0, 0, 0, 0] DATA_CHANNEL_PPID_CONTROL false none] ∧
    ∃ w2 : World,
      handle_open_request_message (sock_accepting 10) fresh_world [0, 3, 0, 0, 0, 0, 0, 0] 1 =
        some w2 ∧
      find_channel_by_i_stream w2.pc 1 = some 0 ∧
      (w2.pc.channels 0).pr_policy = SCTP_PR_SCTP_RTX ∧
      (w2.pc.channels 0).pr_value = 0 :=
  ⟨⟨Or.inr (Or.inr rfl), Or.inl rfl, fun h => absurd h (by decide)⟩, rfl, _, rfl, rfl, rfl, rfl⟩

/-- Claim C14, amended.  Let `(unordered, policy, value)` satisfy the pre-conditions of
`open_channel` and let `req` be the payload that `send_open_request_message` hands to the
transport for them.  On a responder with a CLOSED record, for an unbound inbound stream
`i < NUMBER_OF_STREAMS`, when no outbound stream is free or the response is sent, handling
`req` returns and binds `i` to a channel whose `unordered` and `pr_policy` are the
initiator's and whose `pr_value` is the initiator's value modulo `2^16`. -/
theorem parameters_survive_the_wire (si : Socket) (wi : World)
    (o unordered pr_policy pr_value : Nat) (req : List Nat)
    (hpre : open_channel_pre unordered pr_policy pr_value)
    (hreq : (send_open_request_message si wi o unordered pr_policy pr_value).2.trace =
      wi.trace ++ [Event.sendv o req DATA_CHANNEL_PPID_CONTROL false none])
    (sock : Socket) (w : World) (i : Nat) (hi : i < NUMBER_OF_STREAMS)
    (hnone : find_channel_by_i_stream w.pc i = none)
    (hfree : ∃ j : Fin NUMBER_OF_CHANNELS, (w.pc.channels j).state = DATA_CHANNEL_CLOSED)
    (ro : Nat) (w1 : World) (hfs : find_free_o_stream sock w = (ro, w1))
    (hgo : ro = 0 ∨ (send_open_response_message sock w1 ro i).1 = true) :
    ∃ (c : Fin NUMBER_OF_CHANNELS) (w2 : World),
      handle_open_request_message sock w req i = some w2 ∧
      find_channel_by_i_stream w2.pc i = some c ∧
      (w2.pc.channels c).unordered = unordered ∧
      (w2.pc.channels c).pr_policy = pr_policy ∧
      (w2.pc.channels c).pr_value = pr_value % 65536 := by
  obtain ⟨hpol, hun, -⟩ := hpre
  rw [send_open_request_message_eq si wi o unordered pr_policy pr_value hpol] at hreq
  have hreq' : req =
      [DATA_CHANNEL_OPEN_REQUEST,
        if pr_policy = SCTP_PR_SCTP_NONE then DATA_CHANNEL_RELIABLE
        else if pr_policy = SCTP_PR_SCTP_TTL then DATA_CHANNEL_PARTIAL_RELIABLE_TIMED
        else DATA_CHANNEL_PARTIAL_RELIABLE_REXMIT,
        0, if unordered = 0 then 0 else 1, pr_value % 65536 / 256, pr_value % 256, 0, 0] := by
    have := List.append_cancel_left hreq
    simp only [List.cons.injEq, Event.sendv.injEq, and_true, true_and] at this
    exact this.symm
  obtain ⟨c, hc⟩ := find_free_channel_exists w.pc hfree
  have hlt : ro < NUMBER_OF_STREAMS := by
    have := find_free_o_stream_lt sock w
    rw [hfs] at this
    exact this
  have hp : pr_policy_of_channel_type (byte_at req 1) = some pr_policy := by
    rw [hreq']
    rcases hpol with h | h | h <;> subst h <;> rfl
  have hval : ntohs_at req 4 = pr_value % 65536 := by
    rw [hreq']
    simp only [ntohs_at, byte_at, List.getD]
    simp
    omega
  have hunord : (if ntohs_at req 2 &&& DATA_CHANNEL_FLAG_OUT_OF_ORDER_ALLOWED ≠ 0 then 1
      else 0) = unordered := by
    rw [hreq']
    rcases hun with h | h <;> subst h <;>
      simp [ntohs_at, byte_at, DATA_CHANNEL_FLAG_OUT_OF_ORDER_ALLOWED]
  have heq := handle_open_request_message_eq sock w req i hi hnone c hc pr_policy hp ro w1 hfs
    hlt
  rw [hunord, hval] at heq
  by_cases hz : ro = 0
  · simp only [hz, if_true] at heq
    refine ⟨c, _, heq, ?_, ?_, ?_, ?_⟩ <;> rw [request_more_o_streams_pc]
    · simp [find_channel_by_i_stream, hi]
    · simp
    · simp
    · simp
  · have hs : (send_open_response_message sock w1 ro i).1 = true := by
      rcases hgo with h | h
      · exact absurd h hz
      · exact h
    simp only [hz, if_false, hs, if_true] at heq
    refine ⟨c, _, heq, ?_, ?_, ?_, ?_⟩
    · simp [find_channel_by_i_stream, hi]
    · simp
    · simp
    · simp

/-- Claim C14, amended, for an unordered channel with a lifetime of 70000 ms: the responder
stores 70000 mod 65536 = 4464. -/
theorem parameters_survive_the_wire_witness :
    ∃ (c : Fin NUMBER_OF_CHANNELS) (w2 : World),
      handle_open_request_message (sock_accepting 10) fresh_world [0, 4, 0, 1, 17, 112, 0, 0]
        7 = some w2 ∧
      find_channel_by_i_stream w2.pc 7 = some c ∧
      (w2.pc.channels c).unordered = 1 ∧
      (w2.pc.channels c).pr_policy = SCTP_PR_SCTP_TTL ∧
      (w2.pc.channels c).pr_value = 4464 :=
  parameters_survive_the_wire (sock_accepting 10) fresh_world 1 1 SCTP_PR_SCTP_TTL 70000
    [0, 4, 0, 1, 17, 112, 0, 0] ⟨Or.inr (Or.inl rfl), Or.inr rfl, fun h => absurd h (by decide)⟩
    rfl (sock_accepting 10) fresh_world 7 (by decide) rfl ⟨0, rfl⟩ 1
    { fresh_world with calls := 1 } rfl (Or.inr rfl)

/-! ## Sending user messages -/

/-- What `send_user_message` does in every world: on `NULL` and on a channel that is neither
OPEN nor CONNECTING it returns 0 without a call into the transport; otherwise it hands the
message to the transport once, with PPID 51, on the stream id stored in the channel's
`o_stream`, unordered only when the channel is OPEN and its `unordered` field is set, with
the stored partial-reliability policy, and returns the answer of the transport. -/
theorem send_user_message_stream (sock : Socket) (w : World) (c : Fin NUMBER_OF_CHANNELS)
    (message : List Nat) :
    send_user_message sock w none message = (false, w) ∧
    ((w.pc.channels c).state ≠ DATA_CHANNEL_OPEN →
      (w.pc.channels c).state ≠ DATA_CHANNEL_CONNECTING →
      send_user_message sock w (some c) message = (false, w)) ∧
    ((w.pc.channels c).state = DATA_CHANNEL_OPEN ∨
        (w.pc.channels c).state = DATA_CHANNEL_CONNECTING →
      send_user_message sock w (some c) message =
        ((sock w.calls).sendv,
          { w with
            calls := w.calls + 1,
            trace := w.trace ++
              [Event.sendv (w.pc.channels c).o_stream message DATA_CHANNEL_PPID_DOMSTRING
                (decide ((w.pc.channels c).state = DATA_CHANNEL_OPEN ∧
                  (w.pc.channels c).unordered ≠ 0))
                (if (w.pc.channels c).pr_policy = SCTP_PR_SCTP_TTL ∨
                    (w.pc.channels c).pr_policy = SCTP_PR_SCTP_RTX then
                  some ((w.pc.channels c).pr_policy, (w.pc.channels c).pr_value)
                else none)] })) := by
  refine ⟨rfl, ?_, ?_⟩
  · intro h1 h2
    simp [send_user_message, h1, h2]
  · intro h
    have hn : ¬((w.pc.channels c).state ≠ DATA_CHANNEL_OPEN ∧
        (w.pc.channels c).state ≠ DATA_CHANNEL_CONNECTING) := by
      rcases h with h | h <;> simp [h]
    simp only [send_user_message, if_neg hn, usrsctp_sendv]

set_option maxRecDepth 100000 in
/-- Claim C18 fails on the code.  With a transport that reports 1 outbound stream, one
`open_channel` on the fresh peer connection leaves channel 0 CONNECTING with `o_stream = 0`
and no entry of `o_stream_channel` referring to it; `send_user_message` on that channel then
reports success and hands the message to the transport on stream 0. -/
theorem send_user_message_on_stream_zero :
    ∃ w : World,
      open_channel (sock_accepting 1) fresh_world 0 SCTP_PR_SCTP_NONE 0 = some (some 0, w) ∧
      reachable (sock_accepting 1) w ∧
      (w.pc.channels 0).state = DATA_CHANNEL_CONNECTING ∧
      (w.pc.channels 0).o_stream = 0 ∧
      find_channel_by_o_stream w.pc 0 = none ∧
      send_user_message (sock_accepting 1) w (some 0) [104, 105] =
        (true,
          { w with
            calls := w.calls + 1,
            trace := w.trace ++
              [Event.sendv 0 [104, 105] DATA_CHANNEL_PPID_DOMSTRING false none] }) :=
  ⟨_, rfl,
    reachable.open_channel 0 SCTP_PR_SCTP_NONE 0 (some 0) _ reachable.init (by decide)
      (by decide) (by decide) rfl,
    rfl, rfl, rfl, rfl⟩

/-! ## Consistency of the index tables in reachable worlds -/

set_option maxRecDepth 100000 in
/-- Claim C19 fails on the code.  With a transport that answers every status query with 0
outbound streams and accepts every send, `find_free_o_stream` returns 1 each time, and two
`open_channel` calls on the fresh peer connection reach a world in which channels 0 and 1 both
have `o_stream = 1` while `o_stream_channel[1]` refers to channel 1 only. -/
theorem two_channels_claim_one_outbound_stream :
    (find_free_o_stream (sock_accepting 0) fresh_world).1 = 1 ∧
    ∃ w1 w : World,
      open_channel (sock_accepting 0) fresh_world 0 SCTP_PR_SCTP_NONE 0 = some (some 0, w1) ∧
      open_channel (sock_accepting 0) w1 0 SCTP_PR_SCTP_NONE 0 = some (some 1, w) ∧
      reachable (sock_accepting 0) w ∧
      (w.pc.channels 0).state = DATA_CHANNEL_CONNECTING ∧ (w.pc.channels 0).o_stream = 1 ∧
      (w.pc.channels 1).state = DATA_CHANNEL_CONNECTING ∧ (w.pc.channels 1).o_stream = 1 ∧
      find_channel_by_o_stream w.pc 1 = some 1 :=
  ⟨rfl, _, _, rfl, rfl,
    reachable.open_channel 0 SCTP_PR_SCTP_NONE 0 (some 1) _
      (reachable.open_channel 0 SCTP_PR_SCTP_NONE 0 (some 0) _ reachable.init (by decide)
        (by decide) (by decide) rfl)
      (by decide) (by decide) (by decide) rfl,
    rfl, rfl, rfl, rfl, rfl⟩

set_option maxRecDepth 100000 in
/-- Claim C20 fails on the code.  On the fresh peer connection, with a transport that reports
10 outbound streams and accepts every send, `open_channel`, an OpenResponse on inbound
stream 5 and a second OpenResponse on inbound stream 7 (both with `reverse_stream = 1`) reach
a world in which `i_stream_channel[5]` and `i_stream_channel[7]` both refer to channel 0,
whose `i_stream` is 7.  And with a transport that reports 1 outbound stream, an OpenRequest
on inbound stream 5 followed by a stream-change notification flagged DENIED reaches a world
in which `i_stream_channel[5]` refers to channel 0, which is CLOSED. -/
theorem stale_inbound_entry_reachable :
    (∃ w1 w2 w : World,
      open_channel (sock_accepting 10) fresh_world 0 SCTP_PR_SCTP_NONE 0 = some (some 0, w1) ∧
      handle_message (sock_accepting 10) w1 [1, 0, 0, 0, 0, 1] DATA_CHANNEL_PPID_CONTROL 5 =
        some w2 ∧
      handle_message (sock_accepting 10) w2 [1, 0, 0, 0, 0, 1] DATA_CHANNEL_PPID_CONTROL 7 =
        some w ∧
      reachable (sock_accepting 10) w ∧
      find_channel_by_i_stream w.pc 5 = some 0 ∧
      find_channel_by_i_stream w.pc 7 = some 0 ∧
      (w.pc.channels 0).i_stream = 7 ∧
      (w.pc.channels 0).state = DATA_CHANNEL_OPEN) ∧
    (∃ w1 w : World,
      handle_message (sock_accepting 1) fresh_world [0, 0, 0, 0, 0, 0, 0, 0]
        DATA_CHANNEL_PPID_CONTROL 5 = some w1 ∧
      handle_notification (sock_accepting 1) w1 8
        (sctp_notification.stream_change_event { denied := true, failed := false }) 8 =
        some w ∧
      reachable (sock_accepting 1) w ∧
      (w1.pc.channels 0).state = DATA_CHANNEL_CONNECTING ∧
      find_channel_by_i_stream w.pc 5 = some 0 ∧
      (w.pc.channels 0).i_stream = 5 ∧
      (w.pc.channels 0).state = DATA_CHANNEL_CLOSED) :=
  ⟨⟨_, _, _, rfl, rfl, rfl,
    reachable.handle_message [1, 0, 0, 0, 0, 1] DATA_CHANNEL_PPID_CONTROL 7 _
      (reachable.handle_message [1, 0, 0, 0, 0, 1] DATA_CHANNEL_PPID_CONTROL 5 _
        (reachable.open_channel 0 SCTP_PR_SCTP_NONE 0 (some 0) _ reachable.init (by decide)
          (by decide) (by decide) rfl)
        (by decide) (by decide) rfl)
      (by decide) (by decide) rfl,
    rfl, rfl, rfl, rfl⟩,
   ⟨_, _, rfl, rfl,
    reachable.handle_notification 8
      (sctp_notification.stream_change_event { denied := true, failed := false }) 8 _
      (reachable.handle_message [0, 0, 0, 0, 0, 0, 0, 0] DATA_CHANNEL_PPID_CONTROL 5 _
        reachable.init (by decide) (by decide) rfl)
      trivial rfl,
    rfl, rfl, rfl, rfl⟩⟩


/-! ## Stream-reset notifications against the rule of the spec -/

/-- Two channel tables with the same four components are equal. -/
theorem channel_table_ext (t u : channel_table) (h1 : t.channels = u.channels)
    (h2 : t.i_stream_channel = u.i_stream_channel)
    (h3 : t.o_stream_channel = u.o_stream_channel)
    (h4 : t.pending_resets = u.pending_resets) : t = u := by
  cases t; cases u
  simp only at h1 h2 h3 h4
  subst h1 h2 h3 h4
  rfl

/-- The copy of the buffer depends only on the entries below its length. -/
theorem srs_stream_list_buffer (pc pc1 : peer_connection) (n : Nat)
    (h : ∀ m : Fin NUMBER_OF_STREAMS, m.val < n → pc1.o_stream_buffer m = pc.o_stream_buffer m) :
    srs_stream_list pc1 n = srs_stream_list pc n := by
  induction n with
  | zero => rfl
  | succ n ih =>
    simp only [srs_stream_list]
    rw [ih (fun m hm => h m (by omega))]
    by_cases hn : n < NUMBER_OF_STREAMS
    · simp only [dif_pos hn]
      rw [h ⟨n, hn⟩ (by simp)]
    · simp only [dif_neg hn]

/-- A stream id is in the copy of the buffer exactly when an entry below the length holds
it. -/
theorem mem_srs_stream_list (pc : peer_connection) (o n : Nat) (hn : n ≤ NUMBER_OF_STREAMS) :
    o ∈ srs_stream_list pc n ↔
      ∃ m : Fin NUMBER_OF_STREAMS, m.val < n ∧ pc.o_stream_buffer m = o := by
  induction n with
  | zero => simp [srs_stream_list]
  | succ n ih =>
    have hlt : n < NUMBER_OF_STREAMS := by omega
    simp only [srs_stream_list, dif_pos hlt, List.mem_append, List.mem_singleton]
    rw [ih (by omega)]
    constructor
    · rintro (⟨m, hm, hmo⟩ | heq)
      · exact ⟨m, by omega, hmo⟩
      · exact ⟨⟨n, hlt⟩, by simp, heq.symm⟩
    · rintro ⟨m, hm, hmo⟩
      by_cases hmn : m.val = n
      · right
        have : m = ⟨n, hlt⟩ := Fin.ext hmn
        rw [← hmo, this]
      · left
        exact ⟨m, by omega, hmo⟩

/-- On a well-formed buffer `reset_outgoing_stream` returns and the pending list is the old
one with the stream id added at the end unless it was there already.  The peer connection `x`
is one with the buffer of `pc`. -/
theorem reset_outgoing_stream_pending (pc x : peer_connection) (o : Nat)
    (hb : x.o_stream_buffer = pc.o_stream_buffer)
    (hc : x.o_stream_buffer_counter = pc.o_stream_buffer_counter)
    (hok : pending_resets_ok pc) (ho : o < NUMBER_OF_STREAMS) :
    ∃ pc1, reset_outgoing_stream x o = some pc1 ∧
      srs_stream_list pc1 pc1.o_stream_buffer_counter =
        (if o ∈ srs_stream_list pc pc.o_stream_buffer_counter then
          srs_stream_list pc pc.o_stream_buffer_counter
        else srs_stream_list pc pc.o_stream_buffer_counter ++ [o]) := by
  have hokx : pending_resets_ok x := by
    unfold pending_resets_ok
    rw [hb, hc]
    exact hok
  have hlx : srs_stream_list x x.o_stream_buffer_counter =
      srs_stream_list pc pc.o_stream_buffer_counter := by
    rw [hc]
    exact srs_stream_list_buffer pc x _ (fun m _ => by rw [hb])
  rw [← hlx]
  obtain ⟨pc1, h1, -⟩ := reset_outgoing_stream_ok x o hokx ho
  refine ⟨pc1, h1, ?_⟩
  have hmem := mem_srs_stream_list x o x.o_stream_buffer_counter hokx.1
  unfold reset_outgoing_stream at h1
  split at h1
  · simp at h1
  · rename_i hhas
    simp only [Option.some.injEq] at h1
    subst h1
    obtain ⟨m, _, hm, hmo⟩ := o_stream_buffer_has_true x o _ 0 hhas
    rw [if_pos (hmem.mpr ⟨m, by omega, hmo⟩)]
  · rename_i hhas
    have hno : o ∉ srs_stream_list x x.o_stream_buffer_counter := by
      rw [hmem]
      rintro ⟨m, hm, hmo⟩
      exact o_stream_buffer_has_false x o _ 0 hhas m (Nat.zero_le _) (by omega) hmo
    rw [if_neg hno]
    split at h1
    · rename_i hroom
      simp only [Option.some.injEq] at h1
      subst h1
      show srs_stream_list _ (x.o_stream_buffer_counter + 1) = _
      simp only [srs_stream_list, dif_pos hroom, setAt_same]
      congr 1
      apply srs_stream_list_buffer
      intro m hm
      have : m ≠ ⟨x.o_stream_buffer_counter, hroom⟩ := fun h => by
        rw [h] at hm; exact Nat.lt_irrefl _ hm
      simp [setAt, this]
    · simp at h1

/-- The incoming half of a round does what the spec's incoming rule says and keeps the tables
in agreement. -/
theorem strreset_incoming_table (pc : peer_connection) (s : Nat) (h : tables_agree pc) :
    ∃ pc1, strreset_incoming pc s = some pc1 ∧ tables_agree pc1 ∧
      pc1.table = spec_reset_incoming pc.table s := by
  by_cases hs : s < NUMBER_OF_STREAMS
  swap
  · refine ⟨pc, ?_, h, ?_⟩
    · simp [strreset_incoming, find_channel_by_i_stream, hs]
    · simp [spec_reset_incoming, hs]
  cases hf : pc.i_stream_channel ⟨s, hs⟩ with
  | none =>
    refine ⟨pc, ?_, h, ?_⟩
    · simp [strreset_incoming, find_channel_by_i_stream, hs, hf]
    · simp [spec_reset_incoming, hs, peer_connection.table, hf]
  | some c =>
    obtain ⟨pc1, hpc1, hi1, ho1, hok1, hother, hself⟩ :=
      strreset_incoming_effect pc s hs c hf (h.agree_i _ _ hf) h.pending (h.range c)
    have hkeep : ∀ k, (pc1.channels k).o_stream = (pc.channels k).o_stream := by
      intro k
      by_cases hk : k = c
      · subst hk; rw [hself]; split <;> rfl
      · rw [hother k hk]
    have hch : pc1.channels = setAt pc.channels c
        (if (pc.channels c).o_stream = 0 then
          ({ pc.channels c with i_stream := 0 } : channel).cleared
        else { pc.channels c with i_stream := 0, state := DATA_CHANNEL_CLOSING }) := by
      funext k
      by_cases hk : k = c
      · subst hk; rw [hself]; simp
      · rw [hother k hk]; simp [setAt, hk]
    refine ⟨pc1, hpc1, ⟨?_, ?_, hok1, ?_⟩, ?_⟩
    · intro t k htk
      rw [hi1] at htk
      simp only [setAt] at htk
      split at htk
      · simp at htk
      · rename_i hts
        have hkc : k ≠ c := by
          intro hkc
          subst hkc
          have h1 := h.agree_i _ _ htk
          have h2 := h.agree_i _ _ hf
          exact hts (Fin.ext (by rw [← h1, h2]))
        rw [hother k hkc]
        exact h.agree_i _ _ htk
    · intro t k htk
      rw [ho1] at htk
      rw [hkeep]
      exact h.agree_o _ _ htk
    · intro k
      rw [hkeep]
      exact h.range k
    · have hfind : find_channel_by_i_stream pc s = some c := by
        simp [find_channel_by_i_stream, hs, hf]
      have hlt : (pc.channels c).i_stream < NUMBER_OF_STREAMS := by
        rw [h.agree_i _ _ hf]; exact hs
      have hpend : srs_stream_list pc1 pc1.o_stream_buffer_counter =
          (if (pc.channels c).o_stream = 0 then srs_stream_list pc pc.o_stream_buffer_counter
          else if (pc.channels c).o_stream ∈ srs_stream_list pc pc.o_stream_buffer_counter then
            srs_stream_list pc pc.o_stream_buffer_counter
          else srs_stream_list pc pc.o_stream_buffer_counter ++ [(pc.channels c).o_stream]) := by
        unfold strreset_incoming at hpc1
        simp only [hfind, dif_pos hlt] at hpc1
        by_cases ho : (pc.channels c).o_stream = 0
        · simp only [ho, if_true, Option.some.injEq] at hpc1
          rw [if_pos ho, ← hpc1]
          exact srs_stream_list_buffer _ _ _ (fun _ _ => rfl)
        · simp only [ho, if_false] at hpc1
          obtain ⟨pc2, hpc2, hlist⟩ :=
            reset_outgoing_stream_pending pc
              { pc with
                i_stream_channel :=
                  setAt pc.i_stream_channel ⟨(pc.channels c).i_stream, hlt⟩ none,
                channels := setAt pc.channels c { pc.channels c with i_stream := 0 } }
              (pc.channels c).o_stream rfl rfl h.pending (h.range c)
          rw [hpc2] at hpc1
          simp only [Option.some.injEq] at hpc1
          rw [if_neg ho, ← hpc1]
          exact Eq.trans (srs_stream_list_buffer pc2 _ _ (fun _ _ => rfl)) hlist
      apply channel_table_ext
      · show pc1.channels = _
        rw [hch]
        simp only [spec_reset_incoming, peer_connection.table, dif_pos hs, hf]
        split <;> rfl
      · show pc1.i_stream_channel = _
        rw [hi1]
        simp only [spec_reset_incoming, peer_connection.table, dif_pos hs, hf]
        split <;> rfl
      · show pc1.o_stream_channel = _
        rw [ho1]
        simp only [spec_reset_incoming, peer_connection.table, dif_pos hs, hf]
        split <;> rfl
      · show srs_stream_list pc1 pc1.o_stream_buffer_counter = _
        rw [hpend]
        simp only [spec_reset_incoming, peer_connection.table, dif_pos hs, hf]
        split <;> rfl

/-- The outgoing half of a round does what the spec's outgoing rule says and keeps the tables
in agreement. -/
theorem strreset_outgoing_table (pc : peer_connection) (s : Nat) (h : tables_agree pc) :
    ∃ pc1, strreset_outgoing pc s = some pc1 ∧ tables_agree pc1 ∧
      pc1.table = spec_reset_outgoing pc.table s := by
  by_cases hs : s < NUMBER_OF_STREAMS
  swap
  · refine ⟨pc, ?_, h, ?_⟩
    · simp [strreset_outgoing, find_channel_by_o_stream, hs]
    · simp [spec_reset_outgoing, hs]
  cases hf : pc.o_stream_channel ⟨s, hs⟩ with
  | none =>
    refine ⟨pc, ?_, h, ?_⟩
    · simp [strreset_outgoing, find_channel_by_o_stream, hs, hf]
    · simp [spec_reset_outgoing, hs, peer_connection.table, hf]
  | some c =>
    obtain ⟨pc1, hpc1, ho1, hi1, hb1, hc1, hother, hself⟩ :=
      strreset_outgoing_effect pc s hs c hf (h.agree_o _ _ hf)
    have hkeep : ∀ k, (pc1.channels k).i_stream = (pc.channels k).i_stream := by
      intro k
      by_cases hk : k = c
      · subst hk; rw [hself]; split <;> rfl
      · rw [hother k hk]
    have hch : pc1.channels = setAt pc.channels c
        (if (pc.channels c).i_stream = 0 then
          ({ pc.channels c with o_stream := 0 } : channel).cleared
        else { pc.channels c with o_stream := 0 }) := by
      funext k
      by_cases hk : k = c
      · subst hk; rw [hself]; simp
      · rw [hother k hk]; simp [setAt, hk]
    refine ⟨pc1, hpc1, ⟨?_, ?_, ?_, ?_⟩, ?_⟩
    · intro t k htk
      rw [hi1] at htk
      rw [hkeep]
      exact h.agree_i _ _ htk
    · intro t k htk
      rw [ho1] at htk
      simp only [setAt] at htk
      split at htk
      · simp at htk
      · rename_i hts
        have hkc : k ≠ c := by
          intro hkc
          subst hkc
          have h1 := h.agree_o _ _ htk
          have h2 := h.agree_o _ _ hf
          exact hts (Fin.ext (by rw [← h1, h2]))
        rw [hother k hkc]
        exact h.agree_o _ _ htk
    · unfold pending_resets_ok
      rw [hb1, hc1]
      exact h.pending
    · intro k
      by_cases hk : k = c
      · subst hk
        rw [hself]
        split <;> simp [channel.cleared]
      · rw [hother k hk]
        exact h.range k
    · apply channel_table_ext
      · show pc1.channels = _
        rw [hch]
        simp only [spec_reset_outgoing, peer_connection.table, dif_pos hs, hf]
        split <;> rfl
      · show pc1.i_stream_channel = _
        rw [hi1]
        simp only [spec_reset_outgoing, peer_connection.table, dif_pos hs, hf]
        split <;> rfl
      · show pc1.o_stream_channel = _
        rw [ho1]
        simp only [spec_reset_outgoing, peer_connection.table, dif_pos hs, hf]
        split <;> rfl
      · show srs_stream_list pc1 pc1.o_stream_buffer_counter = _
        rw [hc1, srs_stream_list_buffer pc pc1 _ (fun m _ => by rw [hb1])]
        simp only [spec_reset_outgoing, peer_connection.table, dif_pos hs, hf]
        split <;> rfl

/-- One round of the loop of `handle_stream_reset_event` does what the spec's rule for one id
says and keeps the tables in agreement. -/
theorem strreset_round_table (flags : strreset_flags) (pc : peer_connection) (s : Nat)
    (h : tables_agree pc) :
    ∃ pc1, strreset_round flags pc s = some pc1 ∧ tables_agree pc1 ∧
      pc1.table = spec_reset_id flags pc.table s := by
  unfold strreset_round spec_reset_id
  cases hin : flags.incoming_ssn with
  | false =>
    simp only [Bool.false_eq_true, if_false]
    cases hout : flags.outgoing_ssn with
    | false => exact ⟨pc, by simp, h, by simp⟩
    | true =>
      obtain ⟨pc2, h2, hag2, ht2⟩ := strreset_outgoing_table pc s h
      exact ⟨pc2, by simpa using h2, hag2, by simpa using ht2⟩
  | true =>
    obtain ⟨pc1, h1, hag1, ht1⟩ := strreset_incoming_table pc s h
    simp only [if_true, h1]
    cases hout : flags.outgoing_ssn with
    | false => exact ⟨pc1, by simp, hag1, by simpa using ht1⟩
    | true =>
      obtain ⟨pc2, h2, hag2, ht2⟩ := strreset_outgoing_table pc1 s hag1
      refine ⟨pc2, by simpa using h2, hag2, ?_⟩
      rw [ht2, ht1]
      simp

/-- The loop of `handle_stream_reset_event` processes the listed ids in order by the spec's
rule and keeps the tables in agreement. -/
theorem strreset_loop_table (flags : strreset_flags) (list : List Nat) (pc : peer_connection)
    (h : tables_agree pc) :
    ∃ pc1, strreset_loop flags pc list = some pc1 ∧ tables_agree pc1 ∧
      pc1.table = spec_stream_reset flags pc.table list := by
  induction list generalizing pc with
  | nil => exact ⟨pc, rfl, h, rfl⟩
  | cons s rest ih =>
    obtain ⟨pc1, h1, hag1, ht1⟩ := strreset_round_table flags pc s h
    obtain ⟨pc2, h2, hag2, ht2⟩ := ih pc1 hag1
    refine ⟨pc2, ?_, hag2, ?_⟩
    · simp only [strreset_loop, h1]
      exact h2
    · rw [ht2, ht1]
      rfl

set_option maxRecDepth 100000 in
/-- Claim C11 as stated fails.  After `open_channel`, an OpenResponse on inbound stream 5 and
a second OpenResponse on inbound stream 7, `i_stream_channel[5]` and `i_stream_channel[7]`
both refer to channel 0, whose `i_stream` is 7.  An INCOMING stream-reset notification
listing 5 then clears the entry `i_stream_channel[7]` and leaves `i_stream_channel[5]`, where
the rule of the spec clears `i_stream_channel[5]` and leaves `i_stream_channel[7]`.  And on a
peer connection whose pending-reset buffer is full, the same notification makes
`reset_outgoing_stream` write beyond the buffer. -/
theorem stream_reset_clears_other_entry :
    (∃ (w1 w2 w : World) (pc1 : peer_connection),
      open_channel (sock_accepting 10) fresh_world 0 SCTP_PR_SCTP_NONE 0 = some (some 0, w1) ∧
      handle_message (sock_accepting 10) w1 [1, 0, 0, 0, 0, 1] DATA_CHANNEL_PPID_CONTROL 5 =
        some w2 ∧
      handle_message (sock_accepting 10) w2 [1, 0, 0, 0, 0, 1] DATA_CHANNEL_PPID_CONTROL 7 =
        some w ∧
      handle_stream_reset_event w.pc incoming_reset [5] = some pc1 ∧
      pc1.i_stream_channel 5 = some 0 ∧ pc1.i_stream_channel 7 = none ∧
      (spec_stream_reset incoming_reset w.pc.table [5]).i_stream_channel 5 = none ∧
      (spec_stream_reset incoming_reset w.pc.table [5]).i_stream_channel 7 = some 0 ∧
      pc1.table ≠ spec_stream_reset incoming_reset w.pc.table [5]) ∧
    handle_stream_reset_event full_buffer_pc incoming_reset [5] = none :=
  ⟨⟨_, _, _, _, rfl, rfl, rfl, rfl, rfl, rfl, rfl, rfl,
    fun heq => Option.some_ne_none (0 : Fin NUMBER_OF_CHANNELS)
      (congrArg (fun t : channel_table => t.i_stream_channel 5) heq)⟩,
   rfl⟩

/-- Claim C11, amended.  A stream-reset notification flagged DENIED or FAILED leaves every
peer connection as it is.  For a notification with neither flag, on a peer connection whose
index tables agree with the channel records, whose pending-reset buffer is well formed and
whose `o_stream` fields are below `NUMBER_OF_STREAMS`, `handle_stream_reset_event` returns,
and the resulting channel table is the one the per-id rule of the spec gives when the listed
ids are processed in order. -/
theorem handle_stream_reset_event_refines (pc : peer_connection) (flags : strreset_flags)
    (list : List Nat) :
    (flags.denied = true ∨ flags.failed = true →
      handle_stream_reset_event pc flags list = some pc) ∧
    (flags.denied = false → flags.failed = false → tables_agree pc →
      ∃ pc1, handle_stream_reset_event pc flags list = some pc1 ∧ tables_agree pc1 ∧
        pc1.table = spec_stream_reset flags pc.table list) := by
  constructor
  · intro h
    unfold handle_stream_reset_event
    rcases h with h | h <;> simp [h]
  · intro hd hf hag
    unfold handle_stream_reset_event
    simp only [hd, hf, Bool.not_false, Bool.and_self, if_true]
    exact strreset_loop_table flags list pc hag

/-- Claim C11, amended, for the OPEN channel on streams (5, 1): a notification flagged
INCOMING and OUTGOING that lists 5 and 1 is handled as the spec's rule says, and the same
notification flagged DENIED changes nothing. -/
theorem handle_stream_reset_event_refines_witness :
    handle_stream_reset_event established_world.pc denied_reset [5, 1] =
      some established_world.pc ∧
    tables_agree established_world.pc ∧
    ∃ pc1, handle_stream_reset_event established_world.pc both_reset [5, 1] = some pc1 ∧
      pc1.table = spec_stream_reset both_reset established_world.pc.table [5, 1] := by
  have hag : tables_agree established_world.pc := by
    refine ⟨?_, ?_, ?_, ?_⟩
    · intro s c h
      have hs : s = 5 ∧ c = 0 := by
        simp only [established_world, init_peer_connection, setAt] at h
        split at h
        · rename_i hs5; exact ⟨hs5, by simpa using h.symm⟩
        · simp at h
      obtain ⟨rfl, rfl⟩ := hs
      rfl
    · intro s c h
      have hs : s = 1 ∧ c = 0 := by
        simp only [established_world, init_peer_connection, setAt] at h
        split at h
        · rename_i hs1; exact ⟨hs1, by simpa using h.symm⟩
        · simp at h
      obtain ⟨rfl, rfl⟩ := hs
      rfl
    · exact ⟨Nat.zero_le _, fun m _ hm => absurd hm (Nat.not_lt_zero _),
        fun m hm => absurd hm (Nat.not_lt_zero _)⟩
    · intro c
      simp only [established_world, init_peer_connection, setAt]
      split <;> simp
  obtain ⟨pc1, h1, -, ht⟩ :=
    (handle_stream_reset_event_refines established_world.pc both_reset [5, 1]).2 rfl rfl hag
  exact ⟨(handle_stream_reset_event_refines established_world.pc denied_reset [5, 1]).1
    (Or.inl rfl), hag, pc1, h1, ht⟩

/-! ## Stream-change notifications -/

set_option maxRecDepth 100000 in
/-- Claim C12 fails on the code.  Channel 0 holds outbound stream 1 and channel 1 waits for a
stream.  When the transport reports 2 outbound streams no id is free and a granted
stream-change notification changes no peer-connection state and sends nothing; when the
transport reports 0 outbound streams, `find_free_o_stream` returns 1 and the same
notification sends an OpenRequest on stream 1 and binds channel 1 to it, so that both
channels have `o_stream = 1` and `o_stream_channel[1]` refers to channel 1. -/
theorem stream_change_binds_bound_stream :
    find_channel_by_o_stream pending_world.pc 1 = some 0 ∧
    handle_stream_change_event (sock_accepting 2) pending_world granted =
      some { pending_world with calls := 1 } ∧
    (find_free_o_stream (sock_accepting 0) pending_world).1 = 1 ∧
    ∃ w : World,
      handle_stream_change_event (sock_accepting 0) pending_world granted = some w ∧
      w.trace = [Event.sendv 1 [0, 0, 0, 0, 0, 0, 0, 0] DATA_CHANNEL_PPID_CONTROL false none] ∧
      (w.pc.channels 1).state = DATA_CHANNEL_CONNECTING ∧ (w.pc.channels 1).o_stream = 1 ∧
      (w.pc.channels 0).state = DATA_CHANNEL_CONNECTING ∧ (w.pc.channels 0).o_stream = 1 ∧
      find_channel_by_o_stream w.pc 1 = some 1 :=
  ⟨rfl, rfl, rfl, _, rfl, rfl, rfl, rfl, rfl, rfl, rfl⟩


/-! ## Safety of the pending-reset buffer in reachable worlds -/

/-- The sending functions do not touch the peer connection. -/
theorem send_open_request_message_pc (sock : Socket) (w : World)
    (o_stream unordered pr_policy pr_value : Nat) :
    (send_open_request_message sock w o_stream unordered pr_policy pr_value).2.pc = w.pc := by
  unfold send_open_request_message usrsctp_sendv
  simp only
  split <;> rfl

/-- The initial peer connection is safe. -/
theorem buffer_safe_init : buffer_safe init_peer_connection :=
  ⟨⟨Nat.zero_le _, fun m _ hm => absurd hm (Nat.not_lt_zero _),
      fun m hm => absurd hm (Nat.not_lt_zero _)⟩,
    fun _ => (by decide : (0 : Nat) < NUMBER_OF_STREAMS),
    fun _ => (by decide : (0 : Nat) < NUMBER_OF_STREAMS), rfl⟩

/-- Safety carries over to a peer connection with the same buffer whose stream ids are in
range and whose `o_stream_channel[0]` is absent. -/
theorem buffer_safe_of (pc pc2 : peer_connection) (h : buffer_safe pc)
    (hb : pc2.o_stream_buffer = pc.o_stream_buffer)
    (hc : pc2.o_stream_buffer_counter = pc.o_stream_buffer_counter)
    (ho : ∀ k, (pc2.channels k).o_stream < NUMBER_OF_STREAMS)
    (hi : ∀ k, (pc2.channels k).i_stream < NUMBER_OF_STREAMS)
    (hz : pc2.o_stream_channel 0 = none) : buffer_safe pc2 := by
  refine ⟨?_, ho, hi, hz⟩
  unfold pending_resets_ok
  rw [hb, hc]
  exact h.pending

/-- A write to a nonzero index of a stream table does not bind stream 0. -/
theorem setAt_zero_none (a : Fin NUMBER_OF_STREAMS → Option (Fin NUMBER_OF_CHANNELS)) (o : Nat)
    (h : o < NUMBER_OF_STREAMS) (ho : o ≠ 0) (v : Option (Fin NUMBER_OF_CHANNELS))
    (hz : a 0 = none) : setAt a ⟨o, h⟩ v 0 = none := by
  have hne : (0 : Fin NUMBER_OF_STREAMS) ≠ ⟨o, h⟩ := fun e => ho (congrArg Fin.val e).symm
  rw [setAt_ne a ⟨o, h⟩ 0 v hne]
  exact hz

/-- A property of all entries of an array still holds after an assignment of a value that has
it. -/
theorem setAt_forall {n : Nat} {α : Type} (P : α → Prop) (a : Fin n → α) (i : Fin n) (v : α)
    (ha : ∀ k, P (a k)) (hv : P v) : ∀ k, P (setAt a i v k) := by
  intro k
  simp only [setAt]
  split
  · exact hv
  · exact ha k

/-- The function `open_channel` keeps the peer connection safe. -/
theorem open_channel_safe (sock : Socket) (w w2 : World) (unordered pr_policy pr_value : Nat)
    (r : Option (Fin NUMBER_OF_CHANNELS))
    (h : open_channel sock w unordered pr_policy pr_value = some (r, w2))
    (hs : buffer_safe w.pc) : buffer_safe w2.pc := by
  unfold open_channel at h
  split_ifs at h with h1 h2 h3
  · simp only [Option.some.injEq, Prod.mk.injEq] at h
    rw [← h.2]; exact hs
  · simp only [Option.some.injEq, Prod.mk.injEq] at h
    rw [← h.2]; exact hs
  · simp only [Option.some.injEq, Prod.mk.injEq] at h
    rw [← h.2]; exact hs
  · split at h
    · simp only [Option.some.injEq, Prod.mk.injEq] at h
      rw [← h.2]; exact hs
    · rename_i c hc
      have hlt := find_free_o_stream_lt sock w
      have hw1 := find_free_o_stream_world sock w
      rcases hfs : find_free_o_stream sock w with ⟨o, w1⟩
      rw [hfs] at hlt hw1
      simp only at hlt hw1
      simp only [hfs] at h
      subst hw1
      by_cases ho : o = 0
      · subst ho
        simp only [if_true, ne_eq, not_true_eq_false, if_false, Option.some.injEq,
          Prod.mk.injEq] at h
        rw [← h.2, request_more_o_streams_pc]
        exact buffer_safe_of w.pc _ hs rfl rfl
          (setAt_forall (fun ch : channel => ch.o_stream < NUMBER_OF_STREAMS) _ _ _ hs.o_range
            hlt)
          (setAt_forall (fun ch : channel => ch.i_stream < NUMBER_OF_STREAMS) _ _ _ hs.i_range
            (hs.i_range c))
          hs.o_zero
      · simp only [if_neg ho] at h
        have hp := send_open_request_message_pc sock { w with calls := w.calls + 1 } o unordered
          pr_policy pr_value
        generalize send_open_request_message sock { w with calls := w.calls + 1 } o unordered
          pr_policy pr_value = res at h hp
        obtain ⟨b, w3⟩ := res
        simp only at h hp
        cases b
        · simp only [Bool.false_eq_true, if_false, Option.some.injEq, Prod.mk.injEq] at h
          rw [← h.2, hp]; exact hs
        · simp only [if_true, ne_eq, ho, not_false_eq_true, dif_pos hlt, Option.some.injEq,
            Prod.mk.injEq] at h
          rw [← h.2, hp]
          exact buffer_safe_of w.pc _ hs rfl rfl
            (setAt_forall (fun ch : channel => ch.o_stream < NUMBER_OF_STREAMS) _ _ _ hs.o_range
              hlt)
            (setAt_forall (fun ch : channel => ch.i_stream < NUMBER_OF_STREAMS) _ _ _ hs.i_range
              (hs.i_range c))
            (setAt_zero_none _ o hlt ho _ hs.o_zero)

/-- The function `handle_open_request_message` keeps the peer connection safe. -/
theorem handle_open_request_message_safe (sock : Socket) (w w2 : World) (req : List Nat)
    (i_stream : Nat) (h : handle_open_request_message sock w req i_stream = some w2)
    (hs : buffer_safe w.pc) : buffer_safe w2.pc := by
  unfold handle_open_request_message at h
  split at h
  · simp only [Option.some.injEq] at h
    rw [← h]; exact hs
  · split at h
    · simp only [Option.some.injEq] at h
      rw [← h]; exact hs
    · rename_i c hc
      have hlt := find_free_o_stream_lt sock w
      have hw1 := find_free_o_stream_world sock w
      rcases hfs : find_free_o_stream sock w with ⟨o, w1⟩
      rw [hfs] at hlt hw1
      simp only at hlt hw1
      simp only [hfs] at h
      subst hw1
      by_cases ho : o = 0
      · subst ho
        simp only [if_true, ne_eq, not_true_eq_false, if_false] at h
        split at h
        · simp at h
        · split at h
          · rename_i hi
            simp only [Option.some.injEq] at h
            rw [← h, request_more_o_streams_pc]
            exact buffer_safe_of w.pc _ hs rfl rfl
              (setAt_forall (fun ch : channel => ch.o_stream < NUMBER_OF_STREAMS) _ _ _
                hs.o_range (hs.o_range c))
              (setAt_forall (fun ch : channel => ch.i_stream < NUMBER_OF_STREAMS) _ _ _
                hs.i_range hi)
              hs.o_zero
          · simp at h
      · simp only [if_neg ho] at h
        have hp : (send_open_response_message sock { w with calls := w.calls + 1 } o
            i_stream).2.pc = w.pc := rfl
        generalize send_open_response_message sock { w with calls := w.calls + 1 } o
          i_stream = res at h hp
        obtain ⟨b, w3⟩ := res
        simp only at h hp
        cases b
        · simp only [Bool.false_eq_true, if_false, Option.some.injEq] at h
          rw [← h, hp]; exact hs
        · simp only [if_true, ne_eq, ho, not_false_eq_true, dif_pos hlt] at h
          split at h
          · simp at h
          · split at h
            · rename_i hi
              simp only [Option.some.injEq] at h
              rw [← h, hp]
              exact buffer_safe_of w.pc _ hs rfl rfl
                (setAt_forall (fun ch : channel => ch.o_stream < NUMBER_OF_STREAMS) _ _ _
                  (setAt_forall (fun ch : channel => ch.o_stream < NUMBER_OF_STREAMS) _ _ _
                    hs.o_range (hs.o_range c))
                  hlt)
                (setAt_forall (fun ch : channel => ch.i_stream < NUMBER_OF_STREAMS) _ _ _
                  (setAt_forall (fun ch : channel => ch.i_stream < NUMBER_OF_STREAMS) _ _ _
                    hs.i_range hi)
                  hi)
                (setAt_zero_none _ o hlt ho _ hs.o_zero)
            · simp at h

/-- The function `handle_open_response_message` keeps the peer connection safe. -/
theorem handle_open_response_message_safe (sock : Socket) (w w2 : World) (rsp : List Nat)
    (i_stream : Nat) (h : handle_open_response_message sock w rsp i_stream = some w2)
    (hs : buffer_safe w.pc) : buffer_safe w2.pc := by
  unfold handle_open_response_message at h
  simp only at h
  split at h
  · simp at h
  · rename_i c hc
    split at h
    · rename_i hi
      simp only [Option.some.injEq] at h
      rw [← h]
      exact buffer_safe_of w.pc _ hs rfl rfl
        (setAt_forall (fun ch : channel => ch.o_stream < NUMBER_OF_STREAMS) _ _ _
          hs.o_range (hs.o_range c))
        (setAt_forall (fun ch : channel => ch.i_stream < NUMBER_OF_STREAMS) _ _ _
          hs.i_range hi)
        hs.o_zero
    · simp at h

/-- The function `handle_open_ack_message` keeps the peer connection safe. -/
theorem handle_open_ack_message_safe (w w2 : World) (i_stream : Nat)
    (h : handle_open_ack_message w i_stream = some w2) (hs : buffer_safe w.pc) :
    buffer_safe w2.pc := by
  unfold handle_open_ack_message at h
  split at h
  · simp at h
  · rename_i c hc
    split_ifs at h
    · simp only [Option.some.injEq] at h
      rw [← h]; exact hs
    · simp only [Option.some.injEq] at h
      rw [← h]; exact hs
    · simp only [Option.some.injEq] at h
      rw [← h]
      exact buffer_safe_of w.pc _ hs rfl rfl
        (setAt_forall (fun ch : channel => ch.o_stream < NUMBER_OF_STREAMS) _ _ _
          hs.o_range (hs.o_range c))
        (setAt_forall (fun ch : channel => ch.i_stream < NUMBER_OF_STREAMS) _ _ _
          hs.i_range (hs.i_range c))
        hs.o_zero

/-- The function `handle_data_message` keeps the peer connection safe. -/
theorem handle_data_message_safe (w : World) (buffer : List Nat) (i_stream : Nat)
    (hs : buffer_safe w.pc) : buffer_safe (handle_data_message w buffer i_stream).pc := by
  unfold handle_data_message
  split
  · exact hs
  · rename_i c hc
    by_cases hst : (w.pc.channels c).state = DATA_CHANNEL_CONNECTING
    · simp only [hst, if_true]
      split <;>
        exact buffer_safe_of w.pc _ hs rfl rfl
          (setAt_forall (fun ch : channel => ch.o_stream < NUMBER_OF_STREAMS) _ _ _
            hs.o_range (hs.o_range c))
          (setAt_forall (fun ch : channel => ch.i_stream < NUMBER_OF_STREAMS) _ _ _
            hs.i_range (hs.i_range c))
          hs.o_zero
    · simp only [if_neg hst]
      split <;> exact hs

/-- The function `handle_message` keeps the peer connection safe. -/
theorem handle_message_safe (sock : Socket) (w w2 : World) (buffer : List Nat)
    (ppid i_stream : Nat) (h : handle_message sock w buffer ppid i_stream = some w2)
    (hs : buffer_safe w.pc) : buffer_safe w2.pc := by
  unfold handle_message at h
  split_ifs at h
  all_goals first
    | (simp only [Option.some.injEq] at h; rw [← h]; first
        | exact hs
        | exact handle_data_message_safe w buffer i_stream hs)
    | exact handle_open_request_message_safe sock w w2 buffer i_stream h hs
    | exact handle_open_response_message_safe sock w w2 buffer i_stream h hs
    | exact handle_open_ack_message_safe w w2 i_stream h hs

/-- On a safe peer connection `reset_outgoing_stream` for a stream id in range returns, the
result is safe, and an entry is appended only when the counter is below
`NUMBER_OF_STREAMS`. -/
theorem reset_outgoing_stream_safe (pc : peer_connection) (o : Nat) (hs : buffer_safe pc)
    (ho : o < NUMBER_OF_STREAMS) :
    ∃ pc1, reset_outgoing_stream pc o = some pc1 ∧ buffer_safe pc1 ∧
      pc1.channels = pc.channels ∧
      (pc1 = pc ∨
        (pc.o_stream_buffer_counter < NUMBER_OF_STREAMS ∧
          pc1.o_stream_buffer_counter = pc.o_stream_buffer_counter + 1)) := by
  obtain ⟨pc1, h1, hok1, hch, hi, hob, -⟩ := reset_outgoing_stream_ok pc o hs.pending ho
  refine ⟨pc1, h1, ⟨hok1, ?_, ?_, ?_⟩, hch, ?_⟩
  · intro k; rw [hch]; exact hs.o_range k
  · intro k; rw [hch]; exact hs.i_range k
  · rw [hob]; exact hs.o_zero
  · unfold reset_outgoing_stream at h1
    split at h1
    · simp at h1
    · simp only [Option.some.injEq] at h1
      exact Or.inl h1.symm
    · split at h1
      · rename_i hroom
        simp only [Option.some.injEq] at h1
        subst h1
        exact Or.inr ⟨hroom, rfl⟩
      · simp at h1

/-- On a safe peer connection `send_outgoing_stream_reset` returns and the result is safe,
whatever the allocator and the transport answer. -/
theorem send_outgoing_stream_reset_safe (sock : Socket) (w : World) (hs : buffer_safe w.pc) :
    ∃ w1, send_outgoing_stream_reset sock w = some w1 ∧ buffer_safe w1.pc := by
  obtain ⟨w1, h1, hch, hi, ho, hb, hc⟩ := send_outgoing_stream_reset_ok sock w hs.pending.1
  refine ⟨w1, h1, ⟨?_, ?_, ?_, ?_⟩⟩
  · unfold pending_resets_ok
    rw [hb]
    rcases hc with hc | hc
    · rw [hc]; exact hs.pending
    · rw [hc]
      exact ⟨Nat.zero_le _, fun m _ hm => absurd hm (Nat.not_lt_zero _),
        fun m hm => absurd hm (Nat.not_lt_zero _)⟩
  · intro k; rw [hch]; exact hs.o_range k
  · intro k; rw [hch]; exact hs.i_range k
  · rw [ho]; exact hs.o_zero

/-- On a safe peer connection `close_channel` returns and the result is safe. -/
theorem close_channel_safe (sock : Socket) (w : World) (c : Fin NUMBER_OF_CHANNELS)
    (hs : buffer_safe w.pc) :
    ∃ w2, close_channel sock w (some c) = some w2 ∧ buffer_safe w2.pc := by
  unfold close_channel
  simp only
  split
  · exact ⟨w, rfl, hs⟩
  · obtain ⟨pc1, h1, hs1, -, -⟩ :=
      reset_outgoing_stream_safe w.pc (w.pc.channels c).o_stream hs (hs.o_range c)
    rw [h1]
    obtain ⟨w2, h2, hs2⟩ := send_outgoing_stream_reset_safe sock { w with pc := pc1 } hs1
    simp only [h2]
    exact ⟨_, rfl, buffer_safe_of w2.pc _ hs2 rfl rfl
      (setAt_forall (fun ch : channel => ch.o_stream < NUMBER_OF_STREAMS) _ _ _
        hs2.o_range (hs2.o_range c))
      (setAt_forall (fun ch : channel => ch.i_stream < NUMBER_OF_STREAMS) _ _ _
        hs2.i_range (hs2.i_range c))
      hs2.o_zero⟩

/-- On a safe peer connection the incoming half of a round returns and the result is safe. -/
theorem strreset_incoming_safe (pc : peer_connection) (s : Nat) (hs : buffer_safe pc) :
    ∃ pc1, strreset_incoming pc s = some pc1 ∧ buffer_safe pc1 := by
  unfold strreset_incoming
  split
  · exact ⟨pc, rfl, hs⟩
  · rename_i c hc
    simp only [dif_pos (hs.i_range c)]
    have hs1 : buffer_safe
        { pc with
          i_stream_channel :=
            setAt pc.i_stream_channel ⟨(pc.channels c).i_stream, hs.i_range c⟩ none,
          channels := setAt pc.channels c { pc.channels c with i_stream := 0 } } :=
      buffer_safe_of pc _ hs rfl rfl
        (setAt_forall (fun ch : channel => ch.o_stream < NUMBER_OF_STREAMS) _ _ _
          hs.o_range (hs.o_range c))
        (setAt_forall (fun ch : channel => ch.i_stream < NUMBER_OF_STREAMS) _ _ _
          hs.i_range (by decide : (0 : Nat) < NUMBER_OF_STREAMS))
        hs.o_zero
    split
    · exact ⟨_, rfl, buffer_safe_of _ _ hs1 rfl rfl
        (setAt_forall (fun ch : channel => ch.o_stream < NUMBER_OF_STREAMS) _ _ _
          hs1.o_range (hs.o_range c))
        (setAt_forall (fun ch : channel => ch.i_stream < NUMBER_OF_STREAMS) _ _ _
          hs1.i_range (by decide : (0 : Nat) < NUMBER_OF_STREAMS))
        hs.o_zero⟩
    · obtain ⟨pc2, h2, hs2, -, -⟩ :=
        reset_outgoing_stream_safe _ (pc.channels c).o_stream hs1 (hs.o_range c)
      simp only [h2]
      exact ⟨_, rfl, buffer_safe_of pc2 _ hs2 rfl rfl
        (setAt_forall (fun ch : channel => ch.o_stream < NUMBER_OF_STREAMS) _ _ _
          hs2.o_range (hs2.o_range c))
        (setAt_forall (fun ch : channel => ch.i_stream < NUMBER_OF_STREAMS) _ _ _
          hs2.i_range (hs2.i_range c))
        hs2.o_zero⟩

/-- On a safe peer connection the outgoing half of a round returns and the result is safe. -/
theorem strreset_outgoing_safe (pc : peer_connection) (s : Nat) (hs : buffer_safe pc) :
    ∃ pc1, strreset_outgoing pc s = some pc1 ∧ buffer_safe pc1 := by
  unfold strreset_outgoing
  split
  · exact ⟨pc, rfl, hs⟩
  · rename_i c hc
    simp only [dif_pos (hs.o_range c)]
    have hz : setAt pc.o_stream_channel ⟨(pc.channels c).o_stream, hs.o_range c⟩ none 0 =
        none := by
      simp only [setAt]
      split
      · rfl
      · exact hs.o_zero
    have hs1 : buffer_safe
        { pc with
          o_stream_channel :=
            setAt pc.o_stream_channel ⟨(pc.channels c).o_stream, hs.o_range c⟩ none,
          channels := setAt pc.channels c { pc.channels c with o_stream := 0 } } :=
      buffer_safe_of pc _ hs rfl rfl
        (setAt_forall (fun ch : channel => ch.o_stream < NUMBER_OF_STREAMS) _ _ _
          hs.o_range (by decide : (0 : Nat) < NUMBER_OF_STREAMS))
        (setAt_forall (fun ch : channel => ch.i_stream < NUMBER_OF_STREAMS) _ _ _
          hs.i_range (hs.i_range c))
        hz
    split
    · exact ⟨_, rfl, buffer_safe_of _ _ hs1 rfl rfl
        (setAt_forall (fun ch : channel => ch.o_stream < NUMBER_OF_STREAMS) _ _ _
          hs1.o_range (by decide : (0 : Nat) < NUMBER_OF_STREAMS))
        (setAt_forall (fun ch : channel => ch.i_stream < NUMBER_OF_STREAMS) _ _ _
          hs1.i_range (hs.i_range c))
        hz⟩
    · exact ⟨_, rfl, hs1⟩

/-- On a safe peer connection `handle_stream_reset_event` returns and the result is safe. -/
theorem handle_stream_reset_event_safe (flags : strreset_flags) (list : List Nat)
    (pc : peer_connection) (hs : buffer_safe pc) :
    ∃ pc1, handle_stream_reset_event pc flags list = some pc1 ∧ buffer_safe pc1 := by
  have hround : ∀ (pc : peer_connection) (s : Nat), buffer_safe pc →
      ∃ pc1, strreset_round flags pc s = some pc1 ∧ buffer_safe pc1 := by
    intro pc s hs
    unfold strreset_round
    cases flags.incoming_ssn with
    | false =>
      simp only [Bool.false_eq_true, if_false]
      cases flags.outgoing_ssn with
      | false => exact ⟨pc, by simp, hs⟩
      | true => simpa using strreset_outgoing_safe pc s hs
    | true =>
      obtain ⟨pc1, h1, hs1⟩ := strreset_incoming_safe pc s hs
      simp only [if_true, h1]
      cases flags.outgoing_ssn with
      | false => exact ⟨pc1, by simp, hs1⟩
      | true => simpa using strreset_outgoing_safe pc1 s hs1
  have hloop : ∀ (list : List Nat) (pc : peer_connection), buffer_safe pc →
      ∃ pc1, strreset_loop flags pc list = some pc1 ∧ buffer_safe pc1 := by
    intro list
    induction list with
    | nil => exact fun pc hs => ⟨pc, rfl, hs⟩
    | cons s rest ih =>
      intro pc hs
      obtain ⟨pc1, h1, hs1⟩ := hround pc s hs
      obtain ⟨pc2, h2, hs2⟩ := ih pc1 hs1
      exact ⟨pc2, by simp only [strreset_loop, h1]; exact h2, hs2⟩
  unfold handle_stream_reset_event
  split
  · exact hloop list pc hs
  · exact ⟨pc, rfl, hs⟩

/-- On a safe peer connection the loop of `handle_stream_change_event` returns and the result
is safe. -/
theorem strchange_loop_safe (sock : Socket) (flags : strchange_flags) (k : Nat) (w : World)
    (i : Nat) (hs : buffer_safe w.pc) :
    ∃ w2, strchange_loop sock flags w i k = some w2 ∧ buffer_safe w2.pc := by
  induction k generalizing w i with
  | zero => exact ⟨w, rfl, hs⟩
  | succ k ih =>
    unfold strchange_loop
    split
    · rename_i hi
      simp only
      have hcleared : buffer_safe
          { w.pc with
            channels := setAt w.pc.channels ⟨i, hi⟩
              { (w.pc.channels ⟨i, hi⟩).cleared with o_stream := 0 } } :=
        buffer_safe_of w.pc _ hs rfl rfl
          (setAt_forall (fun ch : channel => ch.o_stream < NUMBER_OF_STREAMS) _ _ _
            hs.o_range (by decide : (0 : Nat) < NUMBER_OF_STREAMS))
          (setAt_forall (fun ch : channel => ch.i_stream < NUMBER_OF_STREAMS) _ _ _
            hs.i_range (hs.i_range ⟨i, hi⟩))
          hs.o_zero
      split
      · split
        · exact ih _ (i + 1) hcleared
        · have hlt := find_free_o_stream_lt sock w
          have hw1 := find_free_o_stream_world sock w
          rcases hfs : find_free_o_stream sock w with ⟨o, w1⟩
          rw [hfs] at hlt hw1
          simp only at hlt hw1
          subst hw1
          simp only
          by_cases ho : o = 0
          · simp only [ho, ne_eq, not_true_eq_false, if_false]
            exact ⟨_, rfl, hs⟩
          · simp only [ne_eq, ho, not_false_eq_true, if_true]
            have hp : (if (w.pc.channels ⟨i, hi⟩).i_stream ≠ 0 then
                  send_open_response_message sock { w with calls := w.calls + 1 } o
                    (w.pc.channels ⟨i, hi⟩).i_stream
                else
                  send_open_request_message sock { w with calls := w.calls + 1 } o
                    (w.pc.channels ⟨i, hi⟩).unordered (w.pc.channels ⟨i, hi⟩).pr_policy
                    (w.pc.channels ⟨i, hi⟩).pr_value).2.pc = w.pc := by
              split
              · rfl
              · exact send_open_request_message_pc _ _ _ _ _ _
            generalize (if (w.pc.channels ⟨i, hi⟩).i_stream ≠ 0 then
                  send_open_response_message sock { w with calls := w.calls + 1 } o
                    (w.pc.channels ⟨i, hi⟩).i_stream
                else
                  send_open_request_message sock { w with calls := w.calls + 1 } o
                    (w.pc.channels ⟨i, hi⟩).unordered (w.pc.channels ⟨i, hi⟩).pr_policy
                    (w.pc.channels ⟨i, hi⟩).pr_value) = res at hp
            obtain ⟨b, w3⟩ := res
            simp only at hp
            have hs3 : buffer_safe w3.pc := by rw [hp]; exact hs
            cases b
            · simp only [Bool.false_eq_true, if_false]
              split
              · exact ih _ (i + 1) hs3
              · refine ih _ (i + 1) ?_
                rw [hp]
                exact hcleared
            · simp only [if_true, dif_pos hlt]
              refine ih _ (i + 1) ?_
              have hc3 : w3.pc.channels = w.pc.channels := by rw [hp]
              have ho3 : w3.pc.o_stream_channel = w.pc.o_stream_channel := by rw [hp]
              exact buffer_safe_of w3.pc _ hs3 rfl rfl
                (setAt_forall (fun ch : channel => ch.o_stream < NUMBER_OF_STREAMS) _ _ _
                  hs3.o_range hlt)
                (setAt_forall (fun ch : channel => ch.i_stream < NUMBER_OF_STREAMS) _ _ _
                  hs3.i_range (hs.i_range ⟨i, hi⟩))
                (setAt_zero_none _ o hlt ho _ hs3.o_zero)
      · exact ih w (i + 1) hs
    · exact ⟨w, rfl, hs⟩

/-- On a safe peer connection `handle_notification` returns and the result is safe, for every
notification but a peer address change with an address family that the handler does not
know. -/
theorem handle_notification_safe (sock : Socket) (w : World) (sn_length : Nat)
    (notif : sctp_notification) (n : Nat) (hs : buffer_safe w.pc)
    (hn : notif ≠ sctp_notification.peer_addr_change false) :
    ∃ w2, handle_notification sock w sn_length notif n = some w2 ∧ buffer_safe w2.pc := by
  unfold handle_notification
  split
  · exact ⟨w, rfl, hs⟩
  · split
    · rename_i inet_family
      cases inet_family with
      | false => exact absurd rfl hn
      | true => exact ⟨w, rfl, hs⟩
    · rename_i flags list
      obtain ⟨pc1, h1, hs1⟩ := handle_stream_reset_event_safe flags list w.pc hs
      obtain ⟨w2, h2, hs2⟩ := send_outgoing_stream_reset_safe sock { w with pc := pc1 } hs1
      simp only [h1, h2]
      exact ⟨_, rfl, by rw [request_more_o_streams_pc]; exact hs2⟩
    · rename_i flags
      obtain ⟨w1, h1, hs1⟩ := strchange_loop_safe sock flags NUMBER_OF_CHANNELS w 0 hs
      obtain ⟨w2, h2, hs2⟩ := send_outgoing_stream_reset_safe sock w1 hs1
      simp only [handle_stream_change_event, h1, h2]
      exact ⟨_, rfl, by rw [request_more_o_streams_pc]; exact hs2⟩
    · exact ⟨w, rfl, hs⟩

/-- Whenever `handle_notification` returns on a safe peer connection, the result is safe. -/
theorem handle_notification_keeps_safe (sock : Socket) (w w2 : World) (sn_length : Nat)
    (notif : sctp_notification) (n : Nat)
    (h : handle_notification sock w sn_length notif n = some w2) (hs : buffer_safe w.pc) :
    buffer_safe w2.pc := by
  by_cases hn : notif = sctp_notification.peer_addr_change false
  · subst hn
    unfold handle_notification at h
    split at h
    · simp only [Option.some.injEq] at h
      rw [← h]; exact hs
    · simp at h
  · obtain ⟨w3, h3, hs3⟩ := handle_notification_safe sock w sn_length notif n hs hn
    rw [h] at h3
    simp only [Option.some.injEq] at h3
    rw [h3]; exact hs3

/-- The function `send_user_message` does not touch the peer connection. -/
theorem send_user_message_pc (sock : Socket) (w : World)
    (channel : Option (Fin NUMBER_OF_CHANNELS)) (message : List Nat) :
    (send_user_message sock w channel message).2.pc = w.pc := by
  unfold send_user_message
  split
  · rfl
  · simp only
    split <;> rfl

/-- Every reachable world is safe: the pending-reset buffer is well formed, every stream id
stored in a channel is below `NUMBER_OF_STREAMS`, and `o_stream_channel[0]` is absent. -/
theorem reachable_safe (sock : Socket) (w : World) (h : reachable sock w) :
    buffer_safe w.pc := by
  induction h with
  | init => exact buffer_safe_init
  | open_channel unordered pr_policy pr_value r w2 _ _ _ _ heq ih =>
    exact open_channel_safe sock _ w2 unordered pr_policy pr_value r heq ih
  | send_user_message c message _ ih =>
    rw [send_user_message_pc]; exact ih
  | close_channel c w2 _ heq ih =>
    obtain ⟨w3, h3, hs3⟩ := close_channel_safe sock _ c ih
    rw [heq] at h3
    simp only [Option.some.injEq] at h3
    rw [h3]; exact hs3
  | handle_message buffer ppid i_stream w2 _ _ _ heq ih =>
    exact handle_message_safe sock _ w2 buffer ppid i_stream heq ih
  | handle_notification sn_length notif n w2 _ _ heq ih =>
    exact handle_notification_keeps_safe sock _ w2 sn_length notif n heq ih


/-! ## The stream allocator with a sound stream count -/

/-- When the status query fails, `find_free_o_stream` returns 0. -/
theorem find_free_o_stream_query_fails (sock : Socket) (w : World)
    (hst : (sock w.calls).status = none) : (find_free_o_stream sock w).1 = 0 := by
  unfold find_free_o_stream usrsctp_getsockopt_status
  rw [hst]
  rfl

/-- When the transport reports at least one outbound stream, `find_free_o_stream` returns the
first id from 1 to L - 1 that is not bound, L being the smaller of the reported count and
`NUMBER_OF_STREAMS`, and 0 when all of them are bound. -/
theorem find_free_o_stream_first (sock : Socket) (w : World) (n : Nat)
    (hst : (sock w.calls).status = some n) (hn : 1 ≤ n % 65536) :
    ((find_free_o_stream sock w).1 ≠ 0 →
      1 ≤ (find_free_o_stream sock w).1 ∧
      (find_free_o_stream sock w).1 < min (n % 65536) NUMBER_OF_STREAMS ∧
      find_channel_by_o_stream w.pc (find_free_o_stream sock w).1 = none ∧
      ∀ s, 1 ≤ s → s < (find_free_o_stream sock w).1 →
        find_channel_by_o_stream w.pc s ≠ none) ∧
    ((find_free_o_stream sock w).1 = 0 →
      ∀ s, 1 ≤ s → s < min (n % 65536) NUMBER_OF_STREAMS →
        find_channel_by_o_stream w.pc s ≠ none) := by
  have hfree : ∀ s, o_stream_is_free w.pc s = true →
      s < NUMBER_OF_STREAMS ∧ find_channel_by_o_stream w.pc s = none := by
    intro s h
    unfold o_stream_is_free at h
    split at h
    · rename_i hs
      exact ⟨hs, by simpa [find_channel_by_o_stream, hs, Option.isNone_iff_eq_none] using h⟩
    · simp at h
  have hbound : ∀ s, s < NUMBER_OF_STREAMS → o_stream_is_free w.pc s = false →
      find_channel_by_o_stream w.pc s ≠ none := by
    intro s hs h
    unfold o_stream_is_free at h
    simp only [dif_pos hs] at h
    simp only [find_channel_by_o_stream, dif_pos hs]
    intro hnone
    rw [hnone] at h
    simp at h
  have key : ∀ limit, 1 ≤ limit → limit ≤ NUMBER_OF_STREAMS →
      (let i := scan (o_stream_is_free w.pc) 1 (limit - 1)
       let r := if i = limit then 0 else i % 65536
       (r ≠ 0 → 1 ≤ r ∧ r < limit ∧ find_channel_by_o_stream w.pc r = none ∧
          ∀ s, 1 ≤ s → s < r → find_channel_by_o_stream w.pc s ≠ none) ∧
       (r = 0 → ∀ s, 1 ≤ s → s < limit → find_channel_by_o_stream w.pc s ≠ none)) := by
    intro limit h1 h100
    have hge := scan_ge (o_stream_is_free w.pc) (limit - 1) 1
    have hle := scan_le (o_stream_is_free w.pc) (limit - 1) 1
    simp only
    by_cases hi : scan (o_stream_is_free w.pc) 1 (limit - 1) = limit
    · simp only [hi, if_true, ne_eq, not_true_eq_false, false_implies, true_and,
        forall_true_left]
      intro s hs1 hs2
      exact hbound s (by omega)
        (scan_before (o_stream_is_free w.pc) (limit - 1) 1 s hs1 (by omega))
    · have hlt : scan (o_stream_is_free w.pc) 1 (limit - 1) < limit := by omega
      have hmod : scan (o_stream_is_free w.pc) 1 (limit - 1) % 65536 =
          scan (o_stream_is_free w.pc) 1 (limit - 1) := by
        apply Nat.mod_eq_of_lt
        simp only [NUMBER_OF_STREAMS] at h100
        omega
      simp only [if_neg hi, hmod]
      have hhit := scan_hit (o_stream_is_free w.pc) (limit - 1) 1 (by omega)
      refine ⟨fun _ => ⟨hge, hlt, (hfree _ hhit).2, ?_⟩, fun h0 => by omega⟩
      intro s hs1 hs2
      exact hbound s (by omega) (scan_before (o_stream_is_free w.pc) (limit - 1) 1 s hs1 hs2)
  have hval : (find_free_o_stream sock w).1 =
      (if scan (o_stream_is_free w.pc) 1 (min (n % 65536) NUMBER_OF_STREAMS - 1) =
          min (n % 65536) NUMBER_OF_STREAMS then 0
        else scan (o_stream_is_free w.pc) 1 (min (n % 65536) NUMBER_OF_STREAMS - 1) %
          65536) := by
    unfold find_free_o_stream usrsctp_getsockopt_status
    rw [hst]
    simp only [Option.map_some']
    have hmin : (if n % 65536 < NUMBER_OF_STREAMS then n % 65536 else NUMBER_OF_STREAMS) =
        min (n % 65536) NUMBER_OF_STREAMS := by
      split <;> omega
    rw [hmin]
    split <;> rfl
  rw [hval]
  exact key (min (n % 65536) NUMBER_OF_STREAMS) (by simp only [NUMBER_OF_STREAMS]; omega)
    (by omega)

/-- A counting loop over `n` indices counts at most `n`. -/
theorem count_upto_le (p : Nat → Bool) (n : Nat) : count_upto p n ≤ n := by
  induction n with
  | zero => simp [count_upto]
  | succ n ih =>
    unfold count_upto
    split <;> omega

/-- When the transport reports at most `NUMBER_OF_STREAMS` outbound streams,
`request_more_o_streams` asks for the smaller of the number of waiting channels and the room
left below `NUMBER_OF_STREAMS`, and makes no request when that is 0. -/
theorem request_more_o_streams_within_cap (sock : Socket) (w : World) (n : Nat)
    (hst : (sock w.calls).status = some n) (hn : n % 65536 ≤ NUMBER_OF_STREAMS) :
    request_more_o_streams sock w =
      (if min (count_upto (channel_needs_o_stream w.pc) NUMBER_OF_CHANNELS)
          (NUMBER_OF_STREAMS - n % 65536) = 0 then
        { w with calls := w.calls + 1 }
      else
        { w with
          calls := w.calls + 2,
          trace := w.trace ++
            [Event.add_streams 0
              (min (count_upto (channel_needs_o_stream w.pc) NUMBER_OF_CHANNELS)
                (NUMBER_OF_STREAMS - n % 65536))] }) := by
  have hD := count_upto_le (channel_needs_o_stream w.pc) NUMBER_OF_CHANNELS
  unfold request_more_o_streams usrsctp_getsockopt_status usrsctp_setsockopt_add_streams
  rw [hst]
  simp only [Option.map_some']
  generalize count_upto (channel_needs_o_stream w.pc) NUMBER_OF_CHANNELS = D at hD ⊢
  generalize n % 65536 = N at hn ⊢
  simp only [NUMBER_OF_STREAMS, NUMBER_OF_CHANNELS] at *
  have hsum : (N + D) % 4294967296 = N + D := Nat.mod_eq_of_lt (by omega)
  have hcast : ((((100 : Nat) : Int) - (N : Int)) % 4294967296).toNat = 100 - N := by omega
  rw [hsum, hcast]
  by_cases hgt : N + D > 100
  · have hm : min D (100 - N) = 100 - N := by omega
    simp only [hgt, if_true, hm]
    by_cases hz : 100 - N = 0
    · simp [hz]
    · have hmod : (100 - N) % 65536 = 100 - N := Nat.mod_eq_of_lt (by omega)
      simp [hz, hmod]
  · have hm : min D (100 - N) = D := by omega
    simp only [hgt, if_false, hm]
    by_cases hz : D = 0
    · simp [hz]
    · have hmod : D % 65536 = D := Nat.mod_eq_of_lt (by omega)
      simp [hz, hmod]

/-! ## The invariants of the spec in reachable worlds -/

set_option maxRecDepth 100000 in
/-- Claim C21 fails on the code.  With a transport that reports 1 outbound stream, an
OpenRequest on inbound stream 5 leaves channel 0 CONNECTING with `i_stream = 5` and
`o_stream = 0`; a stream-change notification flagged DENIED then makes channel 0 CLOSED with
`i_stream = 5`, and `i_stream_channel[5]` still refers to it. -/
theorem closed_channel_keeps_inbound_stream :
    ∃ w1 w : World,
      handle_message (sock_accepting 1) fresh_world [0, 0, 0, 0, 0, 0, 0, 0]
        DATA_CHANNEL_PPID_CONTROL 5 = some w1 ∧
      (w1.pc.channels 0).state = DATA_CHANNEL_CONNECTING ∧
      (w1.pc.channels 0).i_stream = 5 ∧ (w1.pc.channels 0).o_stream = 0 ∧
      handle_notification (sock_accepting 1) w1 8
        (sctp_notification.stream_change_event { denied := true, failed := false }) 8 =
        some w ∧
      reachable (sock_accepting 1) w ∧
      (w.pc.channels 0).state = DATA_CHANNEL_CLOSED ∧
      (w.pc.channels 0).i_stream = 5 ∧
      find_channel_by_i_stream w.pc 5 = some 0 :=
  ⟨_, _, rfl, rfl, rfl, rfl, rfl,
    reachable.handle_notification 8
      (sctp_notification.stream_change_event { denied := true, failed := false }) 8 _
      (reachable.handle_message [0, 0, 0, 0, 0, 0, 0, 0] DATA_CHANNEL_PPID_CONTROL 5 _
        reachable.init (by decide) (by decide) rfl)
      trivial rfl,
    rfl, rfl, rfl⟩

set_option maxRecDepth 100000 in
/-- Claim C22 fails on the code.  With a transport that reports 1 outbound stream, an
OpenRequest on inbound stream 5 leaves channel 0 CONNECTING with `o_stream = 0`.  An Ack on
inbound stream 5 then makes channel 0 OPEN with `o_stream = 0`; and so does, instead of the
Ack, a DOMSTRING message on inbound stream 5, which is delivered. -/
theorem open_channel_without_outbound_stream :
    ∃ w1 w2 w3 : World,
      handle_message (sock_accepting 1) fresh_world [0, 0, 0, 0, 0, 0, 0, 0]
        DATA_CHANNEL_PPID_CONTROL 5 = some w1 ∧
      (w1.pc.channels 0).state = DATA_CHANNEL_CONNECTING ∧
      (w1.pc.channels 0).i_stream = 5 ∧ (w1.pc.channels 0).o_stream = 0 ∧
      handle_message (sock_accepting 1) w1 [2] DATA_CHANNEL_PPID_CONTROL 5 = some w2 ∧
      reachable (sock_accepting 1) w2 ∧
      (w2.pc.channels 0).state = DATA_CHANNEL_OPEN ∧ (w2.pc.channels 0).o_stream = 0 ∧
      handle_message (sock_accepting 1) w1 [104, 105] DATA_CHANNEL_PPID_DOMSTRING 5 =
        some w3 ∧
      reachable (sock_accepting 1) w3 ∧
      (w3.pc.channels 0).state = DATA_CHANNEL_OPEN ∧ (w3.pc.channels 0).o_stream = 0 ∧
      w3.trace = w1.trace ++ [Event.message_received 2 0 [104, 105]] :=
  ⟨_, _, _, rfl, rfl, rfl, rfl, rfl,
    reachable.handle_message [2] DATA_CHANNEL_PPID_CONTROL 5 _
      (reachable.handle_message [0, 0, 0, 0, 0, 0, 0, 0] DATA_CHANNEL_PPID_CONTROL 5 _
        reachable.init (by decide) (by decide) rfl)
      (by decide) (by decide) rfl,
    rfl, rfl, rfl,
    reachable.handle_message [104, 105] DATA_CHANNEL_PPID_DOMSTRING 5 _
      (reachable.handle_message [0, 0, 0, 0, 0, 0, 0, 0] DATA_CHANNEL_PPID_CONTROL 5 _
        reachable.init (by decide) (by decide) rfl)
      (by decide) (by decide) rfl,
    rfl, rfl, rfl⟩

set_option maxRecDepth 100000 in
/-- Claim C23 fails on the code.  With a transport that reports 10 outbound streams and
accepts every send, an OpenRequest that arrives on inbound stream 0 of a fresh peer
connection is answered with an OpenResponse carrying `reverse_stream = 0` and binds
`i_stream_channel[0]` to channel 0, which is CONNECTING with `i_stream = 0` and
`o_stream = 1`. -/
theorem inbound_stream_zero_is_bound :
    find_channel_by_i_stream fresh_world.pc 0 = none ∧
    ∃ w : World,
      handle_message (sock_accepting 10) fresh_world [0, 0, 0, 0, 0, 0, 0, 0]
        DATA_CHANNEL_PPID_CONTROL 0 = some w ∧
      reachable (sock_accepting 10) w ∧
      w.pc.i_stream_channel 0 = some 0 ∧
      find_channel_by_i_stream w.pc 0 = some 0 ∧
      (w.pc.channels 0).state = DATA_CHANNEL_CONNECTING ∧
      (w.pc.channels 0).i_stream = 0 ∧ (w.pc.channels 0).o_stream = 1 ∧
      w.pc.o_stream_channel 0 = none ∧
      w.trace = [Event.sendv 1 [1, 0, 0, 0, 0, 0] DATA_CHANNEL_PPID_CONTROL false none] :=
  ⟨rfl, _, rfl,
    reachable.handle_message [0, 0, 0, 0, 0, 0, 0, 0] DATA_CHANNEL_PPID_CONTROL 0 _
      reachable.init (by decide) (by decide) rfl,
    rfl, rfl, rfl, rfl, rfl, rfl, rfl⟩

/-! ## The stream allocator -/

set_option maxRecDepth 100000 in
/-- Claim C26 fails on the code.  When the transport reports 0 outbound streams,
`find_free_o_stream` returns 1: on a fresh peer connection, where the spec's scan of the ids
1 to L - 1 with L = 0 finds nothing, and also on a peer connection in which outbound stream 1
is bound to channel 0.  With 1 or 2 reported streams the same calls return 0, and in each
case the world changes only by the call counter. -/
theorem find_free_o_stream_with_no_streams :
    find_free_o_stream (sock_accepting 0) fresh_world = (1, { fresh_world with calls := 1 }) ∧
    find_channel_by_o_stream pending_world.pc 1 = some 0 ∧
    find_free_o_stream (sock_accepting 0) pending_world =
      (1, { pending_world with calls := 1 }) ∧
    find_free_o_stream (sock_accepting 1) fresh_world = (0, { fresh_world with calls := 1 }) ∧
    find_free_o_stream (sock_accepting 1) pending_world =
      (0, { pending_world with calls := 1 }) ∧
    find_free_o_stream (sock_accepting 2) pending_world =
      (0, { pending_world with calls := 1 }) :=
  ⟨rfl, rfl, rfl, rfl, rfl, rfl⟩

set_option maxRecDepth 100000 in
/-- Claim C27 fails on the code.  When the transport reports 200 outbound streams,
`request_more_o_streams` asks for 65436 more outbound streams: on a fresh peer connection,
where no channel waits for a stream, and on a peer connection with one waiting channel.  With
100 reported streams it makes no request. -/
theorem request_more_o_streams_beyond_cap :
    count_upto (channel_needs_o_stream fresh_world.pc) NUMBER_OF_CHANNELS = 0 ∧
    (request_more_o_streams (sock_accepting 200) fresh_world).trace =
      [Event.add_streams 0 65436] ∧
    count_upto (channel_needs_o_stream pending_world.pc) NUMBER_OF_CHANNELS = 1 ∧
    (request_more_o_streams (sock_accepting 200) pending_world).trace =
      [Event.add_streams 0 65436] ∧
    (request_more_o_streams (sock_accepting 100) pending_world).trace = [] :=
  ⟨by decide, by decide, by decide, by decide, by decide⟩

/-! ## Bounds of the index tables -/

set_option maxRecDepth 100000 in
/-- Claim C28 fails on the code.  On a fresh peer connection, with a transport that reports
10 outbound streams and accepts every send, an OpenRequest on inbound stream 99 binds
`i_stream_channel[99]`; the same OpenRequest on inbound stream 100 passes the lookup (which is
bounds-checked and finds nothing) and the send of the response, and then writes
`i_stream_channel[100]`, beyond the table.  On the peer connection with channel 0 on outbound
stream 1, an OpenResponse with `reverse_stream = 1` on inbound stream 100 writes
`i_stream_channel[100]` as well.  A data message on inbound stream 100 changes nothing. -/
theorem inbound_index_not_checked :
    (∃ w : World,
      handle_message (sock_accepting 10) fresh_world [0, 0, 0, 0, 0, 0, 0, 0]
        DATA_CHANNEL_PPID_CONTROL 99 = some w ∧
      find_channel_by_i_stream w.pc 99 = some 0) ∧
    find_channel_by_i_stream fresh_world.pc 100 = none ∧
    find_free_channel fresh_world.pc = some 0 ∧
    pr_policy_of_channel_type 0 = some SCTP_PR_SCTP_NONE ∧
    (send_open_response_message (sock_accepting 10) { fresh_world with calls := 1 } 1 100).1 =
      true ∧
    handle_message (sock_accepting 10) fresh_world [0, 0, 0, 0, 0, 0, 0, 0]
      DATA_CHANNEL_PPID_CONTROL 100 = none ∧
    (∃ w : World,
      handle_message (sock_accepting 10) established_world [1, 0, 0, 0, 0, 1]
        DATA_CHANNEL_PPID_CONTROL 99 = some w ∧
      find_channel_by_i_stream w.pc 99 = some 0) ∧
    find_channel_by_o_stream established_world.pc 1 = some 0 ∧
    handle_message (sock_accepting 10) established_world [1, 0, 0, 0, 0, 1]
      DATA_CHANNEL_PPID_CONTROL 100 = none ∧
    handle_message (sock_accepting 10) established_world [104] DATA_CHANNEL_PPID_DOMSTRING
      100 = some established_world :=
  ⟨⟨_, rfl, rfl⟩, rfl, rfl, rfl, rfl, rfl, ⟨_, rfl, rfl⟩, rfl, rfl, rfl⟩

/-! ## The pending-reset buffer in reachable worlds -/

set_option maxRecDepth 100000 in
/-- Claim C24 as stated fails.  With a transport that accepts every send and refuses every
reset request: `open_channel`, an OpenResponse on inbound stream 5, `close_channel` on the
channel and an OUTGOING stream-reset notification listing 1 reach a world in which the
pending-reset buffer holds the one entry 1 while every channel has `o_stream = 0`. -/
theorem pending_reset_entry_without_channel :
    ∃ w1 w2 w3 w : World,
      open_channel (sock_denying 10) fresh_world 0 SCTP_PR_SCTP_NONE 0 = some (some 0, w1) ∧
      handle_message (sock_denying 10) w1 [1, 0, 0, 0, 0, 1] DATA_CHANNEL_PPID_CONTROL 5 =
        some w2 ∧
      close_channel (sock_denying 10) w2 (some 0) = some w3 ∧
      handle_notification (sock_denying 10) w3 10
        (sctp_notification.stream_reset_event outgoing_reset [1]) 10 = some w ∧
      reachable (sock_denying 10) w ∧
      w.pc.o_stream_buffer_counter = 1 ∧
      w.pc.o_stream_buffer 0 = 1 ∧
      ∀ c : Fin NUMBER_OF_CHANNELS, (w.pc.channels c).o_stream = 0 := by
  refine ⟨_, _, _, _, rfl, rfl, rfl, rfl,
    reachable.handle_notification 10
      (sctp_notification.stream_reset_event outgoing_reset [1]) 10 _
      (reachable.close_channel 0 _
        (reachable.handle_message [1, 0, 0, 0, 0, 1] DATA_CHANNEL_PPID_CONTROL 5 _
          (reachable.open_channel 0 SCTP_PR_SCTP_NONE 0 (some 0) _ reachable.init (by decide)
            (by decide) (by decide) rfl)
          (by decide) (by decide) rfl)
        rfl)
      (by simp [sctp_notification.fits]) rfl,
    rfl, rfl, ?_⟩
  decide

/-- Claim C24, amended.  In every world reached through calls with a defined result (no
write beyond an array, no read through `NULL` or of an uninitialised variable), whatever the
transport answers, the pending-reset counter is at most `NUMBER_OF_STREAMS`, the entries of
the buffer below the counter are pairwise distinct, and each of them is a stream id below
`NUMBER_OF_STREAMS`. -/
theorem pending_resets_distinct (sock : Socket) (w : World) (h : reachable sock w) :
    w.pc.o_stream_buffer_counter ≤ NUMBER_OF_STREAMS ∧
    (∀ m n : Fin NUMBER_OF_STREAMS, m.val < w.pc.o_stream_buffer_counter →
      n.val < w.pc.o_stream_buffer_counter →
      w.pc.o_stream_buffer m = w.pc.o_stream_buffer n → m = n) ∧
    (∀ m : Fin NUMBER_OF_STREAMS, m.val < w.pc.o_stream_buffer_counter →
      w.pc.o_stream_buffer m < NUMBER_OF_STREAMS) :=
  (reachable_safe sock w h).pending

set_option maxRecDepth 100000 in
/-- Claim C24, amended, in the world reached by three `open_channel` calls, three
OpenResponses and the close of channels 0 and 2 with a transport that refuses every reset
request: the buffer holds the two distinct entries 1 and 3. -/
theorem pending_resets_distinct_witness :
    ∃ w : World,
      reachable (sock_denying 10) w ∧
      w.pc.o_stream_buffer_counter = 2 ∧
      w.pc.o_stream_buffer 0 = 1 ∧ w.pc.o_stream_buffer 1 = 3 ∧
      (∀ m n : Fin NUMBER_OF_STREAMS, m.val < w.pc.o_stream_buffer_counter →
        n.val < w.pc.o_stream_buffer_counter →
        w.pc.o_stream_buffer m = w.pc.o_stream_buffer n → m = n) := by
  have hr : reachable (sock_denying 10) _ :=
    reachable.close_channel 2 _
      (reachable.close_channel 0 _
        (reachable.handle_message [1, 0, 0, 0, 0, 3] DATA_CHANNEL_PPID_CONTROL 7 _
          (reachable.handle_message [1, 0, 0, 0, 0, 2] DATA_CHANNEL_PPID_CONTROL 6 _
            (reachable.handle_message [1, 0, 0, 0, 0, 1] DATA_CHANNEL_PPID_CONTROL 5 _
              (reachable.open_channel 0 SCTP_PR_SCTP_NONE 0 (some 2) _
                (reachable.open_channel 0 SCTP_PR_SCTP_NONE 0 (some 1) _
                  (reachable.open_channel 0 SCTP_PR_SCTP_NONE 0 (some 0) _ reachable.init
                    (by decide) (by decide) (by decide) rfl)
                  (by decide) (by decide) (by decide) rfl)
                (by decide) (by decide) (by decide) rfl)
              (by decide) (by decide) rfl)
            (by decide) (by decide) rfl)
          (by decide) (by decide) rfl)
        rfl)
      rfl
  exact ⟨_, hr, rfl, rfl, rfl, (pending_resets_distinct (sock_denying 10) _ hr).2.1⟩

/-! ## Channels that are CONNECTING -/

set_option maxRecDepth 100000 in
/-- Claim C25 as stated fails.  With a transport that reports 1 outbound stream,
`open_channel` on the fresh peer connection finds no free outbound id and leaves channel 0
CONNECTING with `i_stream = 0` and `o_stream = 0`. -/
theorem connecting_channel_without_stream :
    ∃ w : World,
      open_channel (sock_accepting 1) fresh_world 0 SCTP_PR_SCTP_NONE 0 = some (some 0, w) ∧
      reachable (sock_accepting 1) w ∧
      (w.pc.channels 0).state = DATA_CHANNEL_CONNECTING ∧
      (w.pc.channels 0).i_stream = 0 ∧ (w.pc.channels 0).o_stream = 0 :=
  ⟨_, rfl,
    reachable.open_channel 0 SCTP_PR_SCTP_NONE 0 (some 0) _ reachable.init (by decide)
      (by decide) (by decide) rfl,
    rfl, rfl, rfl⟩

/-- Claim C25, amended.  Whenever `open_channel` returns a channel, that channel is
CONNECTING, its `i_stream` is what the record held before the call, and its `o_stream` is the
id that `find_free_o_stream` returned: when that id is not 0, `o_stream_channel` at that id
refers to the channel, and when it is 0 the channel is CONNECTING with `o_stream = 0` and
both index tables are as before. -/
theorem open_channel_connecting (sock : Socket) (w w2 : World)
    (unordered pr_policy pr_value : Nat) (c : Fin NUMBER_OF_CHANNELS)
    (h : open_channel sock w unordered pr_policy pr_value = some (some c, w2)) :
    (w2.pc.channels c).state = DATA_CHANNEL_CONNECTING ∧
    (w2.pc.channels c).i_stream = (w.pc.channels c).i_stream ∧
    (w2.pc.channels c).o_stream = (find_free_o_stream sock w).1 ∧
    w2.pc.i_stream_channel = w.pc.i_stream_channel ∧
    ((find_free_o_stream sock w).1 ≠ 0 →
      find_channel_by_o_stream w2.pc (find_free_o_stream sock w).1 = some c) ∧
    ((find_free_o_stream sock w).1 = 0 →
      w2.pc.o_stream_channel = w.pc.o_stream_channel) := by
  unfold open_channel at h
  split_ifs at h with h1 h2 h3
  · simp at h
  · simp at h
  · simp at h
  · split at h
    · simp at h
    · rename_i c0 hc
      have hlt := find_free_o_stream_lt sock w
      have hw1 := find_free_o_stream_world sock w
      rcases hfs : find_free_o_stream sock w with ⟨o, w1⟩
      rw [hfs] at hlt hw1
      simp only at hlt hw1
      simp only [hfs] at h
      subst hw1
      by_cases ho : o = 0
      · subst ho
        simp only [if_true, ne_eq, not_true_eq_false, if_false, Option.some.injEq,
          Prod.mk.injEq] at h
        obtain ⟨hcc, hw2⟩ := h
        subst hcc
        rw [← hw2, request_more_o_streams_pc]
        simp
      · simp only [if_neg ho] at h
        have hp := send_open_request_message_pc sock { w with calls := w.calls + 1 } o unordered
          pr_policy pr_value
        generalize send_open_request_message sock { w with calls := w.calls + 1 } o unordered
          pr_policy pr_value = res at h hp
        obtain ⟨b, w3⟩ := res
        simp only at h hp
        cases b
        · simp at h
        · simp only [if_true, ne_eq, ho, not_false_eq_true, dif_pos hlt, Option.some.injEq,
            Prod.mk.injEq] at h
          obtain ⟨hcc, hw2⟩ := h
          subst hcc
          rw [← hw2, hp]
          simp [find_channel_by_o_stream, hlt, ho]

set_option maxRecDepth 100000 in
/-- Claim C25, amended, for the first `open_channel` with 2 reported outbound streams (the
channel gets stream 1) and with 1 reported outbound stream (the channel gets none). -/
theorem open_channel_connecting_witness :
    (∃ w2 : World,
      open_channel (sock_accepting 2) fresh_world 0 SCTP_PR_SCTP_NONE 0 = some (some 0, w2) ∧
      (w2.pc.channels 0).state = DATA_CHANNEL_CONNECTING ∧
      (w2.pc.channels 0).o_stream = 1 ∧
      find_channel_by_o_stream w2.pc 1 = some 0) ∧
    (∃ w2 : World,
      open_channel (sock_accepting 1) fresh_world 0 SCTP_PR_SCTP_NONE 0 = some (some 0, w2) ∧
      (w2.pc.channels 0).state = DATA_CHANNEL_CONNECTING ∧
      (w2.pc.channels 0).o_stream = 0) := by
  have h2 : open_channel (sock_accepting 2) fresh_world 0 SCTP_PR_SCTP_NONE 0 =
      some (some 0, _) := rfl
  have h1 : open_channel (sock_accepting 1) fresh_world 0 SCTP_PR_SCTP_NONE 0 =
      some (some 0, _) := rfl
  obtain ⟨a1, -, a3, -, a5, -⟩ :=
    open_channel_connecting (sock_accepting 2) fresh_world _ 0 SCTP_PR_SCTP_NONE 0 0 h2
  obtain ⟨b1, -, b3, -, -, -⟩ :=
    open_channel_connecting (sock_accepting 1) fresh_world _ 0 SCTP_PR_SCTP_NONE 0 0 h1
  exact ⟨⟨_, h2, a1, a3, a5 (by decide)⟩, ⟨_, h1, b1, b3⟩⟩

/-! ## The calls that leave the defined behaviour -/

/-- When `handle_open_request_message` has no defined result, the inbound stream id is beyond
the index table or the channel type is unknown. -/
theorem handle_open_request_message_none (sock : Socket) (w : World) (req : List Nat)
    (i_stream : Nat) (h : handle_open_request_message sock w req i_stream = none) :
    NUMBER_OF_STREAMS ≤ i_stream ∨ pr_policy_of_channel_type (byte_at req 1) = none := by
  unfold handle_open_request_message at h
  split at h
  · simp at h
  · split at h
    · simp at h
    · have hlt := find_free_o_stream_lt sock w
      rcases hfs : find_free_o_stream sock w with ⟨o, w1⟩
      rw [hfs] at hlt
      simp only at hlt
      simp only [hfs] at h
      by_cases hi : i_stream < NUMBER_OF_STREAMS
      · right
        cases hp : pr_policy_of_channel_type (byte_at req 1) with
        | none => rfl
        | some p =>
          exfalso
          simp only [hp, dif_pos hi, dif_pos hlt] at h
          by_cases ho : o = 0
          · simp [ho] at h
          · simp only [if_neg ho] at h
            simp only [ne_eq, ho, not_false_eq_true, if_true] at h
            by_cases hsend : (send_open_response_message sock w1 o i_stream).1 = true
            · rw [if_pos hsend] at h
              simp at h
            · rw [if_neg hsend] at h
              simp at h
      · left
        omega

/-- The calls of the dispatcher without a defined result: an OpenRequest on an inbound stream
beyond the index table or with an unknown channel type, an OpenResponse on an inbound stream
beyond the index table or for an outbound stream that is not bound, and an Ack on an inbound
stream that is not bound. -/
theorem handle_message_none (sock : Socket) (w : World) (buffer : List Nat)
    (ppid i_stream : Nat) (h : handle_message sock w buffer ppid i_stream = none) :
    ppid = DATA_CHANNEL_PPID_CONTROL ∧
    ((byte_at buffer 0 = DATA_CHANNEL_OPEN_REQUEST ∧
        (NUMBER_OF_STREAMS ≤ i_stream ∨
          pr_policy_of_channel_type (byte_at buffer 1) = none)) ∨
      (byte_at buffer 0 = DATA_CHANNEL_OPEN_RESPONSE ∧
        (NUMBER_OF_STREAMS ≤ i_stream ∨
          find_channel_by_o_stream w.pc (ntohs_at buffer 4) = none)) ∨
      (byte_at buffer 0 = DATA_CHANNEL_ACK ∧ find_channel_by_i_stream w.pc i_stream = none)) := by
  unfold handle_message at h
  split_ifs at h with hp h1 h2 h3 h4 h5 h6 h7
  · exact ⟨hp, Or.inl ⟨h2, handle_open_request_message_none sock w buffer i_stream h⟩⟩
  · refine ⟨hp, Or.inr (Or.inl ⟨h4, ?_⟩)⟩
    unfold handle_open_response_message at h
    simp only at h
    split at h
    · rename_i hnone
      exact Or.inr hnone
    · split at h
      · simp at h
      · left
        omega
  · refine ⟨hp, Or.inr (Or.inr ⟨h6, ?_⟩)⟩
    unfold handle_open_ack_message at h
    split at h
    · assumption
    · split_ifs at h

/-- The function `open_channel` has a defined result in every world. -/
theorem open_channel_returns (sock : Socket) (w : World) (unordered pr_policy pr_value : Nat) :
    ∃ r w2, open_channel sock w unordered pr_policy pr_value = some (r, w2) := by
  unfold open_channel
  split_ifs
  · exact ⟨_, _, rfl⟩
  · exact ⟨_, _, rfl⟩
  · exact ⟨_, _, rfl⟩
  · split
    · exact ⟨_, _, rfl⟩
    · have hlt := find_free_o_stream_lt sock w
      rcases hfs : find_free_o_stream sock w with ⟨o, w1⟩
      rw [hfs] at hlt
      simp only at hlt
      simp only
      by_cases ho : o = 0
      · simp only [ho, if_true, ne_eq, not_true_eq_false, if_false]
        exact ⟨_, _, rfl⟩
      · simp only [if_neg ho]
        simp only [ne_eq, ho, not_false_eq_true, if_true, dif_pos hlt]
        by_cases hsend :
            (send_open_request_message sock w1 o unordered pr_policy pr_value).1 = true
        · rw [if_pos hsend]
          exact ⟨_, _, rfl⟩
        · rw [if_neg hsend]
          exact ⟨_, _, rfl⟩

/-! ## The pending-reset buffer in runs without an undefined call -/

/-- In every world reached through calls with a defined result, whatever the transport
answers, every channel's `o_stream` is below `NUMBER_OF_STREAMS` and the pending-reset counter
is at most `NUMBER_OF_STREAMS`; `reset_outgoing_stream` for the `o_stream` of any channel
returns, and it either leaves the peer connection as it is or appends one entry with the
counter below `NUMBER_OF_STREAMS` beforehand; and both callers of `reset_outgoing_stream` run
to their end without an access beyond an array: `close_channel` on any channel, and
`handle_notification` for any stream-reset or stream-change notification, with its whole loop
over the listed stream ids. -/
theorem reset_path_in_bounds (sock : Socket) (w : World) (h : reachable sock w) :
    o_streams_in_range w.pc ∧
    w.pc.o_stream_buffer_counter ≤ NUMBER_OF_STREAMS ∧
    (∀ c : Fin NUMBER_OF_CHANNELS, ∃ pc1,
      reset_outgoing_stream w.pc (w.pc.channels c).o_stream = some pc1 ∧
      (pc1 = w.pc ∨
        (w.pc.o_stream_buffer_counter < NUMBER_OF_STREAMS ∧
          pc1.o_stream_buffer_counter = w.pc.o_stream_buffer_counter + 1))) ∧
    (∀ c : Fin NUMBER_OF_CHANNELS, ∃ w2, close_channel sock w (some c) = some w2) ∧
    (∀ (sn_length : Nat) (flags : strreset_flags) (list : List Nat) (n : Nat),
      ∃ w2, handle_notification sock w sn_length
        (sctp_notification.stream_reset_event flags list) n = some w2) ∧
    (∀ (sn_length : Nat) (flags : strchange_flags) (n : Nat),
      ∃ w2, handle_notification sock w sn_length
        (sctp_notification.stream_change_event flags) n = some w2) := by
  have hs := reachable_safe sock w h
  refine ⟨hs.o_range, hs.pending.1, ?_, ?_, ?_, ?_⟩
  · intro c
    obtain ⟨pc1, h1, -, -, h2⟩ :=
      reset_outgoing_stream_safe w.pc (w.pc.channels c).o_stream hs (hs.o_range c)
    exact ⟨pc1, h1, h2⟩
  · intro c
    obtain ⟨w2, h2, -⟩ := close_channel_safe sock w c hs
    exact ⟨w2, h2⟩
  · intro sn_length flags list n
    obtain ⟨w2, h2, -⟩ := handle_notification_safe sock w sn_length
      (sctp_notification.stream_reset_event flags list) n hs (by simp)
    exact ⟨w2, h2⟩
  · intro sn_length flags n
    obtain ⟨w2, h2, -⟩ := handle_notification_safe sock w sn_length
      (sctp_notification.stream_change_event flags) n hs (by simp)
    exact ⟨w2, h2⟩

/-! ## The pending-reset counter after a write beyond the index table -/

/-- The search loop of `reset_outgoing_stream` reads beyond the buffer when it starts inside
it, has more rounds to go than entries are left, and no entry it visits holds the stream
id. -/
theorem o_stream_buffer_has_beyond (pc : peer_connection) (o : Nat) (k i : Nat)
    (hi : i ≤ NUMBER_OF_STREAMS) (hk : NUMBER_OF_STREAMS < i + k)
    (hne : ∀ m : Fin NUMBER_OF_STREAMS, pc.o_stream_buffer m ≠ o) :
    o_stream_buffer_has pc o i k = none := by
  induction k generalizing i with
  | zero => omega
  | succ k ih =>
    unfold o_stream_buffer_has
    split
    · rename_i hlt
      rw [if_neg (hne ⟨i, hlt⟩)]
      exact ih (i + 1) (by omega) (by omega)
    · rfl

/-- With a pending-reset counter above `NUMBER_OF_STREAMS`, `reset_outgoing_stream` for a
stream id that is not in the buffer reads beyond the buffer. -/
theorem reset_outgoing_stream_beyond (pc : peer_connection) (o : Nat)
    (hk : NUMBER_OF_STREAMS < pc.o_stream_buffer_counter)
    (hne : ∀ m : Fin NUMBER_OF_STREAMS, pc.o_stream_buffer m ≠ o) :
    reset_outgoing_stream pc o = none := by
  unfold reset_outgoing_stream
  rw [o_stream_buffer_has_beyond pc o pc.o_stream_buffer_counter 0 (Nat.zero_le _)
    (by omega) hne]

/-- With a pending-reset counter above `NUMBER_OF_STREAMS`, `close_channel` on an OPEN channel
whose outbound stream is not in the buffer reads beyond the buffer. -/
theorem close_channel_beyond (sock : Socket) (w : World) (c : Fin NUMBER_OF_CHANNELS)
    (hopen : (w.pc.channels c).state = DATA_CHANNEL_OPEN)
    (hk : NUMBER_OF_STREAMS < w.pc.o_stream_buffer_counter)
    (hne : ∀ m : Fin NUMBER_OF_STREAMS, w.pc.o_stream_buffer m ≠ (w.pc.channels c).o_stream) :
    close_channel sock w (some c) = none := by
  unfold close_channel
  simp only [hopen, ne_eq, not_true_eq_false, if_false,
    reset_outgoing_stream_beyond w.pc (w.pc.channels c).o_stream hk hne]

set_option maxRecDepth 100000 in
/-- Claim C29 fails on the code.  After `open_channel` and an OpenResponse on inbound stream
5, channel 0 is OPEN on outbound stream 1 and the pending-reset buffer is empty.  An
OpenRequest on inbound stream 225 then passes the lookup, which is bounds-checked and finds
nothing, takes channel 1 and outbound stream 2, and writes `pc->i_stream_channel[225]`; with
64-bit pointers the object at that place is `o_stream_buffer_counter`.  Once the counter
holds a value above `NUMBER_OF_STREAMS`, `reset_outgoing_stream` for stream 1 and
`close_channel` on channel 0 go beyond `o_stream_buffer`. -/
theorem unchecked_store_reaches_the_counter :
    ∃ w1 w2 : World,
      open_channel (sock_accepting 10) fresh_world 0 SCTP_PR_SCTP_NONE 0 = some (some 0, w1) ∧
      handle_message (sock_accepting 10) w1 [1, 0, 0, 0, 0, 1] DATA_CHANNEL_PPID_CONTROL 5 =
        some w2 ∧
      reachable (sock_accepting 10) w2 ∧
      (w2.pc.channels 0).state = DATA_CHANNEL_OPEN ∧ (w2.pc.channels 0).o_stream = 1 ∧
      w2.pc.o_stream_buffer_counter = 0 ∧
      find_channel_by_i_stream w2.pc 225 = none ∧
      find_free_channel w2.pc = some 1 ∧
      (find_free_o_stream (sock_accepting 10) w2).1 = 2 ∧
      pr_policy_of_channel_type 0 = some SCTP_PR_SCTP_NONE ∧
      handle_message (sock_accepting 10) w2 [0, 0, 0, 0, 0, 0, 0, 0]
        DATA_CHANNEL_PPID_CONTROL 225 = none ∧
      offsetof_i_stream_channel_at 225 = offsetof_o_stream_buffer_counter ∧
      (∀ counter : Nat, NUMBER_OF_STREAMS < counter →
        reset_outgoing_stream { w2.pc with o_stream_buffer_counter := counter } 1 = none ∧
        close_channel (sock_accepting 10)
          { w2 with pc := { w2.pc with o_stream_buffer_counter := counter } } (some 0) =
          none) := by
  refine ⟨_, _, rfl, rfl,
    reachable.handle_message [1, 0, 0, 0, 0, 1] DATA_CHANNEL_PPID_CONTROL 5 _
      (reachable.open_channel 0 SCTP_PR_SCTP_NONE 0 (some 0) _ reachable.init (by decide)
        (by decide) (by decide) rfl)
      (by decide) (by decide) rfl,
    rfl, rfl, rfl, rfl, rfl, rfl, rfl, rfl, rfl, ?_⟩
  intro counter hc
  exact ⟨reset_outgoing_stream_beyond _ 1 hc (fun _ => Nat.zero_ne_one),
    close_channel_beyond (sock_accepting 10) _ 0 rfl hc (fun _ => Nat.zero_ne_one)⟩

end Rtcweb
